import Mathlib

/-!
# Particle simulation of the datacenter planner

A shallow embedding of `src/js/3d/coolerParticles.js` and
`src/js/3d/rackParticles.js`.

Modelling conventions.

* Numbers are rationals (`ℚ`).  The definitions of the first part compute
  exactly; they serve the claims about which operations run, in which order and
  on which slots.  The namespace `Stored` repeats the particle modules with every
  arithmetic operation rounded to a JavaScript number and every write into a
  `Float32Array` rounded to a `Float32` value; it serves the claims about the
  values that are stored.
* A `Float32Array` is a `List ℚ` of fixed length.  A write is `List.set` (a
  write outside the array is ignored, as in JavaScript), a read is `rd`.
* `Math.random()` is a stream `random : ℕ → ℚ`; the state counts how many
  draws have been consumed (`drawn`), so the `k`-th call returns `random k`.
* Scene objects (`THREE.Object3D` references) are natural numbers compared by
  identity.  The library calls `Object3D.localToWorld`,
  `Vector3.normalize` and `Raycaster.intersectObjects` are parameters, gathered
  in `Scene`.
* Every raycaster query is logged (`queries`) and every `setTimeout` callback
  that has been registered and has not run yet is kept in `timeouts`.
-/

namespace DatacenterPlanner

/-! ## Data model -/

/-- A `THREE.Vector3`. -/
structure Vector3 where
  x : ℚ
  y : ℚ
  z : ℚ
deriving DecidableEq

/-- One element of the array returned by `Raycaster.intersectObjects`. -/
structure Intersection where
  distance : ℚ
  object : ℕ
deriving DecidableEq

/-- The arguments of one collision query: `raycasterCollision.set(origin, direction)`
followed by `raycasterCollision.intersectObjects(objects, recursive)`. -/
structure RayQuery where
  origin : Vector3
  direction : Vector3
  objects : List ℕ
  recursive : Bool
deriving DecidableEq

/-- What the particle modules import from the rest of the program (`models`,
`floor`, `walls`) and from the rendering library. -/
structure Scene where
  models : List ℕ
  floor : ℕ
  walls : List ℕ
  localToWorld : ℕ → Vector3 → Vector3
  normalize : Vector3 → Vector3
  intersectObjects : RayQuery → List Intersection

/-- The five attribute arrays of one particle geometry. -/
structure Buffers where
  positions : List ℚ
  velocities : List ℚ
  lifetimes : List ℚ
  maxLifetime : List ℚ
  colors : List ℚ
deriving DecidableEq

/-- A registered `setTimeout` callback of `updateRackParticles`: it captured the
arrays of the store entry number `system` and the slot `particleIndex`; `delay` is the
second argument of `setTimeout`, in milliseconds. -/
structure Timeout where
  system : ℕ
  particleIndex : ℕ
  delay : ℕ
deriving DecidableEq

/-- The effects threaded through the code: draws consumed from `Math.random`,
collision queries made, callbacks waiting on the timer queue. -/
structure Effects where
  drawn : ℕ
  queries : List RayQuery
  timeouts : List Timeout

/-- The arrays of the system being updated, with the effects so far. -/
structure Sim where
  geometry : Buffers
  fx : Effects

/-- One entry of a module's `particleSystems` array: the geometry and the owning
emitter (`cooler` or `rack`). -/
structure ParticleData where
  geometry : Buffers
  emitter : ℕ
deriving DecidableEq

/-- The module-level state of one particle module. -/
structure Store where
  particleSystems : List ParticleData
  fx : Effects

/-- Reading `a[i]` from a typed array. -/
def rd (a : List ℚ) (i : ℕ) : ℚ := a.getD i 0

/-! ## Respawn policies -/

/-- The function `initCoolerParticleProps`; `n` is the number of draws consumed before the
call, which makes seven draws. -/
def initCoolerParticleProps (random : ℕ → ℚ) (n : ℕ) (index : ℕ) (b : Buffers) : Buffers :=
  { positions :=
      ((b.positions.set (index * 3) 0).set (index * 3 + 1)
        (((random n - 0.5) * 0.2) + 20)).set (index * 3 + 2) ((random (n + 1) - 0.5) * 40)
    velocities :=
      ((b.velocities.set (index * 3) (random (n + 2) * 2)).set (index * 3 + 1)
        (-(random (n + 3) * 0.1 + 0.1))).set (index * 3 + 2) ((random (n + 4) - 0.5) * 0.02)
    colors :=
      ((b.colors.set (index * 3) 0.1).set (index * 3 + 1) 0.5).set (index * 3 + 2) 1.0
    lifetimes := b.lifetimes.set index (random (n + 5) * 1000)
    maxLifetime := b.maxLifetime.set index (1000 + random (n + 6) * 500) }

/-- The constant `accelerationFactor` of `initRackParticleProps`. -/
def accelerationFactor : ℚ := 2.5

/-- The function `initRackParticleProps`; `n` is the number of draws consumed before the
call, which makes eight draws. -/
def initRackParticleProps (random : ℕ → ℚ) (n : ℕ) (index : ℕ) (b : Buffers) : Buffers :=
  { positions :=
      ((b.positions.set (index * 3) ((random n - 0.5) * 0.5)).set (index * 3 + 1)
        ((random (n + 1) - 0.5) * 2.5)).set (index * 3 + 2) (-((random (n + 2) - 0.5) + 0.8))
    velocities :=
      ((b.velocities.set (index * 3) ((random (n + 3) - 0.5) * 0.001 * accelerationFactor)).set
        (index * 3 + 1) (((random (n + 4) - 0.5) * 0.001 + 0.001) * accelerationFactor)).set
        (index * 3 + 2) (-(random (n + 5) * 0.001 + 0.001) * accelerationFactor)
    colors :=
      ((b.colors.set (index * 3) 1.0).set (index * 3 + 1) 0.1).set (index * 3 + 2) 0.1
    lifetimes := b.lifetimes.set index (random (n + 6) * 1000)
    maxLifetime := b.maxLifetime.set index (1000 + random (n + 7) * 500) }

/-! ## One update of one slot -/

/-- The module constant `accelerations` of `coolerParticles.js`. -/
def accelerations : List ℚ := [0.5, 1.5, 1]

/-- The statement `lifetimes[particleIndex]++`. -/
def incrementLifetime (particleIndex : ℕ) (b : Buffers) : Buffers :=
  { b with lifetimes := b.lifetimes.set particleIndex (rd b.lifetimes particleIndex + 1) }

/-- The test `lifetimes[particleIndex] >= maxLifetime[particleIndex]`. -/
def expired (particleIndex : ℕ) (b : Buffers) : Bool :=
  decide (rd b.lifetimes particleIndex ≥ rd b.maxLifetime particleIndex)

/-- The block "Update position" of `updateCoolerParticles`, with `i = 3 * particleIndex`. -/
def coolerUpdatePosition (i : ℕ) (b : Buffers) : Buffers :=
  { b with positions :=
      let p0 := b.positions.set i (rd b.positions i + rd b.velocities i * rd accelerations 0)
      let p1 := p0.set (i + 1) (rd p0 (i + 1) + rd b.velocities (i + 1) * rd accelerations 1)
      p1.set (i + 2) (rd p1 (i + 2) + rd b.velocities (i + 2) * rd accelerations 2) }

/-- The block "Update position" of `updateRackParticles`. -/
def rackUpdatePosition (i : ℕ) (b : Buffers) : Buffers :=
  { b with positions :=
      let p0 := b.positions.set i (rd b.positions i + rd b.velocities i)
      let p1 := p0.set (i + 1) (rd p0 (i + 1) + rd b.velocities (i + 1))
      p1.set (i + 2) (rd p1 (i + 2) + rd b.velocities (i + 2)) }

/-- The block "Add some turbulence" of `updateCoolerParticles`: three draws, the first
being draw number `n`. -/
def addTurbulence (random : ℕ → ℚ) (n : ℕ) (i : ℕ) (b : Buffers) : Buffers :=
  { b with velocities :=
      let v0 := b.velocities.set i (rd b.velocities i + (random n - 0.5) * 0.001)
      let v1 := v0.set (i + 1) (rd v0 (i + 1) + (random (n + 1) - 0.5) * 0.01)
      v1.set (i + 2) (rd v1 (i + 2) + (random (n + 2) - 0.5) * 0.02) }

/-- The vector `new THREE.Vector3(a[i], a[i + 1], a[i + 2])`. -/
def vectorAt (a : List ℚ) (i : ℕ) : Vector3 :=
  { x := rd a i, y := rd a (i + 1), z := rd a (i + 2) }

/-- The list `objectsToTest`: `[...models.filter(obj => obj !== emitter), floor, ...walls]`. -/
def objectsToTest (sc : Scene) (emitter : ℕ) : List ℕ :=
  sc.models.filter (fun obj => obj != emitter) ++ [sc.floor] ++ sc.walls

/-- The collision query of a slot: the ray starts at the world image of the slot's
position and points along the normalised velocity; `recursive` is the second argument
of `intersectObjects`. -/
def collisionQuery (sc : Scene) (emitter : ℕ) (recursive : Bool) (i : ℕ) (b : Buffers) :
    RayQuery :=
  { origin := sc.localToWorld emitter (vectorAt b.positions i)
    direction := sc.normalize (vectorAt b.velocities i)
    objects := objectsToTest sc emitter
    recursive := recursive }

/-- The test `intersects.length > 0 && intersects[0].distance < 0.1`. -/
def collides (intersects : List Intersection) : Bool :=
  match intersects with
  | [] => false
  | first :: _ => decide (first.distance < 0.1)

/-- The writes of the collision branch that both modules share: the impact colour and
the zero velocity. -/
def collisionResponse (i : ℕ) (b : Buffers) : Buffers :=
  { b with
    colors := ((b.colors.set i 1.0).set (i + 1) 0.5).set (i + 2) 0.0
    velocities := ((b.velocities.set i 0).set (i + 1) 0).set (i + 2) 0 }

/-- Whether the `if` of the block "Update particle lifetime" resets the slot. -/
def resets (s : Sim) (particleIndex : ℕ) : Bool :=
  expired particleIndex (incrementLifetime particleIndex s.geometry)

/-- The number of draws consumed when `updateCoolerParticles` reaches the block
"Add some turbulence". -/
def coolerDrawn (s : Sim) (particleIndex : ℕ) : ℕ :=
  if resets s particleIndex then s.fx.drawn + 7 else s.fx.drawn

/-- The number of draws consumed when `updateRackParticles` reaches the block
"Check for collisions". -/
def rackDrawn (s : Sim) (particleIndex : ℕ) : ℕ :=
  if resets s particleIndex then s.fx.drawn + 8 else s.fx.drawn

/-- The arrays after the block "Update particle lifetime" of `updateCoolerParticles`. -/
def coolerLifetime (random : ℕ → ℚ) (s : Sim) (particleIndex : ℕ) : Buffers :=
  let b1 := incrementLifetime particleIndex s.geometry
  if expired particleIndex b1 then initCoolerParticleProps random s.fx.drawn particleIndex b1
  else b1

/-- The arrays after the block "Update particle lifetime" of `updateRackParticles`. -/
def rackLifetime (random : ℕ → ℚ) (s : Sim) (particleIndex : ℕ) : Buffers :=
  let b1 := incrementLifetime particleIndex s.geometry
  if expired particleIndex b1 then initRackParticleProps random s.fx.drawn particleIndex b1
  else b1

/-- The arrays when `updateCoolerParticles` reaches the block "Check for collisions":
lifetime, position and turbulence have been done (`i = 3 * particleIndex`). -/
def coolerMove (random : ℕ → ℚ) (s : Sim) (particleIndex : ℕ) : Buffers :=
  let i := 3 * particleIndex
  let b2 := coolerLifetime random s particleIndex
  let b3 := coolerUpdatePosition i b2
  addTurbulence random (coolerDrawn s particleIndex) i b3

/-- The arrays when `updateRackParticles` reaches the block "Check for collisions". -/
def rackMove (random : ℕ → ℚ) (s : Sim) (particleIndex : ℕ) : Buffers :=
  let i := 3 * particleIndex
  let b2 := rackLifetime random s particleIndex
  rackUpdatePosition i b2

/-- The array `intersects` of `updateCoolerParticles` for one slot. -/
def coolerIntersects (sc : Scene) (random : ℕ → ℚ) (cooler : ℕ) (s : Sim)
    (particleIndex : ℕ) : List Intersection :=
  sc.intersectObjects
    (collisionQuery sc cooler false (3 * particleIndex) (coolerMove random s particleIndex))

/-- The array `intersects` of `updateRackParticles` for one slot. -/
def rackIntersects (sc : Scene) (random : ℕ → ℚ) (rack : ℕ) (s : Sim)
    (particleIndex : ℕ) : List Intersection :=
  sc.intersectObjects
    (collisionQuery sc rack true (3 * particleIndex) (rackMove random s particleIndex))

/-- The body of the `for` loop of `updateCoolerParticles` for one `particleIndex`
(`i = 3 * particleIndex`). -/
def coolerParticle (sc : Scene) (random : ℕ → ℚ) (cooler : ℕ) (s : Sim) (particleIndex : ℕ) :
    Sim :=
  let i := 3 * particleIndex
  let b4 := coolerMove random s particleIndex
  let query := collisionQuery sc cooler false i b4
  let intersects := sc.intersectObjects query
  let b5 := if collides intersects then collisionResponse i b4 else b4
  { geometry := b5
    fx :=
      { drawn := coolerDrawn s particleIndex + 3
        queries := s.fx.queries ++ [query]
        timeouts := s.fx.timeouts } }

/-- The body of the `for` loop of `updateRackParticles` for one `particleIndex` of the
store entry number `system`. -/
def rackParticle (sc : Scene) (random : ℕ → ℚ) (rack : ℕ) (system : ℕ) (s : Sim)
    (particleIndex : ℕ) : Sim :=
  let i := 3 * particleIndex
  let b3 := rackMove random s particleIndex
  let query := collisionQuery sc rack true i b3
  let intersects := sc.intersectObjects query
  let hit := collides intersects
  let b4 := if hit then collisionResponse i b3 else b3
  { geometry := b4
    fx :=
      { drawn := rackDrawn s particleIndex
        queries := s.fx.queries ++ [query]
        timeouts :=
          if hit then
            s.fx.timeouts ++
              [{ system := system, particleIndex := particleIndex, delay := 1000 }]
          else s.fx.timeouts } }

/-! ## The update loops -/

/-- The values of `particleIndex` visited by `for (let i = 0; i < positions.length; i += 3)`. -/
def particleIndices (b : Buffers) : List ℕ := List.range ((b.positions.length + 2) / 3)

/-- The state of the `for` loop of `updateCoolerParticles` when it reaches slot `p`. -/
def coolerReach (sc : Scene) (random : ℕ → ℚ) (cooler : ℕ) (s : Sim) (p : ℕ) : Sim :=
  (List.range p).foldl (coolerParticle sc random cooler) s

/-- The state of the `for` loop of `updateRackParticles` when it reaches slot `p`. -/
def rackReach (sc : Scene) (random : ℕ → ℚ) (rack : ℕ) (system : ℕ) (s : Sim) (p : ℕ) : Sim :=
  (List.range p).foldl (rackParticle sc random rack system) s

/-- The `for` loop of `updateCoolerParticles` over one system. -/
def coolerSystem (sc : Scene) (random : ℕ → ℚ) (cooler : ℕ) (s : Sim) : Sim :=
  (particleIndices s.geometry).foldl (coolerParticle sc random cooler) s

/-- The `for` loop of `updateRackParticles` over one system. -/
def rackSystem (sc : Scene) (random : ℕ → ℚ) (rack : ℕ) (system : ℕ) (s : Sim) : Sim :=
  (particleIndices s.geometry).foldl (rackParticle sc random rack system) s

/-- The `forEach` of `updateCoolerParticles`. -/
def forEachCooler (sc : Scene) (random : ℕ → ℚ) :
    List ParticleData → Effects → List ParticleData × Effects
  | [], fx => ([], fx)
  | d :: rest, fx =>
    let s := coolerSystem sc random d.emitter { geometry := d.geometry, fx := fx }
    let r := forEachCooler sc random rest s.fx
    ({ d with geometry := s.geometry } :: r.1, r.2)

/-- The `forEach` of `updateRackParticles`; `system` is the position of the head entry
in the store. -/
def forEachRack (sc : Scene) (random : ℕ → ℚ) :
    ℕ → List ParticleData → Effects → List ParticleData × Effects
  | _, [], fx => ([], fx)
  | system, d :: rest, fx =>
    let s := rackSystem sc random d.emitter system { geometry := d.geometry, fx := fx }
    let r := forEachRack sc random (system + 1) rest s.fx
    ({ d with geometry := s.geometry } :: r.1, r.2)

/-- The function `updateCoolerParticles`. -/
def updateCoolerParticles (sc : Scene) (random : ℕ → ℚ) (st : Store) : Store :=
  let r := forEachCooler sc random st.particleSystems st.fx
  { particleSystems := r.1, fx := r.2 }

/-- The function `updateRackParticles`. -/
def updateRackParticles (sc : Scene) (random : ℕ → ℚ) (st : Store) : Store :=
  let r := forEachRack sc random 0 st.particleSystems st.fx
  { particleSystems := r.1, fx := r.2 }

/-- The callback registered by `updateRackParticles` runs: the `k`-th waiting callback
leaves the queue and resets its slot with `initRackParticleProps`. -/
def runTimeout (random : ℕ → ℚ) (k : ℕ) (st : Store) : Store :=
  match st.fx.timeouts[k]? with
  | none => st
  | some t =>
    match st.particleSystems[t.system]? with
    | none => { st with fx := { st.fx with timeouts := st.fx.timeouts.eraseIdx k } }
    | some d =>
      { particleSystems :=
          st.particleSystems.set t.system
            { d with geometry := initRackParticleProps random st.fx.drawn t.particleIndex d.geometry }
        fx := { st.fx with drawn := st.fx.drawn + 8, timeouts := st.fx.timeouts.eraseIdx k } }

/-! ## Creation -/

/-- Five freshly allocated, zero-filled arrays for `particleCount` slots. -/
def allocate (particleCount : ℕ) : Buffers :=
  { positions := List.replicate (particleCount * 3) 0
    velocities := List.replicate (particleCount * 3) 0
    lifetimes := List.replicate particleCount 0
    maxLifetime := List.replicate particleCount 0
    colors := List.replicate (particleCount * 3) 0 }

/-- The initialisation loop of `createCoolerParticles`. -/
def initCoolerLoop (random : ℕ → ℚ) (particleCount : ℕ) (s : Sim) : Sim :=
  (List.range particleCount).foldl
    (fun s i =>
      { geometry := initCoolerParticleProps random s.fx.drawn i s.geometry
        fx := { s.fx with drawn := s.fx.drawn + 7 } })
    s

/-- The initialisation loop of `createRackParticles`. -/
def initRackLoop (random : ℕ → ℚ) (particleCount : ℕ) (s : Sim) : Sim :=
  (List.range particleCount).foldl
    (fun s i =>
      { geometry := initRackParticleProps random s.fx.drawn i s.geometry
        fx := { s.fx with drawn := s.fx.drawn + 8 } })
    s

/-- The function `createCoolerParticles`. -/
def createCoolerParticles (random : ℕ → ℚ) (coolerObject : ℕ) (st : Store) : Store :=
  let particleCount := 500
  let s := initCoolerLoop random particleCount { geometry := allocate particleCount, fx := st.fx }
  { particleSystems := st.particleSystems ++ [{ geometry := s.geometry, emitter := coolerObject }]
    fx := s.fx }

/-- The function `createRackParticles`. -/
def createRackParticles (random : ℕ → ℚ) (rackObject : ℕ) (st : Store) : Store :=
  let particleCount := 100
  let s := initRackLoop random particleCount { geometry := allocate particleCount, fx := st.fx }
  { particleSystems := st.particleSystems ++ [{ geometry := s.geometry, emitter := rackObject }]
    fx := s.fx }

/-! ## Slot view and well-formedness -/

/-- One particle slot: a row across the five parallel arrays. -/
structure Particle where
  position : Vector3
  velocity : Vector3
  color : Vector3
  age : ℚ
  maxAge : ℚ
deriving DecidableEq

/-- The slot number `p` of a geometry. -/
def particleAt (b : Buffers) (p : ℕ) : Particle :=
  { position := vectorAt b.positions (3 * p)
    velocity := vectorAt b.velocities (3 * p)
    color := vectorAt b.colors (3 * p)
    age := rd b.lifetimes p
    maxAge := rd b.maxLifetime p }

/-- The arrays have the lengths that `createCoolerParticles` and `createRackParticles`
give them for `n` slots. -/
def Sized (n : ℕ) (b : Buffers) : Prop :=
  b.positions.length = 3 * n ∧ b.velocities.length = 3 * n ∧ b.colors.length = 3 * n ∧
    b.lifetimes.length = n ∧ b.maxLifetime.length = n

/-- Every draw of the stream lies in `[0, 1)`, as `Math.random` promises. -/
def UnitDraws (random : ℕ → ℚ) : Prop := ∀ k, 0 ≤ random k ∧ random k < 1

/-- The constant stream of draws `1/2`. -/
def halfDraws : ℕ → ℚ := fun _ => 1 / 2

/-! ## Ranges of a freshly respawned slot -/

/-- The lifetime ranges after a respawn: age in `[0, 1000)`, maximal age in `[1000, 1500)`. -/
def LifetimeRanges (a : Particle) : Prop :=
  0 ≤ a.age ∧ a.age < 1000 ∧ 1000 ≤ a.maxAge ∧ a.maxAge < 1500

/-- The position, velocity and colour ranges of the cooler policy. -/
def CoolerSpawnRanges (a : Particle) : Prop :=
  a.position.x = 0 ∧ (19.9 ≤ a.position.y ∧ a.position.y < 20.1) ∧
    (-20 ≤ a.position.z ∧ a.position.z < 20) ∧
    (0 ≤ a.velocity.x ∧ a.velocity.x < 2) ∧
    (-0.2 < a.velocity.y ∧ a.velocity.y ≤ -0.1) ∧
    (-0.01 ≤ a.velocity.z ∧ a.velocity.z < 0.01) ∧
    a.color = ⟨0.1, 0.5, 1.0⟩

/-- The position, velocity and colour ranges of the rack policy. -/
def RackSpawnRanges (a : Particle) : Prop :=
  (-0.25 ≤ a.position.x ∧ a.position.x < 0.25) ∧
    (-1.25 ≤ a.position.y ∧ a.position.y < 1.25) ∧
    (-1.3 < a.position.z ∧ a.position.z ≤ -0.3) ∧
    (∃ u v w : ℚ, (-0.0005 ≤ u ∧ u < 0.0005) ∧ (-0.0005 ≤ v ∧ v < 0.0005) ∧
      (0 ≤ w ∧ w < 0.001) ∧
      a.velocity = ⟨2.5 * u, 2.5 * (v + 0.001), 2.5 * -(w + 0.001)⟩) ∧
    0 < a.velocity.y ∧ a.velocity.z < 0 ∧
    a.color = ⟨1.0, 0.1, 0.1⟩

/-! ## Concrete scenes and systems -/

/-- The constant stream of draws `0`. -/
def zeroDraws : ℕ → ℚ := fun _ => 0

/-- No effect has happened yet. -/
def noEffects : Effects := { drawn := 0, queries := [], timeouts := [] }

/-- A scene in which no ray hits anything; emitters are placed at the origin without
rotation or scale, and `normalize` is replaced by the identity. -/
def quietScene : Scene :=
  { models := []
    floor := 0
    walls := []
    localToWorld := fun _ v => v
    normalize := fun v => v
    intersectObjects := fun _ => [] }

/-- A scene with one wall (object 1) that every ray with a positive x direction hits at
distance 0.05, and no other ray hits. -/
def wallScene : Scene :=
  { models := []
    floor := 0
    walls := [1]
    localToWorld := fun _ v => v
    normalize := fun v => v
    intersectObjects := fun q =>
      if 0 < q.direction.x then [{ distance := 0.05, object := 1 }] else [] }

/-- A one-slot cooler system whose slot is one tick away from its maximal age. -/
def agedCooler : Sim :=
  { geometry :=
      { positions := [3, 18, 1]
        velocities := [1, -0.15, 0]
        lifetimes := [999]
        maxLifetime := [1000]
        colors := [0.1, 0.5, 1.0] }
    fx := noEffects }

/-- A one-slot rack system whose slot is one tick away from its maximal age. -/
def agedRack : Sim :=
  { geometry :=
      { positions := [0, 1, -1]
        velocities := [0, 0.0025, -0.00375]
        lifetimes := [999]
        maxLifetime := [1000]
        colors := [1.0, 0.1, 0.1] }
    fx := noEffects }

/-- A one-slot cooler system whose slot has just been spawned. -/
def youngCooler : Sim :=
  { geometry :=
      { positions := [0, 20, 0]
        velocities := [1, -0.15, 0]
        lifetimes := [0]
        maxLifetime := [1000]
        colors := [0.1, 0.5, 1.0] }
    fx := noEffects }

/-! ## Reachable states and buffer lengths -/

/-- The lengths of the five arrays, in the order positions, velocities, colors, lifetimes,
maxLifetime. -/
def lengths (b : Buffers) : ℕ × ℕ × ℕ × ℕ × ℕ :=
  (b.positions.length, b.velocities.length, b.colors.length, b.lifetimes.length,
    b.maxLifetime.length)

/-- The stores of the cooler module that can be reached from the empty store by creating
systems and by update ticks, all draws being in `[0, 1)`. -/
inductive CoolerReachable : Store → Prop
  | empty (n : ℕ) :
    CoolerReachable { particleSystems := [], fx := { drawn := n, queries := [], timeouts := [] } }
  | create (random : ℕ → ℚ) (coolerObject : ℕ) (st : Store) :
    UnitDraws random → CoolerReachable st →
      CoolerReachable (createCoolerParticles random coolerObject st)
  | update (sc : Scene) (random : ℕ → ℚ) (st : Store) :
    UnitDraws random → CoolerReachable st → CoolerReachable (updateCoolerParticles sc random st)

/-- The stores of the rack module that can be reached from the empty store by creating
systems, by update ticks and by delayed respawns (a waiting callback runs), all draws
being in `[0, 1)`. -/
inductive RackReachable : Store → Prop
  | empty (n : ℕ) :
    RackReachable { particleSystems := [], fx := { drawn := n, queries := [], timeouts := [] } }
  | create (random : ℕ → ℚ) (rackObject : ℕ) (st : Store) :
    UnitDraws random → RackReachable st → RackReachable (createRackParticles random rackObject st)
  | update (sc : Scene) (random : ℕ → ℚ) (st : Store) :
    UnitDraws random → RackReachable st → RackReachable (updateRackParticles sc random st)
  | timeout (random : ℕ → ℚ) (k : ℕ) (st : Store) :
    UnitDraws random → RackReachable st → RackReachable (runTimeout random k st)

/-- The empty store of a module that has just been loaded. -/
def emptyStore : Store := { particleSystems := [], fx := noEffects }

/-- The arrays are sized for `n` slots and every slot has a non-negative age below its
maximal age. -/
def Alive (n : ℕ) (b : Buffers) : Prop :=
  Sized n b ∧
    ∀ p, p < n → 0 ≤ (particleAt b p).age ∧ (particleAt b p).age < (particleAt b p).maxAge

/-- The store entry that `createRackParticles` makes for the rack object 7 in the empty
store when every draw is 1/2. -/
def firstRack : ParticleData :=
  { geometry := (initRackLoop halfDraws 100 { geometry := allocate 100, fx := noEffects }).geometry
    emitter := 7 }

/-! ## Object deletion (`3dObjects.js`) -/

/-- One element of the array returned by `raycasterMouse.intersectObjects(models, true)`:
the object that was hit and the chain of its `parent` references, nearest first (the
scene graph is a tree, so the chain is finite). -/
structure MouseHit where
  object : ℕ
  ancestors : List ℕ
deriving DecidableEq

/-- The state that `deleteObject` can see or that exists beside it: `models`, the children
of `scene`, the object attached to `transformControls`, and the two particle-system
stores. -/
structure Editor where
  models : List ℕ
  sceneChildren : List ℕ
  attached : Option ℕ
  coolerStore : Store
  rackStore : Store

/-- The loop
`while (draggableObject.parent && !models.includes(draggableObject)) draggableObject = draggableObject.parent`,
started at `draggableObject` whose chain of parents is the second argument. -/
def walkUp (models : List ℕ) : ℕ → List ℕ → ℕ
  | draggableObject, [] => draggableObject
  | draggableObject, parent :: rest =>
    if models.contains draggableObject then draggableObject else walkUp models parent rest

/-- The function `deleteObject`; `intersects` is what `raycasterMouse.intersectObjects`
returns.  Reading `intersects[0].object` of an empty array throws a `TypeError`. -/
def deleteObject (intersects : List MouseHit) (w : Editor) : Except String Editor :=
  match intersects[0]? with
  | none => Except.error "TypeError: intersects[0] is undefined"
  | some first =>
    if intersects.length > 0 then
      let draggableObject := walkUp w.models first.object first.ancestors
      if w.models.contains draggableObject then
        Except.ok
          { w with
            sceneChildren := w.sceneChildren.erase draggableObject
            models := w.models.erase draggableObject
            attached := none }
      else Except.ok w
    else Except.ok w

/-- A scene without collisions in which the tracked models are 5, 7, 6 and 7 again, the
floor is object 0 and the walls are objects 1 and 2. -/
def roomScene : Scene :=
  { models := [5, 7, 6, 7]
    floor := 0
    walls := [1, 2]
    localToWorld := fun _ v => v
    normalize := fun v => v
    intersectObjects := fun _ => [] }

/-- A rack store with the one-slot system `agedRack` owned by object 7 and one callback
waiting for slot 0 of that system. -/
def pendingStore : Store :=
  { particleSystems := [{ geometry := agedRack.geometry, emitter := 7 }]
    fx :=
      { drawn := 0
        queries := []
        timeouts := [{ system := 0, particleIndex := 0, delay := 1000 }] } }

/-- An editor state with the models 5 and 7, both children of the scene, the cooler 7
being attached to the transform controls and owning the one-slot system `youngCooler`. -/
def demoEditor : Editor :=
  { models := [5, 7]
    sceneChildren := [5, 7]
    attached := some 7
    coolerStore :=
      { particleSystems := [{ geometry := youngCooler.geometry, emitter := 7 }]
        fx := noEffects }
    rackStore := emptyStore }

/-- A hit on the mesh 70, whose parent is the model 7, whose parent is the scene 99. -/
def meshHit : MouseHit := { object := 70, ancestors := [7, 99] }

/-- A scene with one wall (object 1) that every ray with a negative z direction hits at
distance 0.05, and no other ray hits. -/
def backWallScene : Scene :=
  { models := [7]
    floor := 0
    walls := [1]
    localToWorld := fun _ v => v
    normalize := fun v => v
    intersectObjects := fun q =>
      if q.direction.z < 0 then [{ distance := 0.05, object := 1 }] else [] }

/-- The rack store after `createRackParticles` for object 7 in the empty store, every
draw being 1/2. -/
def createdRackStore : Store := createRackParticles halfDraws 7 emptyStore

/-- The rack store `createdRackStore` after one update tick in `backWallScene`. -/
def tickedRackStore : Store := updateRackParticles backWallScene halfDraws createdRackStore

/-- The difference of two vectors. -/
def Vector3.sub (a b : Vector3) : Vector3 := ⟨a.x - b.x, a.y - b.y, a.z - b.z⟩

/-- The sign of a rational number as a rational number. -/
def signOf (a : ℚ) : ℚ := if 0 < a then 1 else if a < 0 then -1 else 0

/-- The function `Vector3.normalize` on the vectors that are parallel to an axis, where the
Euclidean norm is rational (the zero vector is left as it is, as in the library); other
vectors are returned unchanged. -/
def axisNormalize (v : Vector3) : Vector3 :=
  if v.y = 0 ∧ v.z = 0 then ⟨signOf v.x, 0, 0⟩
  else if v.x = 0 ∧ v.z = 0 then ⟨0, signOf v.y, 0⟩
  else if v.x = 0 ∧ v.y = 0 then ⟨0, 0, signOf v.z⟩
  else v

/-- A scene without collisions in which every emitter is rotated by a quarter turn about
the x axis: `localToWorld` maps `(x, y, z)` to `(x, -z, y)`. -/
def tiltedScene : Scene :=
  { models := [7]
    floor := 0
    walls := []
    localToWorld := fun _ v => ⟨v.x, -v.z, v.y⟩
    normalize := axisNormalize
    intersectObjects := fun _ => [] }

/-- A one-slot cooler system whose slot moves straight down in the emitter's frame. -/
def fallingCooler : Sim :=
  { geometry :=
      { positions := [0, 20, 0]
        velocities := [0, -0.15, 0]
        lifetimes := [0]
        maxLifetime := [1000]
        colors := [0.1, 0.5, 1.0] }
    fx := noEffects }

/-! ## Floating-point storage

`Float32Array` elements and JavaScript numbers are modelled by rounding exact rationals:
round to nearest, ties to even, with `p` significant bits and least exponent `emin`
(below `2 ^ emin` the spacing stays that of the least binade: subnormal numbers).
Overflow to an infinity is not modelled: the roundings agree with the machine as long as
the result is below `2 ^ 1024` for a JavaScript number and below `2 ^ 128` for a
`Float32Array` element, which holds for every value that the theorems below evaluate. -/

/-- The exponent of the binade of `x`, not below `emin`. -/
def binade (emin : ℤ) (x : ℚ) : ℤ := max (Int.log 2 |x|) emin

/-- Rounding to the nearest integer, a tie going to the even neighbour. -/
def roundHalfEven (x : ℚ) : ℤ :=
  if x - ⌊x⌋ < 1 / 2 then ⌊x⌋
  else if 1 / 2 < x - ⌊x⌋ then ⌊x⌋ + 1
  else if ⌊x⌋ % 2 = 0 then ⌊x⌋ else ⌊x⌋ + 1

/-- Rounding to the nearest number with `p` significant bits and exponent at least
`emin`, ties to even. -/
def roundTo (p : ℕ) (emin : ℤ) (x : ℚ) : ℚ :=
  if x = 0 then 0
  else roundHalfEven (x / 2 ^ (binade emin x - (p - 1))) * 2 ^ (binade emin x - (p - 1))

/-- Rounding to a JavaScript number (IEEE binary64). -/
def f64 (x : ℚ) : ℚ := roundTo 53 (-1022) x

/-- Rounding to a `Float32Array` element (IEEE binary32), as `Math.fround`. -/
def f32 (x : ℚ) : ℚ := roundTo 24 (-126) x

/-- A numeric literal of the source: the JavaScript number nearest to it. -/
def jsLit (x : ℚ) : ℚ := f64 x

/-- The JavaScript sum `a + b`. -/
def jsAdd (a b : ℚ) : ℚ := f64 (a + b)

/-- The JavaScript difference `a - b`. -/
def jsSub (a b : ℚ) : ℚ := f64 (a - b)

/-- The JavaScript product `a * b`. -/
def jsMul (a b : ℚ) : ℚ := f64 (a * b)

/-- The value that a `Float32Array` element holds after the literal `x` has been written
into it, which is `Math.fround(x)`. -/
def fround (x : ℚ) : ℚ := f32 (jsLit x)

/-! ## The particle modules with rounded storage

The definitions of this namespace repeat the functions of the two particle modules with
every arithmetic operation rounded to a JavaScript number and every write into a
`Float32Array` rounded by `f32`.  They serve the claims about the values that are stored;
the definitions above, with exact arithmetic, serve the claims about which operations run
and in which order. -/

namespace Stored

/-- The function `initCoolerParticleProps`; `n` is the number of draws consumed before the
call, which makes seven draws. -/
def initCoolerParticleProps (random : ℕ → ℚ) (n : ℕ) (index : ℕ) (b : Buffers) : Buffers :=
  { positions :=
      ((b.positions.set (index * 3) (f32 0)).set (index * 3 + 1)
        (f32 (jsAdd (jsMul (jsSub (random n) (jsLit 0.5)) (jsLit 0.2)) 20))).set (index * 3 + 2)
        (f32 (jsMul (jsSub (random (n + 1)) (jsLit 0.5)) 40))
    velocities :=
      ((b.velocities.set (index * 3) (f32 (jsMul (random (n + 2)) 2))).set (index * 3 + 1)
        (f32 (-(jsAdd (jsMul (random (n + 3)) (jsLit 0.1)) (jsLit 0.1))))).set (index * 3 + 2)
        (f32 (jsMul (jsSub (random (n + 4)) (jsLit 0.5)) (jsLit 0.02)))
    colors :=
      ((b.colors.set (index * 3) (f32 (jsLit 0.1))).set (index * 3 + 1)
        (f32 (jsLit 0.5))).set (index * 3 + 2) (f32 (jsLit 1.0))
    lifetimes := b.lifetimes.set index (f32 (jsMul (random (n + 5)) 1000))
    maxLifetime := b.maxLifetime.set index (f32 (jsAdd 1000 (jsMul (random (n + 6)) 500))) }

/-- The constant `accelerationFactor` of `initRackParticleProps`. -/
def accelerationFactor : ℚ := jsLit 2.5

/-- The function `initRackParticleProps`; `n` is the number of draws consumed before the
call, which makes eight draws. -/
def initRackParticleProps (random : ℕ → ℚ) (n : ℕ) (index : ℕ) (b : Buffers) : Buffers :=
  { positions :=
      ((b.positions.set (index * 3)
        (f32 (jsMul (jsSub (random n) (jsLit 0.5)) (jsLit 0.5)))).set (index * 3 + 1)
        (f32 (jsMul (jsSub (random (n + 1)) (jsLit 0.5)) (jsLit 2.5)))).set (index * 3 + 2)
        (f32 (-(jsAdd (jsSub (random (n + 2)) (jsLit 0.5)) (jsLit 0.8))))
    velocities :=
      ((b.velocities.set (index * 3)
        (f32 (jsMul (jsMul (jsSub (random (n + 3)) (jsLit 0.5)) (jsLit 0.001))
          accelerationFactor))).set (index * 3 + 1)
        (f32 (jsMul (jsAdd (jsMul (jsSub (random (n + 4)) (jsLit 0.5)) (jsLit 0.001))
          (jsLit 0.001)) accelerationFactor))).set (index * 3 + 2)
        (f32 (jsMul (-(jsAdd (jsMul (random (n + 5)) (jsLit 0.001)) (jsLit 0.001)))
          accelerationFactor))
    colors :=
      ((b.colors.set (index * 3) (f32 (jsLit 1.0))).set (index * 3 + 1)
        (f32 (jsLit 0.1))).set (index * 3 + 2) (f32 (jsLit 0.1))
    lifetimes := b.lifetimes.set index (f32 (jsMul (random (n + 6)) 1000))
    maxLifetime := b.maxLifetime.set index (f32 (jsAdd 1000 (jsMul (random (n + 7)) 500))) }

/-- The slot that `initCoolerParticleProps` leaves behind when its first draw is draw
number `n`. -/
def coolerSpawn (random : ℕ → ℚ) (n : ℕ) : Particle :=
  { position :=
      ⟨f32 0, f32 (jsAdd (jsMul (jsSub (random n) (jsLit 0.5)) (jsLit 0.2)) 20),
        f32 (jsMul (jsSub (random (n + 1)) (jsLit 0.5)) 40)⟩
    velocity :=
      ⟨f32 (jsMul (random (n + 2)) 2),
        f32 (-(jsAdd (jsMul (random (n + 3)) (jsLit 0.1)) (jsLit 0.1))),
        f32 (jsMul (jsSub (random (n + 4)) (jsLit 0.5)) (jsLit 0.02))⟩
    color := ⟨f32 (jsLit 0.1), f32 (jsLit 0.5), f32 (jsLit 1.0)⟩
    age := f32 (jsMul (random (n + 5)) 1000)
    maxAge := f32 (jsAdd 1000 (jsMul (random (n + 6)) 500)) }

/-- The slot that `initRackParticleProps` leaves behind when its first draw is draw
number `n`. -/
def rackSpawn (random : ℕ → ℚ) (n : ℕ) : Particle :=
  { position :=
      ⟨f32 (jsMul (jsSub (random n) (jsLit 0.5)) (jsLit 0.5)),
        f32 (jsMul (jsSub (random (n + 1)) (jsLit 0.5)) (jsLit 2.5)),
        f32 (-(jsAdd (jsSub (random (n + 2)) (jsLit 0.5)) (jsLit 0.8)))⟩
    velocity :=
      ⟨f32 (jsMul (jsMul (jsSub (random (n + 3)) (jsLit 0.5)) (jsLit 0.001))
          accelerationFactor),
        f32 (jsMul (jsAdd (jsMul (jsSub (random (n + 4)) (jsLit 0.5)) (jsLit 0.001))
          (jsLit 0.001)) accelerationFactor),
        f32 (jsMul (-(jsAdd (jsMul (random (n + 5)) (jsLit 0.001)) (jsLit 0.001)))
          accelerationFactor)⟩
    color := ⟨f32 (jsLit 1.0), f32 (jsLit 0.1), f32 (jsLit 0.1)⟩
    age := f32 (jsMul (random (n + 6)) 1000)
    maxAge := f32 (jsAdd 1000 (jsMul (random (n + 7)) 500)) }

/-- The module constant `accelerations` of `coolerParticles.js`. -/
def accelerations : List ℚ := [jsLit 0.5, jsLit 1.5, 1]

/-- The statement `lifetimes[particleIndex]++`. -/
def incrementLifetime (particleIndex : ℕ) (b : Buffers) : Buffers :=
  { b with
    lifetimes := b.lifetimes.set particleIndex (f32 (jsAdd (rd b.lifetimes particleIndex) 1)) }

/-- The block "Update position" of `updateCoolerParticles`, with `i = 3 * particleIndex`. -/
def coolerUpdatePosition (i : ℕ) (b : Buffers) : Buffers :=
  { b with positions :=
      let p0 := b.positions.set i
            (f32 (jsAdd (rd b.positions i) (jsMul (rd b.velocities i) (rd accelerations 0))))
      let p1 := p0.set (i + 1)
            (f32 (jsAdd (rd p0 (i + 1)) (jsMul (rd b.velocities (i + 1)) (rd accelerations 1))))
      p1.set (i + 2)
            (f32 (jsAdd (rd p1 (i + 2)) (jsMul (rd b.velocities (i + 2)) (rd accelerations 2)))) }

/-- The block "Update position" of `updateRackParticles`. -/
def rackUpdatePosition (i : ℕ) (b : Buffers) : Buffers :=
  { b with positions :=
      let p0 := b.positions.set i (f32 (jsAdd (rd b.positions i) (rd b.velocities i)))
      let p1 := p0.set (i + 1) (f32 (jsAdd (rd p0 (i + 1)) (rd b.velocities (i + 1))))
      p1.set (i + 2) (f32 (jsAdd (rd p1 (i + 2)) (rd b.velocities (i + 2)))) }

/-- The block "Add some turbulence" of `updateCoolerParticles`: three draws, the first
being draw number `n`. -/
def addTurbulence (random : ℕ → ℚ) (n : ℕ) (i : ℕ) (b : Buffers) : Buffers :=
  { b with velocities :=
      let v0 := b.velocities.set i
            (f32 (jsAdd (rd b.velocities i) (jsMul (jsSub (random n) (jsLit 0.5)) (jsLit 0.001))))
      let v1 := v0.set (i + 1)
            (f32 (jsAdd (rd v0 (i + 1)) (jsMul (jsSub (random (n + 1)) (jsLit 0.5)) (jsLit 0.01))))
      v1.set (i + 2)
            (f32 (jsAdd (rd v1 (i + 2)) (jsMul (jsSub (random (n + 2)) (jsLit 0.5)) (jsLit 0.02)))) }

/-- The test `intersects.length > 0 && intersects[0].distance < 0.1`. -/
def collides (intersects : List Intersection) : Bool :=
  match intersects with
  | [] => false
  | first :: _ => decide (first.distance < jsLit 0.1)

/-- The writes of the collision branch that both modules share: the impact colour and
the zero velocity. -/
def collisionResponse (i : ℕ) (b : Buffers) : Buffers :=
  { b with
    colors :=
      ((b.colors.set i (f32 (jsLit 1.0))).set (i + 1) (f32 (jsLit 0.5))).set (i + 2)
        (f32 (jsLit 0.0))
    velocities := ((b.velocities.set i (f32 0)).set (i + 1) (f32 0)).set (i + 2) (f32 0) }

/-- Whether the `if` of the block "Update particle lifetime" resets the slot. -/
def resets (s : Sim) (particleIndex : ℕ) : Bool :=
  expired particleIndex (incrementLifetime particleIndex s.geometry)

/-- The number of draws consumed when `updateCoolerParticles` reaches the block
"Add some turbulence". -/
def coolerDrawn (s : Sim) (particleIndex : ℕ) : ℕ :=
  if resets s particleIndex then s.fx.drawn + 7 else s.fx.drawn

/-- The number of draws consumed when `updateRackParticles` reaches the block
"Check for collisions". -/
def rackDrawn (s : Sim) (particleIndex : ℕ) : ℕ :=
  if resets s particleIndex then s.fx.drawn + 8 else s.fx.drawn

/-- The arrays after the block "Update particle lifetime" of `updateCoolerParticles`. -/
def coolerLifetime (random : ℕ → ℚ) (s : Sim) (particleIndex : ℕ) : Buffers :=
  let b1 := incrementLifetime particleIndex s.geometry
  if expired particleIndex b1 then initCoolerParticleProps random s.fx.drawn particleIndex b1
  else b1

/-- The arrays after the block "Update particle lifetime" of `updateRackParticles`. -/
def rackLifetime (random : ℕ → ℚ) (s : Sim) (particleIndex : ℕ) : Buffers :=
  let b1 := incrementLifetime particleIndex s.geometry
  if expired particleIndex b1 then initRackParticleProps random s.fx.drawn particleIndex b1
  else b1

/-- The arrays when `updateCoolerParticles` reaches the block "Check for collisions":
lifetime, position and turbulence have been done (`i = 3 * particleIndex`). -/
def coolerMove (random : ℕ → ℚ) (s : Sim) (particleIndex : ℕ) : Buffers :=
  let i := 3 * particleIndex
  let b2 := coolerLifetime random s particleIndex
  let b3 := coolerUpdatePosition i b2
  addTurbulence random (coolerDrawn s particleIndex) i b3

/-- The arrays when `updateRackParticles` reaches the block "Check for collisions". -/
def rackMove (random : ℕ → ℚ) (s : Sim) (particleIndex : ℕ) : Buffers :=
  let i := 3 * particleIndex
  let b2 := rackLifetime random s particleIndex
  rackUpdatePosition i b2

/-- The array `intersects` of `updateCoolerParticles` for one slot. -/
def coolerIntersects (sc : Scene) (random : ℕ → ℚ) (cooler : ℕ) (s : Sim)
    (particleIndex : ℕ) : List Intersection :=
  sc.intersectObjects
    (collisionQuery sc cooler false (3 * particleIndex) (coolerMove random s particleIndex))

/-- The array `intersects` of `updateRackParticles` for one slot. -/
def rackIntersects (sc : Scene) (random : ℕ → ℚ) (rack : ℕ) (s : Sim)
    (particleIndex : ℕ) : List Intersection :=
  sc.intersectObjects
    (collisionQuery sc rack true (3 * particleIndex) (rackMove random s particleIndex))

/-- The body of the `for` loop of `updateCoolerParticles` for one `particleIndex`
(`i = 3 * particleIndex`). -/
def coolerParticle (sc : Scene) (random : ℕ → ℚ) (cooler : ℕ) (s : Sim) (particleIndex : ℕ) :
    Sim :=
  let i := 3 * particleIndex
  let b4 := coolerMove random s particleIndex
  let query := collisionQuery sc cooler false i b4
  let intersects := sc.intersectObjects query
  let b5 := if collides intersects then collisionResponse i b4 else b4
  { geometry := b5
    fx :=
      { drawn := coolerDrawn s particleIndex + 3
        queries := s.fx.queries ++ [query]
        timeouts := s.fx.timeouts } }

/-- The body of the `for` loop of `updateRackParticles` for one `particleIndex` of the
store entry number `system`. -/
def rackParticle (sc : Scene) (random : ℕ → ℚ) (rack : ℕ) (system : ℕ) (s : Sim)
    (particleIndex : ℕ) : Sim :=
  let i := 3 * particleIndex
  let b3 := rackMove random s particleIndex
  let query := collisionQuery sc rack true i b3
  let intersects := sc.intersectObjects query
  let hit := collides intersects
  let b4 := if hit then collisionResponse i b3 else b3
  { geometry := b4
    fx :=
      { drawn := rackDrawn s particleIndex
        queries := s.fx.queries ++ [query]
        timeouts :=
          if hit then
            s.fx.timeouts ++
              [{ system := system, particleIndex := particleIndex, delay := 1000 }]
          else s.fx.timeouts } }

/-- The state of the `for` loop of `updateCoolerParticles` when it reaches slot `p`. -/
def coolerReach (sc : Scene) (random : ℕ → ℚ) (cooler : ℕ) (s : Sim) (p : ℕ) : Sim :=
  (List.range p).foldl (coolerParticle sc random cooler) s

/-- The state of the `for` loop of `updateRackParticles` when it reaches slot `p`. -/
def rackReach (sc : Scene) (random : ℕ → ℚ) (rack : ℕ) (system : ℕ) (s : Sim) (p : ℕ) : Sim :=
  (List.range p).foldl (rackParticle sc random rack system) s

/-- The `for` loop of `updateCoolerParticles` over one system. -/
def coolerSystem (sc : Scene) (random : ℕ → ℚ) (cooler : ℕ) (s : Sim) : Sim :=
  (particleIndices s.geometry).foldl (coolerParticle sc random cooler) s

/-- The `for` loop of `updateRackParticles` over one system. -/
def rackSystem (sc : Scene) (random : ℕ → ℚ) (rack : ℕ) (system : ℕ) (s : Sim) : Sim :=
  (particleIndices s.geometry).foldl (rackParticle sc random rack system) s

/-- The `forEach` of `updateCoolerParticles`. -/
def forEachCooler (sc : Scene) (random : ℕ → ℚ) :
    List ParticleData → Effects → List ParticleData × Effects
  | [], fx => ([], fx)
  | d :: rest, fx =>
    let s := coolerSystem sc random d.emitter { geometry := d.geometry, fx := fx }
    let r := forEachCooler sc random rest s.fx
    ({ d with geometry := s.geometry } :: r.1, r.2)

/-- The `forEach` of `updateRackParticles`; `system` is the position of the head entry
in the store. -/
def forEachRack (sc : Scene) (random : ℕ → ℚ) :
    ℕ → List ParticleData → Effects → List ParticleData × Effects
  | _, [], fx => ([], fx)
  | system, d :: rest, fx =>
    let s := rackSystem sc random d.emitter system { geometry := d.geometry, fx := fx }
    let r := forEachRack sc random (system + 1) rest s.fx
    ({ d with geometry := s.geometry } :: r.1, r.2)

/-- The function `updateCoolerParticles`. -/
def updateCoolerParticles (sc : Scene) (random : ℕ → ℚ) (st : Store) : Store :=
  let r := forEachCooler sc random st.particleSystems st.fx
  { particleSystems := r.1, fx := r.2 }

/-- The function `updateRackParticles`. -/
def updateRackParticles (sc : Scene) (random : ℕ → ℚ) (st : Store) : Store :=
  let r := forEachRack sc random 0 st.particleSystems st.fx
  { particleSystems := r.1, fx := r.2 }

/-- The initialisation loop of `createCoolerParticles`. -/
def initCoolerLoop (random : ℕ → ℚ) (particleCount : ℕ) (s : Sim) : Sim :=
  (List.range particleCount).foldl
    (fun s i =>
      { geometry := initCoolerParticleProps random s.fx.drawn i s.geometry
        fx := { s.fx with drawn := s.fx.drawn + 7 } })
    s

/-- The initialisation loop of `createRackParticles`. -/
def initRackLoop (random : ℕ → ℚ) (particleCount : ℕ) (s : Sim) : Sim :=
  (List.range particleCount).foldl
    (fun s i =>
      { geometry := initRackParticleProps random s.fx.drawn i s.geometry
        fx := { s.fx with drawn := s.fx.drawn + 8 } })
    s

/-- The function `createCoolerParticles`.  The draws that the constructors of the rendering
library make for the identifiers of their objects are not counted. -/
def createCoolerParticles (random : ℕ → ℚ) (coolerObject : ℕ) (st : Store) : Store :=
  let particleCount := 500
  let s := initCoolerLoop random particleCount { geometry := allocate particleCount, fx := st.fx }
  { particleSystems := st.particleSystems ++ [{ geometry := s.geometry, emitter := coolerObject }]
    fx := s.fx }

/-- The function `createRackParticles`.  The draws that the constructors of the rendering
library make for the identifiers of their objects are not counted. -/
def createRackParticles (random : ℕ → ℚ) (rackObject : ℕ) (st : Store) : Store :=
  let particleCount := 100
  let s := initRackLoop random particleCount { geometry := allocate particleCount, fx := st.fx }
  { particleSystems := st.particleSystems ++ [{ geometry := s.geometry, emitter := rackObject }]
    fx := s.fx }

end Stored

/-! ## Ranges of a stored respawn -/

/-- The lifetime ranges of a respawn as stored: age in `[0, 1000]`, maximal age in
`[1000, 1500]`. -/
def StoredLifetimeRanges (a : Particle) : Prop :=
  0 ≤ a.age ∧ a.age ≤ 1000 ∧ 1000 ≤ a.maxAge ∧ a.maxAge ≤ 1500

/-- The position, velocity and colour ranges of the cooler policy as stored.  The ends of
`CoolerSpawnRanges` that rounding moves are replaced by the `Float32` values of the ends,
which are attained; the other ends are those of `CoolerSpawnRanges`. -/
def StoredCoolerRanges (a : Particle) : Prop :=
  a.position.x = 0 ∧ (fround 19.9 ≤ a.position.y ∧ a.position.y ≤ fround 20.1) ∧
    (-20 ≤ a.position.z ∧ a.position.z ≤ 20) ∧
    (0 ≤ a.velocity.x ∧ a.velocity.x ≤ 2) ∧
    (-fround 0.2 ≤ a.velocity.y ∧ a.velocity.y ≤ -0.1) ∧
    (-0.01 ≤ a.velocity.z ∧ a.velocity.z < 0.01) ∧
    a.color = ⟨fround 0.1, 0.5, 1.0⟩

/-- The position, velocity and colour ranges of the rack policy as stored.  The ends of
`RackSpawnRanges` that rounding moves are replaced by the `Float32` values of the ends,
which are attained; the other ends are those of `RackSpawnRanges`, the velocity ranges
being those of 2.5 times `(u, v + 0.001, -(w + 0.001))`. -/
def StoredRackRanges (a : Particle) : Prop :=
  (-0.25 ≤ a.position.x ∧ a.position.x ≤ 0.25) ∧
    (-1.25 ≤ a.position.y ∧ a.position.y ≤ 1.25) ∧
    (-1.3 < a.position.z ∧ a.position.z ≤ -0.3) ∧
    (-0.00125 ≤ a.velocity.x ∧ a.velocity.x < 0.00125) ∧
    (fround 0.00125 ≤ a.velocity.y ∧ a.velocity.y < 0.00375) ∧
    (-0.005 < a.velocity.z ∧ a.velocity.z ≤ -fround 0.0025) ∧
    0 < a.velocity.y ∧ a.velocity.z < 0 ∧
    a.color = ⟨1.0, fround 0.1, fround 0.1⟩

/-- The constant stream of the draw `1 - 2 ^ (-52)`, a JavaScript number just below 1. -/
def topDraws : ℕ → ℚ := fun _ => 1 - 1 / 2 ^ 52

/-- The stream whose draw number `j` is `1 - 2 ^ (-52)` and whose other draws are 0. -/
def edgeDraws (j : ℕ) : ℕ → ℚ := fun k => if k = j then 1 - 1 / 2 ^ 52 else 0

/-- A one-slot cooler system whose slot holds the `Float32` value of 0.3 as its age and
moves along x with velocity 1. -/
def roundingCooler : Sim :=
  { geometry :=
      { positions := [0, 20, 0]
        velocities := [1, 0, 0]
        lifetimes := [5033165 / 16777216]
        maxLifetime := [1000]
        colors := [0.5, 0.5, 1.0] }
    fx := noEffects }

/-! # Theorems -/

/-! ## Reading and writing arrays -/

theorem rd_set_eq (a : List ℚ) (i : ℕ) (v : ℚ) (h : i < a.length) : rd (a.set i v) i = v := by
  simp [rd, List.getD_eq_getElem?_getD, List.getElem?_set, h]

theorem rd_set_ne (a : List ℚ) (i j : ℕ) (v : ℚ) (h : i ≠ j) : rd (a.set i v) j = rd a j := by
  simp [rd, List.getD_eq_getElem?_getD, List.getElem?_set, h]

theorem unitDraws_half : UnitDraws halfDraws := by
  intro k
  constructor <;> norm_num [halfDraws]

theorem sized_allocate (n : ℕ) : Sized n (allocate n) := by
  simp [Sized, allocate, Nat.mul_comm]

/-! ## The respawn policies -/

theorem particleAt_initCooler (random : ℕ → ℚ) (n index slots : ℕ) (b : Buffers)
    (hb : Sized slots b) (hi : index < slots) :
    particleAt (initCoolerParticleProps random n index b) index =
      { position := ⟨0, ((random n - 0.5) * 0.2) + 20, (random (n + 1) - 0.5) * 40⟩
        velocity := ⟨random (n + 2) * 2, -(random (n + 3) * 0.1 + 0.1),
          (random (n + 4) - 0.5) * 0.02⟩
        color := ⟨0.1, 0.5, 1.0⟩
        age := random (n + 5) * 1000
        maxAge := 1000 + random (n + 6) * 500 } := by
  obtain ⟨h1, h2, h3, h4, h5⟩ := hb
  have e : index * 3 = 3 * index := Nat.mul_comm _ _
  simp only [particleAt, initCoolerParticleProps, vectorAt, e]
  simp (disch := first | omega | (simp only [List.length_set]; omega)) only [rd_set_eq, rd_set_ne]

theorem particleAt_initRack (random : ℕ → ℚ) (n index slots : ℕ) (b : Buffers)
    (hb : Sized slots b) (hi : index < slots) :
    particleAt (initRackParticleProps random n index b) index =
      { position := ⟨(random n - 0.5) * 0.5, (random (n + 1) - 0.5) * 2.5,
          -((random (n + 2) - 0.5) + 0.8)⟩
        velocity := ⟨(random (n + 3) - 0.5) * 0.001 * accelerationFactor,
          ((random (n + 4) - 0.5) * 0.001 + 0.001) * accelerationFactor,
          -(random (n + 5) * 0.001 + 0.001) * accelerationFactor⟩
        color := ⟨1.0, 0.1, 0.1⟩
        age := random (n + 6) * 1000
        maxAge := 1000 + random (n + 7) * 500 } := by
  obtain ⟨h1, h2, h3, h4, h5⟩ := hb
  have e : index * 3 = 3 * index := Nat.mul_comm _ _
  simp only [particleAt, initRackParticleProps, vectorAt, e]
  simp (disch := first | omega | (simp only [List.length_set]; omega)) only [rd_set_eq, rd_set_ne]

theorem initCooler_ranges (random : ℕ → ℚ) (n index slots : ℕ) (b : Buffers)
    (hr : UnitDraws random) (hb : Sized slots b) (hi : index < slots) :
    CoolerSpawnRanges (particleAt (initCoolerParticleProps random n index b) index) ∧
      LifetimeRanges (particleAt (initCoolerParticleProps random n index b) index) := by
  rw [particleAt_initCooler random n index slots b hb hi]
  have c0 := hr n
  have c1 := hr (n + 1)
  have c2 := hr (n + 2)
  have c3 := hr (n + 3)
  have c4 := hr (n + 4)
  have c5 := hr (n + 5)
  have c6 := hr (n + 6)
  refine ⟨⟨rfl, ⟨?_, ?_⟩, ⟨?_, ?_⟩, ⟨?_, ?_⟩, ⟨?_, ?_⟩, ⟨?_, ?_⟩, rfl⟩, ?_, ?_, ?_, ?_⟩ <;>
    dsimp only <;> linarith [c0.1, c0.2, c1.1, c1.2, c2.1, c2.2, c3.1, c3.2, c4.1, c4.2,
      c5.1, c5.2, c6.1, c6.2]

theorem initRack_ranges (random : ℕ → ℚ) (n index slots : ℕ) (b : Buffers)
    (hr : UnitDraws random) (hb : Sized slots b) (hi : index < slots) :
    RackSpawnRanges (particleAt (initRackParticleProps random n index b) index) ∧
      LifetimeRanges (particleAt (initRackParticleProps random n index b) index) := by
  rw [particleAt_initRack random n index slots b hb hi]
  have c0 := hr n
  have c1 := hr (n + 1)
  have c2 := hr (n + 2)
  have c3 := hr (n + 3)
  have c4 := hr (n + 4)
  have c5 := hr (n + 5)
  have c6 := hr (n + 6)
  have c7 := hr (n + 7)
  refine ⟨⟨⟨?_, ?_⟩, ⟨?_, ?_⟩, ⟨?_, ?_⟩,
    ⟨(random (n + 3) - 0.5) * 0.001, (random (n + 4) - 0.5) * 0.001, random (n + 5) * 0.001,
      ⟨?_, ?_⟩, ⟨?_, ?_⟩, ⟨?_, ?_⟩, ?_⟩, ?_, ?_, rfl⟩, ?_, ?_, ?_, ?_⟩
  all_goals dsimp only [accelerationFactor]
  all_goals first
    | linarith [c0.1, c0.2, c1.1, c1.2, c2.1, c2.2, c3.1, c3.2, c4.1, c4.2,
        c5.1, c5.2, c6.1, c6.2, c7.1, c7.2]
    | (congr 1 <;> ring)

/-! ## The blocks of the loop body, seen on one slot -/

theorem rd_accelerations : rd accelerations 0 = 0.5 ∧ rd accelerations 1 = 1.5 ∧
    rd accelerations 2 = 1 := by
  simp [rd, accelerations]

theorem sized_incrementLifetime (n p : ℕ) (b : Buffers) (hb : Sized n b) :
    Sized n (incrementLifetime p b) := by
  simpa [Sized, incrementLifetime] using hb

theorem sized_initCooler (random : ℕ → ℚ) (k n p : ℕ) (b : Buffers) (hb : Sized n b) :
    Sized n (initCoolerParticleProps random k p b) := by
  simpa [Sized, initCoolerParticleProps] using hb

theorem sized_initRack (random : ℕ → ℚ) (k n p : ℕ) (b : Buffers) (hb : Sized n b) :
    Sized n (initRackParticleProps random k p b) := by
  simpa [Sized, initRackParticleProps] using hb

theorem sized_coolerUpdatePosition (n i : ℕ) (b : Buffers) (hb : Sized n b) :
    Sized n (coolerUpdatePosition i b) := by
  simpa [Sized, coolerUpdatePosition] using hb

theorem sized_rackUpdatePosition (n i : ℕ) (b : Buffers) (hb : Sized n b) :
    Sized n (rackUpdatePosition i b) := by
  simpa [Sized, rackUpdatePosition] using hb

theorem sized_addTurbulence (random : ℕ → ℚ) (k n i : ℕ) (b : Buffers) (hb : Sized n b) :
    Sized n (addTurbulence random k i b) := by
  simpa [Sized, addTurbulence] using hb

theorem sized_collisionResponse (n i : ℕ) (b : Buffers) (hb : Sized n b) :
    Sized n (collisionResponse i b) := by
  simpa [Sized, collisionResponse] using hb

theorem particleAt_incrementLifetime_ne (p q : ℕ) (b : Buffers) (h : q ≠ p) :
    particleAt (incrementLifetime p b) q = particleAt b q := by
  simp (disch := omega) only [particleAt, incrementLifetime, vectorAt, rd_set_ne]

theorem particleAt_initCooler_ne (random : ℕ → ℚ) (k p q : ℕ) (b : Buffers) (h : q ≠ p) :
    particleAt (initCoolerParticleProps random k p b) q = particleAt b q := by
  simp (disch := omega) only [particleAt, initCoolerParticleProps, vectorAt, rd_set_ne]

theorem particleAt_initRack_ne (random : ℕ → ℚ) (k p q : ℕ) (b : Buffers) (h : q ≠ p) :
    particleAt (initRackParticleProps random k p b) q = particleAt b q := by
  simp (disch := omega) only [particleAt, initRackParticleProps, vectorAt, rd_set_ne]

theorem particleAt_coolerUpdatePosition_ne (p q : ℕ) (b : Buffers) (h : q ≠ p) :
    particleAt (coolerUpdatePosition (3 * p) b) q = particleAt b q := by
  simp (disch := omega) only [particleAt, coolerUpdatePosition, vectorAt, rd_set_ne]

theorem particleAt_rackUpdatePosition_ne (p q : ℕ) (b : Buffers) (h : q ≠ p) :
    particleAt (rackUpdatePosition (3 * p) b) q = particleAt b q := by
  simp (disch := omega) only [particleAt, rackUpdatePosition, vectorAt, rd_set_ne]

theorem particleAt_addTurbulence_ne (random : ℕ → ℚ) (k p q : ℕ) (b : Buffers) (h : q ≠ p) :
    particleAt (addTurbulence random k (3 * p) b) q = particleAt b q := by
  simp (disch := omega) only [particleAt, addTurbulence, vectorAt, rd_set_ne]

theorem particleAt_collisionResponse_ne (p q : ℕ) (b : Buffers) (h : q ≠ p) :
    particleAt (collisionResponse (3 * p) b) q = particleAt b q := by
  simp (disch := omega) only [particleAt, collisionResponse, vectorAt, rd_set_ne]

theorem particleAt_incrementLifetime (n p : ℕ) (b : Buffers) (hb : Sized n b) (hp : p < n) :
    particleAt (incrementLifetime p b) p =
      { particleAt b p with age := (particleAt b p).age + 1 } := by
  obtain ⟨h1, h2, h3, h4, h5⟩ := hb
  simp only [particleAt, incrementLifetime, vectorAt]
  simp (disch := first | omega | (simp only [List.length_set]; omega)) only [rd_set_eq, rd_set_ne]

theorem particleAt_coolerUpdatePosition (n p : ℕ) (b : Buffers) (hb : Sized n b) (hp : p < n) :
    particleAt (coolerUpdatePosition (3 * p) b) p =
      { particleAt b p with
        position :=
          ⟨(particleAt b p).position.x + (particleAt b p).velocity.x * 0.5,
            (particleAt b p).position.y + (particleAt b p).velocity.y * 1.5,
            (particleAt b p).position.z + (particleAt b p).velocity.z * 1⟩ } := by
  obtain ⟨h1, h2, h3, h4, h5⟩ := hb
  simp only [particleAt, coolerUpdatePosition, vectorAt, rd_accelerations]
  simp (disch := first | omega | (simp only [List.length_set]; omega)) only [rd_set_eq, rd_set_ne]

theorem particleAt_rackUpdatePosition (n p : ℕ) (b : Buffers) (hb : Sized n b) (hp : p < n) :
    particleAt (rackUpdatePosition (3 * p) b) p =
      { particleAt b p with
        position :=
          ⟨(particleAt b p).position.x + (particleAt b p).velocity.x,
            (particleAt b p).position.y + (particleAt b p).velocity.y,
            (particleAt b p).position.z + (particleAt b p).velocity.z⟩ } := by
  obtain ⟨h1, h2, h3, h4, h5⟩ := hb
  simp only [particleAt, rackUpdatePosition, vectorAt]
  simp (disch := first | omega | (simp only [List.length_set]; omega)) only [rd_set_eq, rd_set_ne]

theorem particleAt_addTurbulence (random : ℕ → ℚ) (k n p : ℕ) (b : Buffers) (hb : Sized n b)
    (hp : p < n) :
    particleAt (addTurbulence random k (3 * p) b) p =
      { particleAt b p with
        velocity :=
          ⟨(particleAt b p).velocity.x + (random k - 0.5) * 0.001,
            (particleAt b p).velocity.y + (random (k + 1) - 0.5) * 0.01,
            (particleAt b p).velocity.z + (random (k + 2) - 0.5) * 0.02⟩ } := by
  obtain ⟨h1, h2, h3, h4, h5⟩ := hb
  simp only [particleAt, addTurbulence, vectorAt]
  simp (disch := first | omega | (simp only [List.length_set]; omega)) only [rd_set_eq, rd_set_ne]

theorem particleAt_collisionResponse (n p : ℕ) (b : Buffers) (hb : Sized n b) (hp : p < n) :
    particleAt (collisionResponse (3 * p) b) p =
      { particleAt b p with velocity := ⟨0, 0, 0⟩, color := ⟨1.0, 0.5, 0.0⟩ } := by
  obtain ⟨h1, h2, h3, h4, h5⟩ := hb
  simp only [particleAt, collisionResponse, vectorAt]
  simp (disch := first | omega | (simp only [List.length_set]; omega)) only [rd_set_eq, rd_set_ne]

/-! ## The loop body, seen on one slot -/

theorem sized_coolerLifetime (random : ℕ → ℚ) (n p : ℕ) (s : Sim) (hs : Sized n s.geometry) :
    Sized n (coolerLifetime random s p) := by
  unfold coolerLifetime
  dsimp only
  split
  · exact sized_initCooler _ _ _ _ _ (sized_incrementLifetime _ _ _ hs)
  · exact sized_incrementLifetime _ _ _ hs

theorem sized_rackLifetime (random : ℕ → ℚ) (n p : ℕ) (s : Sim) (hs : Sized n s.geometry) :
    Sized n (rackLifetime random s p) := by
  unfold rackLifetime
  dsimp only
  split
  · exact sized_initRack _ _ _ _ _ (sized_incrementLifetime _ _ _ hs)
  · exact sized_incrementLifetime _ _ _ hs

theorem sized_coolerMove (random : ℕ → ℚ) (n p : ℕ) (s : Sim) (hs : Sized n s.geometry) :
    Sized n (coolerMove random s p) :=
  sized_addTurbulence _ _ _ _ _
    (sized_coolerUpdatePosition _ _ _ (sized_coolerLifetime random n p s hs))

theorem sized_rackMove (random : ℕ → ℚ) (n p : ℕ) (s : Sim) (hs : Sized n s.geometry) :
    Sized n (rackMove random s p) :=
  sized_rackUpdatePosition _ _ _ (sized_rackLifetime random n p s hs)

theorem coolerParticle_geometry (sc : Scene) (random : ℕ → ℚ) (cooler : ℕ) (s : Sim) (p : ℕ) :
    (coolerParticle sc random cooler s p).geometry =
      if collides (coolerIntersects sc random cooler s p) then
        collisionResponse (3 * p) (coolerMove random s p)
      else coolerMove random s p := rfl

theorem rackParticle_geometry (sc : Scene) (random : ℕ → ℚ) (rack system : ℕ) (s : Sim)
    (p : ℕ) :
    (rackParticle sc random rack system s p).geometry =
      if collides (rackIntersects sc random rack s p) then
        collisionResponse (3 * p) (rackMove random s p)
      else rackMove random s p := rfl

theorem sized_coolerParticle (sc : Scene) (random : ℕ → ℚ) (cooler n p : ℕ) (s : Sim)
    (hs : Sized n s.geometry) : Sized n (coolerParticle sc random cooler s p).geometry := by
  rw [coolerParticle_geometry]
  split
  · exact sized_collisionResponse _ _ _ (sized_coolerMove random n p s hs)
  · exact sized_coolerMove random n p s hs

theorem sized_rackParticle (sc : Scene) (random : ℕ → ℚ) (rack system n p : ℕ) (s : Sim)
    (hs : Sized n s.geometry) :
    Sized n (rackParticle sc random rack system s p).geometry := by
  rw [rackParticle_geometry]
  split
  · exact sized_collisionResponse _ _ _ (sized_rackMove random n p s hs)
  · exact sized_rackMove random n p s hs

theorem particleAt_coolerLifetime_ne (random : ℕ → ℚ) (p q : ℕ) (s : Sim) (h : q ≠ p) :
    particleAt (coolerLifetime random s p) q = particleAt s.geometry q := by
  unfold coolerLifetime
  dsimp only
  split
  · rw [particleAt_initCooler_ne _ _ _ _ _ h, particleAt_incrementLifetime_ne _ _ _ h]
  · rw [particleAt_incrementLifetime_ne _ _ _ h]

theorem particleAt_rackLifetime_ne (random : ℕ → ℚ) (p q : ℕ) (s : Sim) (h : q ≠ p) :
    particleAt (rackLifetime random s p) q = particleAt s.geometry q := by
  unfold rackLifetime
  dsimp only
  split
  · rw [particleAt_initRack_ne _ _ _ _ _ h, particleAt_incrementLifetime_ne _ _ _ h]
  · rw [particleAt_incrementLifetime_ne _ _ _ h]

theorem particleAt_coolerMove_ne (random : ℕ → ℚ) (p q : ℕ) (s : Sim) (h : q ≠ p) :
    particleAt (coolerMove random s p) q = particleAt s.geometry q := by
  unfold coolerMove
  dsimp only
  rw [particleAt_addTurbulence_ne _ _ _ _ _ h, particleAt_coolerUpdatePosition_ne _ _ _ h,
    particleAt_coolerLifetime_ne _ _ _ _ h]

theorem particleAt_rackMove_ne (random : ℕ → ℚ) (p q : ℕ) (s : Sim) (h : q ≠ p) :
    particleAt (rackMove random s p) q = particleAt s.geometry q := by
  unfold rackMove
  dsimp only
  rw [particleAt_rackUpdatePosition_ne _ _ _ h, particleAt_rackLifetime_ne _ _ _ _ h]

theorem particleAt_coolerParticle_ne (sc : Scene) (random : ℕ → ℚ) (cooler p q : ℕ) (s : Sim)
    (h : q ≠ p) :
    particleAt (coolerParticle sc random cooler s p).geometry q = particleAt s.geometry q := by
  rw [coolerParticle_geometry]
  split
  · rw [particleAt_collisionResponse_ne _ _ _ h, particleAt_coolerMove_ne _ _ _ _ h]
  · rw [particleAt_coolerMove_ne _ _ _ _ h]

theorem particleAt_rackParticle_ne (sc : Scene) (random : ℕ → ℚ) (rack system p q : ℕ)
    (s : Sim) (h : q ≠ p) :
    particleAt (rackParticle sc random rack system s p).geometry q =
      particleAt s.geometry q := by
  rw [rackParticle_geometry]
  split
  · rw [particleAt_collisionResponse_ne _ _ _ h, particleAt_rackMove_ne _ _ _ _ h]
  · rw [particleAt_rackMove_ne _ _ _ _ h]

/-! ## The loops -/

theorem foldl_invariant (P : Sim → Prop) (f : Sim → ℕ → Sim) (l : List ℕ)
    (h : ∀ s q, q ∈ l → P s → P (f s q)) (s : Sim) (hs : P s) : P (l.foldl f s) := by
  induction l generalizing s with
  | nil => exact hs
  | cons a t ih =>
    rw [List.foldl_cons]
    exact ih (fun s q hq => h s q (List.mem_cons_of_mem _ hq)) _
      (h s a (List.mem_cons_self _ _) hs)

theorem range_split (n p : ℕ) (hp : p < n) :
    List.range n = List.range p ++ p :: List.range' (p + 1) (n - p - 1) := by
  have h1 : n = (n - p) + p := by omega
  have h2 : List.range' p (n - p) = p :: List.range' (p + 1) (n - p - 1) := by
    have h3 : n - p = (n - p - 1) + 1 := by omega
    rw [h3, List.range'_succ]
    simp
  conv_lhs => rw [h1]
  rw [List.range_eq_range', ← List.range'_append 0 p (n - p) 1, List.range_eq_range']
  simp [h2]

theorem particleIndices_sized (n : ℕ) (b : Buffers) (hb : Sized n b) :
    particleIndices b = List.range n := by
  unfold particleIndices
  rw [hb.1]
  congr 1
  omega

theorem sized_coolerReach (sc : Scene) (random : ℕ → ℚ) (cooler n p : ℕ) (s : Sim)
    (hs : Sized n s.geometry) : Sized n (coolerReach sc random cooler s p).geometry :=
  foldl_invariant (fun t => Sized n t.geometry) _ _
    (fun t q _ ht => sized_coolerParticle sc random cooler n q t ht) s hs

theorem sized_rackReach (sc : Scene) (random : ℕ → ℚ) (rack system n p : ℕ) (s : Sim)
    (hs : Sized n s.geometry) : Sized n (rackReach sc random rack system s p).geometry :=
  foldl_invariant (fun t => Sized n t.geometry) _ _
    (fun t q _ ht => sized_rackParticle sc random rack system n q t ht) s hs

theorem particleAt_coolerReach (sc : Scene) (random : ℕ → ℚ) (cooler p q : ℕ) (s : Sim)
    (h : p ≤ q) :
    particleAt (coolerReach sc random cooler s p).geometry q = particleAt s.geometry q :=
  foldl_invariant (fun t => particleAt t.geometry q = particleAt s.geometry q) _ _
    (fun t k hk ht => by
      beta_reduce at ht ⊢
      rw [particleAt_coolerParticle_ne sc random cooler k q t
        (by have := List.mem_range.mp hk; omega)]
      exact ht) s rfl

theorem particleAt_rackReach (sc : Scene) (random : ℕ → ℚ) (rack system p q : ℕ) (s : Sim)
    (h : p ≤ q) :
    particleAt (rackReach sc random rack system s p).geometry q = particleAt s.geometry q :=
  foldl_invariant (fun t => particleAt t.geometry q = particleAt s.geometry q) _ _
    (fun t k hk ht => by
      beta_reduce at ht ⊢
      rw [particleAt_rackParticle_ne sc random rack system k q t
        (by have := List.mem_range.mp hk; omega)]
      exact ht) s rfl

theorem coolerSystem_split (sc : Scene) (random : ℕ → ℚ) (cooler n p : ℕ) (s : Sim)
    (hs : Sized n s.geometry) (hp : p < n) :
    coolerSystem sc random cooler s =
      (List.range' (p + 1) (n - p - 1)).foldl (coolerParticle sc random cooler)
        (coolerParticle sc random cooler (coolerReach sc random cooler s p) p) := by
  unfold coolerSystem coolerReach
  rw [particleIndices_sized n s.geometry hs, range_split n p hp, List.foldl_append,
    List.foldl_cons]

theorem rackSystem_split (sc : Scene) (random : ℕ → ℚ) (rack system n p : ℕ) (s : Sim)
    (hs : Sized n s.geometry) (hp : p < n) :
    rackSystem sc random rack system s =
      (List.range' (p + 1) (n - p - 1)).foldl (rackParticle sc random rack system)
        (rackParticle sc random rack system (rackReach sc random rack system s p) p) := by
  unfold rackSystem rackReach
  rw [particleIndices_sized n s.geometry hs, range_split n p hp, List.foldl_append,
    List.foldl_cons]

theorem particleAt_coolerSystem (sc : Scene) (random : ℕ → ℚ) (cooler n p : ℕ) (s : Sim)
    (hs : Sized n s.geometry) (hp : p < n) :
    particleAt (coolerSystem sc random cooler s).geometry p =
      particleAt (coolerParticle sc random cooler (coolerReach sc random cooler s p) p).geometry
        p := by
  rw [coolerSystem_split sc random cooler n p s hs hp]
  exact foldl_invariant
    (fun t => particleAt t.geometry p =
      particleAt (coolerParticle sc random cooler (coolerReach sc random cooler s p) p).geometry
        p) _ _
    (fun t k hk ht => by
      beta_reduce at ht ⊢
      rw [particleAt_coolerParticle_ne sc random cooler k p t
        (by have := (List.mem_range'_1.mp hk).1; omega)]
      exact ht) _ rfl

theorem particleAt_rackSystem (sc : Scene) (random : ℕ → ℚ) (rack system n p : ℕ) (s : Sim)
    (hs : Sized n s.geometry) (hp : p < n) :
    particleAt (rackSystem sc random rack system s).geometry p =
      particleAt
        (rackParticle sc random rack system (rackReach sc random rack system s p) p).geometry
        p := by
  rw [rackSystem_split sc random rack system n p s hs hp]
  exact foldl_invariant
    (fun t => particleAt t.geometry p =
      particleAt
        (rackParticle sc random rack system (rackReach sc random rack system s p) p).geometry
        p) _ _
    (fun t k hk ht => by
      beta_reduce at ht ⊢
      rw [particleAt_rackParticle_ne sc random rack system k p t
        (by have := (List.mem_range'_1.mp hk).1; omega)]
      exact ht) _ rfl

theorem sized_coolerSystem (sc : Scene) (random : ℕ → ℚ) (cooler n : ℕ) (s : Sim)
    (hs : Sized n s.geometry) : Sized n (coolerSystem sc random cooler s).geometry :=
  foldl_invariant (fun t => Sized n t.geometry) _ _
    (fun t q _ ht => sized_coolerParticle sc random cooler n q t ht) s hs

theorem sized_rackSystem (sc : Scene) (random : ℕ → ℚ) (rack system n : ℕ) (s : Sim)
    (hs : Sized n s.geometry) : Sized n (rackSystem sc random rack system s).geometry :=
  foldl_invariant (fun t => Sized n t.geometry) _ _
    (fun t q _ ht => sized_rackParticle sc random rack system n q t ht) s hs

/-! ## The slot that the loop body works on -/

theorem resets_eq (n p : ℕ) (s : Sim) (hs : Sized n s.geometry) (hp : p < n) :
    resets s p =
      decide ((particleAt s.geometry p).age + 1 ≥ (particleAt s.geometry p).maxAge) := by
  obtain ⟨h1, h2, h3, h4, h5⟩ := hs
  simp only [resets, expired, incrementLifetime, particleAt]
  simp (disch := omega) only [rd_set_eq]

theorem particleAt_coolerLifetime (random : ℕ → ℚ) (n p : ℕ) (s : Sim)
    (hs : Sized n s.geometry) (hp : p < n) :
    particleAt (coolerLifetime random s p) p =
      if resets s p then
        particleAt
          (initCoolerParticleProps random s.fx.drawn p (incrementLifetime p s.geometry)) p
      else { particleAt s.geometry p with age := (particleAt s.geometry p).age + 1 } := by
  unfold coolerLifetime resets
  dsimp only
  split
  · rfl
  · exact particleAt_incrementLifetime n p s.geometry hs hp

theorem particleAt_rackLifetime (random : ℕ → ℚ) (n p : ℕ) (s : Sim)
    (hs : Sized n s.geometry) (hp : p < n) :
    particleAt (rackLifetime random s p) p =
      if resets s p then
        particleAt
          (initRackParticleProps random s.fx.drawn p (incrementLifetime p s.geometry)) p
      else { particleAt s.geometry p with age := (particleAt s.geometry p).age + 1 } := by
  unfold rackLifetime resets
  dsimp only
  split
  · rfl
  · exact particleAt_incrementLifetime n p s.geometry hs hp

theorem particleAt_coolerMove (random : ℕ → ℚ) (n p : ℕ) (s : Sim)
    (hs : Sized n s.geometry) (hp : p < n) :
    particleAt (coolerMove random s p) p =
      { particleAt (coolerLifetime random s p) p with
        position :=
          ⟨(particleAt (coolerLifetime random s p) p).position.x +
              (particleAt (coolerLifetime random s p) p).velocity.x * 0.5,
            (particleAt (coolerLifetime random s p) p).position.y +
              (particleAt (coolerLifetime random s p) p).velocity.y * 1.5,
            (particleAt (coolerLifetime random s p) p).position.z +
              (particleAt (coolerLifetime random s p) p).velocity.z * 1⟩
        velocity :=
          ⟨(particleAt (coolerLifetime random s p) p).velocity.x +
              (random (coolerDrawn s p) - 0.5) * 0.001,
            (particleAt (coolerLifetime random s p) p).velocity.y +
              (random (coolerDrawn s p + 1) - 0.5) * 0.01,
            (particleAt (coolerLifetime random s p) p).velocity.z +
              (random (coolerDrawn s p + 2) - 0.5) * 0.02⟩ } := by
  have h1 := sized_coolerLifetime random n p s hs
  have h2 := sized_coolerUpdatePosition n (3 * p) _ h1
  unfold coolerMove
  dsimp only
  rw [particleAt_addTurbulence random _ n p _ h2 hp,
    particleAt_coolerUpdatePosition n p _ h1 hp]

theorem particleAt_rackMove (random : ℕ → ℚ) (n p : ℕ) (s : Sim)
    (hs : Sized n s.geometry) (hp : p < n) :
    particleAt (rackMove random s p) p =
      { particleAt (rackLifetime random s p) p with
        position :=
          ⟨(particleAt (rackLifetime random s p) p).position.x +
              (particleAt (rackLifetime random s p) p).velocity.x,
            (particleAt (rackLifetime random s p) p).position.y +
              (particleAt (rackLifetime random s p) p).velocity.y,
            (particleAt (rackLifetime random s p) p).position.z +
              (particleAt (rackLifetime random s p) p).velocity.z⟩ } := by
  have h1 := sized_rackLifetime random n p s hs
  unfold rackMove
  dsimp only
  rw [particleAt_rackUpdatePosition n p _ h1 hp]

theorem particleAt_coolerParticle (sc : Scene) (random : ℕ → ℚ) (cooler n p : ℕ) (s : Sim)
    (hs : Sized n s.geometry) (hp : p < n) :
    particleAt (coolerParticle sc random cooler s p).geometry p =
      if collides (coolerIntersects sc random cooler s p) then
        { particleAt (coolerMove random s p) p with
          velocity := ⟨0, 0, 0⟩, color := ⟨1.0, 0.5, 0.0⟩ }
      else particleAt (coolerMove random s p) p := by
  rw [coolerParticle_geometry]
  split
  · exact particleAt_collisionResponse n p _ (sized_coolerMove random n p s hs) hp
  · rfl

theorem particleAt_rackParticle (sc : Scene) (random : ℕ → ℚ) (rack system n p : ℕ) (s : Sim)
    (hs : Sized n s.geometry) (hp : p < n) :
    particleAt (rackParticle sc random rack system s p).geometry p =
      if collides (rackIntersects sc random rack s p) then
        { particleAt (rackMove random s p) p with
          velocity := ⟨0, 0, 0⟩, color := ⟨1.0, 0.5, 0.0⟩ }
      else particleAt (rackMove random s p) p := by
  rw [rackParticle_geometry]
  split
  · exact particleAt_collisionResponse n p _ (sized_rackMove random n p s hs) hp
  · rfl

/-! ## Respawn inside a tick (C1) -/

theorem sized_agedCooler : Sized 1 agedCooler.geometry := by
  simp [Sized, agedCooler]

theorem sized_agedRack : Sized 1 agedRack.geometry := by
  simp [Sized, agedRack]

theorem sized_youngCooler : Sized 1 youngCooler.geometry := by
  simp [Sized, youngCooler]

/-- C1 (amended). In both update functions a slot whose incremented age reaches its
maximal age is respawned by the policy of its class and the rest of the loop body then
runs on the respawned slot in the same tick: at the end of the tick the age and maximal
age are the ones the policy wrote, the position is the policy's position plus the
policy's velocity times the acceleration vector of the class, and the velocity and colour
are the policy's (for the cooler: velocity plus the turbulence terms) unless the
collision branch is taken, which leaves velocity (0,0,0) and colour (1.0, 0.5, 0.0). -/
theorem respawn_then_continue (sc : Scene) (random : ℕ → ℚ) (emitter system n p : ℕ)
    (s : Sim) (hs : Sized n s.geometry) (hp : p < n)
    (hage : (particleAt s.geometry p).age + 1 ≥ (particleAt s.geometry p).maxAge) :
    (let t := coolerReach sc random emitter s p
     let r := particleAt
       (initCoolerParticleProps random t.fx.drawn p (incrementLifetime p t.geometry)) p
     let a := particleAt (coolerSystem sc random emitter s).geometry p
     a.age = r.age ∧ a.maxAge = r.maxAge ∧
       a.position = ⟨r.position.x + r.velocity.x * 0.5, r.position.y + r.velocity.y * 1.5,
         r.position.z + r.velocity.z * 1⟩ ∧
       (collides (coolerIntersects sc random emitter t p) = false →
         a.velocity = ⟨r.velocity.x + (random (t.fx.drawn + 7) - 0.5) * 0.001,
           r.velocity.y + (random (t.fx.drawn + 7 + 1) - 0.5) * 0.01,
           r.velocity.z + (random (t.fx.drawn + 7 + 2) - 0.5) * 0.02⟩ ∧ a.color = r.color) ∧
       (collides (coolerIntersects sc random emitter t p) = true →
         a.velocity = ⟨0, 0, 0⟩ ∧ a.color = ⟨1.0, 0.5, 0.0⟩)) ∧
    (let t := rackReach sc random emitter system s p
     let r := particleAt
       (initRackParticleProps random t.fx.drawn p (incrementLifetime p t.geometry)) p
     let a := particleAt (rackSystem sc random emitter system s).geometry p
     a.age = r.age ∧ a.maxAge = r.maxAge ∧
       a.position = ⟨r.position.x + r.velocity.x, r.position.y + r.velocity.y,
         r.position.z + r.velocity.z⟩ ∧
       (collides (rackIntersects sc random emitter t p) = false →
         a.velocity = r.velocity ∧ a.color = r.color) ∧
       (collides (rackIntersects sc random emitter t p) = true →
         a.velocity = ⟨0, 0, 0⟩ ∧ a.color = ⟨1.0, 0.5, 0.0⟩)) := by
  constructor
  · intro t r a
    have ht : Sized n t.geometry := sized_coolerReach sc random emitter n p s hs
    have hr : resets t p = true := by
      rw [resets_eq n p t ht hp, particleAt_coolerReach sc random emitter p p s le_rfl]
      exact decide_eq_true hage
    have hd : coolerDrawn t p = t.fx.drawn + 7 := by simp [coolerDrawn, hr]
    have ha : a = particleAt (coolerParticle sc random emitter t p).geometry p :=
      particleAt_coolerSystem sc random emitter n p s hs hp
    rw [particleAt_coolerParticle sc random emitter n p t ht hp,
      particleAt_coolerMove random n p t ht hp, particleAt_coolerLifetime random n p t ht hp,
      hd] at ha
    simp only [hr, if_true] at ha
    rcases hc : collides (coolerIntersects sc random emitter t p) with _ | _ <;>
      simp [hc] at ha <;> simp [ha, r]
  · intro t r a
    have ht : Sized n t.geometry := sized_rackReach sc random emitter system n p s hs
    have hr : resets t p = true := by
      rw [resets_eq n p t ht hp, particleAt_rackReach sc random emitter system p p s le_rfl]
      exact decide_eq_true hage
    have ha : a = particleAt (rackParticle sc random emitter system t p).geometry p :=
      particleAt_rackSystem sc random emitter system n p s hs hp
    rw [particleAt_rackParticle sc random emitter system n p t ht hp,
      particleAt_rackMove random n p t ht hp, particleAt_rackLifetime random n p t ht hp]
      at ha
    simp only [hr, if_true] at ha
    rcases hc : collides (rackIntersects sc random emitter t p) with _ | _ <;>
      simp [hc] at ha <;> simp [ha, r]

/-- Witness of C1 (amended): the one-slot systems `agedCooler` and `agedRack` in the quiet
scene. -/
theorem respawn_then_continue_witness :
    Sized 1 agedCooler.geometry ∧
      (particleAt agedCooler.geometry 0).age + 1 ≥ (particleAt agedCooler.geometry 0).maxAge ∧
      (particleAt (coolerSystem quietScene halfDraws 0 agedCooler).geometry 0).age =
        (particleAt (initCoolerParticleProps halfDraws
          (coolerReach quietScene halfDraws 0 agedCooler 0).fx.drawn 0
          (incrementLifetime 0 (coolerReach quietScene halfDraws 0 agedCooler 0).geometry))
          0).age :=
  ⟨sized_agedCooler, by norm_num [particleAt, agedCooler, rd],
    (respawn_then_continue quietScene halfDraws 0 0 1 0 agedCooler sized_agedCooler
      (by decide) (by norm_num [particleAt, agedCooler, rd])).1.1⟩

/-- C1 (counterexample). The one-slot systems `agedCooler` and `agedRack` reach their
maximal age in the tick, and at the end of the tick their position is not the position
that the respawn policy wrote. -/
theorem respawn_not_skipped :
    ((particleAt agedCooler.geometry 0).age + 1 ≥ (particleAt agedCooler.geometry 0).maxAge ∧
      (particleAt (coolerSystem quietScene halfDraws 0 agedCooler).geometry 0).position ≠
        (particleAt (initCoolerParticleProps halfDraws agedCooler.fx.drawn 0
          (incrementLifetime 0 agedCooler.geometry)) 0).position) ∧
    ((particleAt agedRack.geometry 0).age + 1 ≥ (particleAt agedRack.geometry 0).maxAge ∧
      (particleAt (rackSystem quietScene halfDraws 0 0 agedRack).geometry 0).position ≠
        (particleAt (initRackParticleProps halfDraws agedRack.fx.drawn 0
          (incrementLifetime 0 agedRack.geometry)) 0).position) := by
  refine ⟨⟨by norm_num [particleAt, agedCooler, rd], ?_⟩,
    ⟨by norm_num [particleAt, agedRack, rd], ?_⟩⟩
  · simp [coolerSystem, particleIndices, agedCooler, coolerParticle, coolerMove,
      coolerLifetime, incrementLifetime, expired, initCoolerParticleProps,
      coolerUpdatePosition, addTurbulence, collisionQuery, quietScene, collides, particleAt,
      vectorAt, rd, accelerations, halfDraws, noEffects, coolerDrawn, resets, List.range_succ]
    norm_num
  · simp [rackSystem, particleIndices, agedRack, rackParticle, rackMove,
      rackLifetime, incrementLifetime, expired, initRackParticleProps,
      rackUpdatePosition, collisionQuery, quietScene, collides, particleAt,
      vectorAt, rd, accelerationFactor, halfDraws, noEffects, rackDrawn, resets,
      List.range_succ]
    norm_num

/-! ## Collision response (C2) -/

/-- C2. In one tick of either class, for every slot: if the list of intersections is not
empty and its first element has distance below 0.1, the slot ends the tick with velocity
(0,0,0) and colour (1.0, 0.5, 0.0), its other fields being those it had when the collision
check was reached; if the list is empty or its first element has distance 0.1 or more,
the slot ends the tick exactly as it was when the collision check was reached. -/
theorem collision_response_iff (sc : Scene) (random : ℕ → ℚ) (emitter system n p : ℕ)
    (s : Sim) (hs : Sized n s.geometry) (hp : p < n) :
    (let t := coolerReach sc random emitter s p
     let m := particleAt (coolerMove random t p) p
     let a := particleAt (coolerSystem sc random emitter s).geometry p
     (∀ first rest, coolerIntersects sc random emitter t p = first :: rest →
        first.distance < 0.1 →
        a = { m with velocity := ⟨0, 0, 0⟩, color := ⟨1.0, 0.5, 0.0⟩ }) ∧
     (∀ first rest, coolerIntersects sc random emitter t p = first :: rest →
        0.1 ≤ first.distance → a = m) ∧
     (coolerIntersects sc random emitter t p = [] → a = m)) ∧
    (let t := rackReach sc random emitter system s p
     let m := particleAt (rackMove random t p) p
     let a := particleAt (rackSystem sc random emitter system s).geometry p
     (∀ first rest, rackIntersects sc random emitter t p = first :: rest →
        first.distance < 0.1 →
        a = { m with velocity := ⟨0, 0, 0⟩, color := ⟨1.0, 0.5, 0.0⟩ }) ∧
     (∀ first rest, rackIntersects sc random emitter t p = first :: rest →
        0.1 ≤ first.distance → a = m) ∧
     (rackIntersects sc random emitter t p = [] → a = m)) := by
  constructor
  · intro t m a
    have ht : Sized n t.geometry := sized_coolerReach sc random emitter n p s hs
    have ha : a = particleAt (coolerParticle sc random emitter t p).geometry p :=
      particleAt_coolerSystem sc random emitter n p s hs hp
    rw [particleAt_coolerParticle sc random emitter n p t ht hp] at ha
    refine ⟨fun first rest h hd => ?_, fun first rest h hd => ?_, fun h => ?_⟩
    · rw [ha, h]
      simp [collides, hd, m]
    · rw [ha, h]
      simp [collides, not_lt.mpr hd, m]
    · rw [ha, h]
      simp [collides, m]
  · intro t m a
    have ht : Sized n t.geometry := sized_rackReach sc random emitter system n p s hs
    have ha : a = particleAt (rackParticle sc random emitter system t p).geometry p :=
      particleAt_rackSystem sc random emitter system n p s hs hp
    rw [particleAt_rackParticle sc random emitter system n p t ht hp] at ha
    refine ⟨fun first rest h hd => ?_, fun first rest h hd => ?_, fun h => ?_⟩
    · rw [ha, h]
      simp [collides, hd, m]
    · rw [ha, h]
      simp [collides, not_lt.mpr hd, m]
    · rw [ha, h]
      simp [collides, m]

/-- Witness of C2: the cooler `youngCooler` in the quiet scene, where no ray hits. -/
theorem collision_response_iff_witness :
    Sized 1 youngCooler.geometry ∧
      (coolerIntersects quietScene halfDraws 0
          (coolerReach quietScene halfDraws 0 youngCooler 0) 0 = [] →
        particleAt (coolerSystem quietScene halfDraws 0 youngCooler).geometry 0 =
          particleAt
            (coolerMove halfDraws (coolerReach quietScene halfDraws 0 youngCooler 0) 0) 0) :=
  ⟨sized_youngCooler,
    (collision_response_iff quietScene halfDraws 0 0 1 0 youngCooler sized_youngCooler
      (by decide)).1.2.2⟩

/-! ## Integration (C7) -/

/-- C7. In one tick, a slot that is not respawned in the tick ends with its position at
the start of the tick plus its velocity at the start of the tick multiplied component by
component by (0.5, 1.5, 1.0) for the cooler and by (1, 1, 1) for the rack. -/
theorem position_integrated (sc : Scene) (random : ℕ → ℚ) (emitter system n p : ℕ)
    (s : Sim) (hs : Sized n s.geometry) (hp : p < n)
    (hage : (particleAt s.geometry p).age + 1 < (particleAt s.geometry p).maxAge) :
    (particleAt (coolerSystem sc random emitter s).geometry p).position =
        ⟨(particleAt s.geometry p).position.x + (particleAt s.geometry p).velocity.x * 0.5,
          (particleAt s.geometry p).position.y + (particleAt s.geometry p).velocity.y * 1.5,
          (particleAt s.geometry p).position.z + (particleAt s.geometry p).velocity.z * 1⟩ ∧
      (particleAt (rackSystem sc random emitter system s).geometry p).position =
        ⟨(particleAt s.geometry p).position.x + (particleAt s.geometry p).velocity.x * 1,
          (particleAt s.geometry p).position.y + (particleAt s.geometry p).velocity.y * 1,
          (particleAt s.geometry p).position.z + (particleAt s.geometry p).velocity.z * 1⟩ := by
  constructor
  · have ht : Sized n (coolerReach sc random emitter s p).geometry :=
      sized_coolerReach sc random emitter n p s hs
    have hr : resets (coolerReach sc random emitter s p) p = false := by
      rw [resets_eq n p _ ht hp, particleAt_coolerReach sc random emitter p p s le_rfl]
      exact decide_eq_false (not_le.mpr hage)
    rw [particleAt_coolerSystem sc random emitter n p s hs hp,
      particleAt_coolerParticle sc random emitter n p _ ht hp,
      particleAt_coolerMove random n p _ ht hp, particleAt_coolerLifetime random n p _ ht hp,
      particleAt_coolerReach sc random emitter p p s le_rfl]
    simp only [hr]
    split <;> simp
  · have ht : Sized n (rackReach sc random emitter system s p).geometry :=
      sized_rackReach sc random emitter system n p s hs
    have hr : resets (rackReach sc random emitter system s p) p = false := by
      rw [resets_eq n p _ ht hp, particleAt_rackReach sc random emitter system p p s le_rfl]
      exact decide_eq_false (not_le.mpr hage)
    rw [particleAt_rackSystem sc random emitter system n p s hs hp,
      particleAt_rackParticle sc random emitter system n p _ ht hp,
      particleAt_rackMove random n p _ ht hp, particleAt_rackLifetime random n p _ ht hp,
      particleAt_rackReach sc random emitter system p p s le_rfl]
    simp only [hr]
    split <;> simp

/-- Witness of C7: the cooler `youngCooler` (age 0, maximal age 1000) in the wall scene. -/
theorem position_integrated_witness :
    Sized 1 youngCooler.geometry ∧
      (particleAt youngCooler.geometry 0).age + 1 < (particleAt youngCooler.geometry 0).maxAge ∧
      (particleAt (coolerSystem wallScene zeroDraws 0 youngCooler).geometry 0).position =
        ⟨(particleAt youngCooler.geometry 0).position.x +
            (particleAt youngCooler.geometry 0).velocity.x * 0.5,
          (particleAt youngCooler.geometry 0).position.y +
            (particleAt youngCooler.geometry 0).velocity.y * 1.5,
          (particleAt youngCooler.geometry 0).position.z +
            (particleAt youngCooler.geometry 0).velocity.z * 1⟩ :=
  ⟨sized_youngCooler, by norm_num [particleAt, youngCooler, rd],
    (position_integrated wallScene zeroDraws 0 0 1 0 youngCooler sized_youngCooler
      (by decide) (by norm_num [particleAt, youngCooler, rd])).1⟩

/-! ## Order of integration and turbulence (C8) -/

/-- C8 (amended). In a cooler tick the integration step comes before the turbulence step:
for every slot the displacement added to the position is the velocity the slot had before
the turbulence terms of this tick were added (the velocity after the lifetime block),
multiplied by (0.5, 1.5, 1); the turbulence terms are added afterwards, and the perturbed
velocity is the one normalised into the direction of the collision ray. -/
theorem integration_before_turbulence (sc : Scene) (random : ℕ → ℚ) (cooler n p : ℕ)
    (s : Sim) (hs : Sized n s.geometry) (hp : p < n) :
    let t := coolerReach sc random cooler s p
    let l := particleAt (coolerLifetime random t p) p
    let m := particleAt (coolerMove random t p) p
    let a := particleAt (coolerSystem sc random cooler s).geometry p
    a.position = ⟨l.position.x + l.velocity.x * 0.5, l.position.y + l.velocity.y * 1.5,
        l.position.z + l.velocity.z * 1⟩ ∧
      m.velocity = ⟨l.velocity.x + (random (coolerDrawn t p) - 0.5) * 0.001,
        l.velocity.y + (random (coolerDrawn t p + 1) - 0.5) * 0.01,
        l.velocity.z + (random (coolerDrawn t p + 2) - 0.5) * 0.02⟩ ∧
      (collisionQuery sc cooler false (3 * p) (coolerMove random t p)).direction =
        sc.normalize m.velocity := by
  intro t l m a
  have ht : Sized n t.geometry := sized_coolerReach sc random cooler n p s hs
  have ha : a = particleAt (coolerParticle sc random cooler t p).geometry p :=
    particleAt_coolerSystem sc random cooler n p s hs hp
  have hm := particleAt_coolerMove random n p t ht hp
  rw [particleAt_coolerParticle sc random cooler n p t ht hp] at ha
  refine ⟨?_, ?_, rfl⟩
  · rw [ha]
    split <;> simp [hm, l]
  · show (particleAt (coolerMove random t p) p).velocity = _
    rw [hm]

/-- Witness of C8 (amended): the cooler `youngCooler` in the quiet scene with every draw
equal to 0. -/
theorem integration_before_turbulence_witness :
    Sized 1 youngCooler.geometry ∧
      (particleAt (coolerSystem quietScene zeroDraws 0 youngCooler).geometry 0).position =
        ⟨(particleAt (coolerLifetime zeroDraws
              (coolerReach quietScene zeroDraws 0 youngCooler 0) 0) 0).position.x +
            (particleAt (coolerLifetime zeroDraws
              (coolerReach quietScene zeroDraws 0 youngCooler 0) 0) 0).velocity.x * 0.5,
          (particleAt (coolerLifetime zeroDraws
              (coolerReach quietScene zeroDraws 0 youngCooler 0) 0) 0).position.y +
            (particleAt (coolerLifetime zeroDraws
              (coolerReach quietScene zeroDraws 0 youngCooler 0) 0) 0).velocity.y * 1.5,
          (particleAt (coolerLifetime zeroDraws
              (coolerReach quietScene zeroDraws 0 youngCooler 0) 0) 0).position.z +
            (particleAt (coolerLifetime zeroDraws
              (coolerReach quietScene zeroDraws 0 youngCooler 0) 0) 0).velocity.z * 1⟩ :=
  ⟨sized_youngCooler,
    (integration_before_turbulence quietScene zeroDraws 0 1 0 youngCooler sized_youngCooler
      (by decide)).1⟩

/-- C8 (counterexample). For the cooler `youngCooler` with every draw equal to 0, the
velocity after the turbulence of the tick is (0.9995, -0.155, -0.01), and the position at
the end of the tick is not the start position plus that perturbed velocity times
(0.5, 1.5, 1): it is (0.5, 19.775, 0), computed from the velocity before the turbulence. -/
theorem integration_ignores_turbulence :
    (particleAt (coolerMove zeroDraws youngCooler 0) 0).velocity = ⟨0.9995, -0.155, -0.01⟩ ∧
      (particleAt (coolerSystem quietScene zeroDraws 0 youngCooler).geometry 0).position =
        ⟨0.5, 19.775, 0⟩ ∧
      (particleAt (coolerSystem quietScene zeroDraws 0 youngCooler).geometry 0).position ≠
        ⟨(particleAt youngCooler.geometry 0).position.x +
            (particleAt (coolerMove zeroDraws youngCooler 0) 0).velocity.x * 0.5,
          (particleAt youngCooler.geometry 0).position.y +
            (particleAt (coolerMove zeroDraws youngCooler 0) 0).velocity.y * 1.5,
          (particleAt youngCooler.geometry 0).position.z +
            (particleAt (coolerMove zeroDraws youngCooler 0) 0).velocity.z * 1⟩ := by
  refine ⟨?_, ?_, ?_⟩
  · simp [youngCooler, coolerMove, coolerLifetime, incrementLifetime, expired,
      coolerUpdatePosition, addTurbulence, particleAt, vectorAt, rd, accelerations, zeroDraws,
      noEffects, coolerDrawn, resets]
    norm_num
  · simp [coolerSystem, particleIndices, youngCooler, coolerParticle, coolerMove,
      coolerLifetime, incrementLifetime, expired, coolerUpdatePosition, addTurbulence,
      collisionQuery, quietScene, collides, particleAt, vectorAt, rd, accelerations, zeroDraws,
      noEffects, coolerDrawn, resets, List.range_succ]
    norm_num
  · simp [coolerSystem, particleIndices, youngCooler, coolerParticle, coolerMove,
      coolerLifetime, incrementLifetime, expired, coolerUpdatePosition, addTurbulence,
      collisionQuery, quietScene, collides, particleAt, vectorAt, rd, accelerations, zeroDraws,
      noEffects, coolerDrawn, resets, List.range_succ]
    norm_num

/-! ## After a collision (C9) -/

theorem rack_stays_frozen (sc : Scene) (random : ℕ → ℚ) (rack system n p : ℕ) (s : Sim)
    (hs : Sized n s.geometry) (hp : p < n)
    (hage : (particleAt s.geometry p).age + 1 < (particleAt s.geometry p).maxAge)
    (hv : (particleAt s.geometry p).velocity = ⟨0, 0, 0⟩) :
    (particleAt (rackSystem sc random rack system s).geometry p).position =
        (particleAt s.geometry p).position ∧
      (particleAt (rackSystem sc random rack system s).geometry p).velocity = ⟨0, 0, 0⟩ := by
  have ht : Sized n (rackReach sc random rack system s p).geometry :=
    sized_rackReach sc random rack system n p s hs
  have hr : resets (rackReach sc random rack system s p) p = false := by
    rw [resets_eq n p _ ht hp, particleAt_rackReach sc random rack system p p s le_rfl]
    exact decide_eq_false (not_le.mpr hage)
  rw [particleAt_rackSystem sc random rack system n p s hs hp,
    particleAt_rackParticle sc random rack system n p _ ht hp,
    particleAt_rackMove random n p _ ht hp, particleAt_rackLifetime random n p _ ht hp,
    particleAt_rackReach sc random rack system p p s le_rfl]
  simp only [hr]
  split <;> simp [hv]

theorem collides_wallScene (s : Sim) :
    collides (coolerIntersects wallScene zeroDraws 0 s 0) =
      decide (0 < (particleAt (coolerMove zeroDraws s 0) 0).velocity.x) := by
  unfold coolerIntersects
  by_cases h : 0 < (particleAt (coolerMove zeroDraws s 0) 0).velocity.x
  · have h2 : 0 < (collisionQuery wallScene 0 false (3 * 0)
        (coolerMove zeroDraws s 0)).direction.x := h
    simp only [wallScene, h, decide_True] at h2 ⊢
    rw [if_pos h2]
    norm_num [collides]
  · have h2 : ¬ 0 < (collisionQuery wallScene 0 false (3 * 0)
        (coolerMove zeroDraws s 0)).direction.x := h
    simp only [wallScene, h, decide_False] at h2 ⊢
    rw [if_neg h2]
    rfl

theorem wallScene_tick (s : Sim) (hs : Sized 1 s.geometry)
    (hage : (particleAt s.geometry 0).age + 1 < (particleAt s.geometry 0).maxAge) :
    particleAt (coolerSystem wallScene zeroDraws 0 s).geometry 0 =
      if 0 < (particleAt s.geometry 0).velocity.x - 0.0005 then
        { position :=
            ⟨(particleAt s.geometry 0).position.x + (particleAt s.geometry 0).velocity.x * 0.5,
              (particleAt s.geometry 0).position.y + (particleAt s.geometry 0).velocity.y * 1.5,
              (particleAt s.geometry 0).position.z + (particleAt s.geometry 0).velocity.z⟩
          velocity := ⟨0, 0, 0⟩
          color := ⟨1.0, 0.5, 0.0⟩
          age := (particleAt s.geometry 0).age + 1
          maxAge := (particleAt s.geometry 0).maxAge }
      else
        { position :=
            ⟨(particleAt s.geometry 0).position.x + (particleAt s.geometry 0).velocity.x * 0.5,
              (particleAt s.geometry 0).position.y + (particleAt s.geometry 0).velocity.y * 1.5,
              (particleAt s.geometry 0).position.z + (particleAt s.geometry 0).velocity.z⟩
          velocity :=
            ⟨(particleAt s.geometry 0).velocity.x - 0.0005,
              (particleAt s.geometry 0).velocity.y - 0.005,
              (particleAt s.geometry 0).velocity.z - 0.01⟩
          color := (particleAt s.geometry 0).color
          age := (particleAt s.geometry 0).age + 1
          maxAge := (particleAt s.geometry 0).maxAge } := by
  have hr : resets s 0 = false := by
    rw [resets_eq 1 0 s hs (by decide)]
    exact decide_eq_false (not_le.mpr hage)
  have hm := particleAt_coolerMove zeroDraws 1 0 s hs (by decide)
  rw [particleAt_coolerLifetime zeroDraws 1 0 s hs (by decide)] at hm
  simp only [hr, zeroDraws, Bool.false_eq_true, if_false] at hm
  have e : coolerReach wallScene zeroDraws 0 s 0 = s := rfl
  rw [particleAt_coolerSystem wallScene zeroDraws 0 1 0 s hs (by decide), e,
    particleAt_coolerParticle wallScene zeroDraws 0 1 0 s hs (by decide),
    collides_wallScene, hm]
  norm_num [sub_eq_add_neg]

/-- C9 (the code at the failing input). The cooler `youngCooler` faces a wall 0.05 ahead
and every draw is 0.  Tick 1 takes the collision branch and leaves velocity (0,0,0) at
position (0.5, 19.775, 0); tick 2 keeps the position but the turbulence makes the velocity
(-0.0005, -0.005, -0.01); tick 3 moves the slot to (0.49975, 19.7675, -0.01), although its
age is 3 and its maximal age 1000, so that no respawn has happened. -/
theorem cooler_drifts_after_collision :
    collides (coolerIntersects wallScene zeroDraws 0 youngCooler 0) = true ∧
      (particleAt (coolerSystem wallScene zeroDraws 0 youngCooler).geometry 0).velocity =
        ⟨0, 0, 0⟩ ∧
      (particleAt (coolerSystem wallScene zeroDraws 0 youngCooler).geometry 0).position =
        ⟨0.5, 19.775, 0⟩ ∧
      (particleAt (coolerSystem wallScene zeroDraws 0
        (coolerSystem wallScene zeroDraws 0 youngCooler)).geometry 0).position =
        ⟨0.5, 19.775, 0⟩ ∧
      (particleAt (coolerSystem wallScene zeroDraws 0
        (coolerSystem wallScene zeroDraws 0 youngCooler)).geometry 0).velocity =
        ⟨-0.0005, -0.005, -0.01⟩ ∧
      (particleAt (coolerSystem wallScene zeroDraws 0 (coolerSystem wallScene zeroDraws 0
        (coolerSystem wallScene zeroDraws 0 youngCooler))).geometry 0).position =
        ⟨0.49975, 19.7675, -0.01⟩ ∧
      (particleAt (coolerSystem wallScene zeroDraws 0 (coolerSystem wallScene zeroDraws 0
        (coolerSystem wallScene zeroDraws 0 youngCooler))).geometry 0).age = 3 ∧
      (particleAt (coolerSystem wallScene zeroDraws 0 (coolerSystem wallScene zeroDraws 0
        (coolerSystem wallScene zeroDraws 0 youngCooler))).geometry 0).maxAge = 1000 := by
  have s1 : Sized 1 (coolerSystem wallScene zeroDraws 0 youngCooler).geometry :=
    sized_coolerSystem _ _ _ _ _ sized_youngCooler
  have s2 : Sized 1 (coolerSystem wallScene zeroDraws 0
      (coolerSystem wallScene zeroDraws 0 youngCooler)).geometry :=
    sized_coolerSystem _ _ _ _ _ s1
  have p0 : particleAt youngCooler.geometry 0 =
      { position := ⟨0, 20, 0⟩, velocity := ⟨1, -0.15, 0⟩, color := ⟨0.1, 0.5, 1.0⟩,
        age := 0, maxAge := 1000 } := by
    simp [particleAt, vectorAt, rd, youngCooler]
  have p1 : particleAt (coolerSystem wallScene zeroDraws 0 youngCooler).geometry 0 =
      { position := ⟨0.5, 19.775, 0⟩, velocity := ⟨0, 0, 0⟩, color := ⟨1.0, 0.5, 0.0⟩,
        age := 1, maxAge := 1000 } := by
    rw [wallScene_tick youngCooler sized_youngCooler (by rw [p0]; norm_num), p0]
    norm_num
  have p2 : particleAt (coolerSystem wallScene zeroDraws 0
      (coolerSystem wallScene zeroDraws 0 youngCooler)).geometry 0 =
      { position := ⟨0.5, 19.775, 0⟩, velocity := ⟨-0.0005, -0.005, -0.01⟩,
        color := ⟨1.0, 0.5, 0.0⟩, age := 2, maxAge := 1000 } := by
    rw [wallScene_tick _ s1 (by rw [p1]; norm_num), p1]
    norm_num
  have p3 : particleAt (coolerSystem wallScene zeroDraws 0 (coolerSystem wallScene zeroDraws 0
      (coolerSystem wallScene zeroDraws 0 youngCooler))).geometry 0 =
      { position := ⟨0.49975, 19.7675, -0.01⟩, velocity := ⟨-0.001, -0.01, -0.02⟩,
        color := ⟨1.0, 0.5, 0.0⟩, age := 3, maxAge := 1000 } := by
    rw [wallScene_tick _ s2 (by rw [p2]; norm_num), p2]
    norm_num
  have hm := particleAt_coolerMove zeroDraws 1 0 youngCooler sized_youngCooler (by decide)
  have hr : resets youngCooler 0 = false := by
    rw [resets_eq 1 0 youngCooler sized_youngCooler (by decide), p0]
    norm_num
  rw [particleAt_coolerLifetime zeroDraws 1 0 youngCooler sized_youngCooler (by decide)] at hm
  simp only [hr, zeroDraws, p0, Bool.false_eq_true, if_false] at hm
  rw [collides_wallScene, hm, p1, p2, p3]
  norm_num

/-! ## Creation -/

theorem initCoolerLoop_spec (random : ℕ → ℚ) (hr : UnitDraws random) (n k : ℕ) (s : Sim)
    (hs : Sized n s.geometry) (hk : k ≤ n) :
    Sized n (initCoolerLoop random k s).geometry ∧
      ∀ p, p < k →
        CoolerSpawnRanges (particleAt (initCoolerLoop random k s).geometry p) ∧
          LifetimeRanges (particleAt (initCoolerLoop random k s).geometry p) := by
  induction k with
  | zero => exact ⟨hs, fun p hp => absurd hp (Nat.not_lt_zero p)⟩
  | succ k ih =>
    obtain ⟨h1, h2⟩ := ih (by omega)
    have e : initCoolerLoop random (k + 1) s =
        { geometry := initCoolerParticleProps random (initCoolerLoop random k s).fx.drawn k
            (initCoolerLoop random k s).geometry
          fx := { (initCoolerLoop random k s).fx with
            drawn := (initCoolerLoop random k s).fx.drawn + 7 } } := by
      simp only [initCoolerLoop, List.range_succ, List.foldl_append, List.foldl_cons,
        List.foldl_nil]
    rw [e]
    refine ⟨sized_initCooler _ _ _ _ _ h1, fun p hp => ?_⟩
    by_cases hpk : p = k
    · subst hpk
      exact initCooler_ranges random _ p n _ hr h1 (by omega)
    · dsimp only
      rw [particleAt_initCooler_ne _ _ _ _ _ hpk]
      exact h2 p (by omega)

theorem initRackLoop_spec (random : ℕ → ℚ) (hr : UnitDraws random) (n k : ℕ) (s : Sim)
    (hs : Sized n s.geometry) (hk : k ≤ n) :
    Sized n (initRackLoop random k s).geometry ∧
      ∀ p, p < k →
        RackSpawnRanges (particleAt (initRackLoop random k s).geometry p) ∧
          LifetimeRanges (particleAt (initRackLoop random k s).geometry p) := by
  induction k with
  | zero => exact ⟨hs, fun p hp => absurd hp (Nat.not_lt_zero p)⟩
  | succ k ih =>
    obtain ⟨h1, h2⟩ := ih (by omega)
    have e : initRackLoop random (k + 1) s =
        { geometry := initRackParticleProps random (initRackLoop random k s).fx.drawn k
            (initRackLoop random k s).geometry
          fx := { (initRackLoop random k s).fx with
            drawn := (initRackLoop random k s).fx.drawn + 8 } } := by
      simp only [initRackLoop, List.range_succ, List.foldl_append, List.foldl_cons,
        List.foldl_nil]
    rw [e]
    refine ⟨sized_initRack _ _ _ _ _ h1, fun p hp => ?_⟩
    by_cases hpk : p = k
    · subst hpk
      exact initRack_ranges random _ p n _ hr h1 (by omega)
    · dsimp only
      rw [particleAt_initRack_ne _ _ _ _ _ hpk]
      exact h2 p (by omega)

theorem lengths_of_sized (n : ℕ) (b : Buffers) (hb : Sized n b) :
    lengths b = (3 * n, 3 * n, 3 * n, n, n) := by
  obtain ⟨h1, h2, h3, h4, h5⟩ := hb
  simp [lengths, h1, h2, h3, h4, h5]

theorem createCooler_systems (random : ℕ → ℚ) (emitter : ℕ) (st : Store) :
    (createCoolerParticles random emitter st).particleSystems =
      st.particleSystems ++
        [{ geometry :=
            (initCoolerLoop random 500 { geometry := allocate 500, fx := st.fx }).geometry
           emitter := emitter }] := rfl

theorem createRack_systems (random : ℕ → ℚ) (emitter : ℕ) (st : Store) :
    (createRackParticles random emitter st).particleSystems =
      st.particleSystems ++
        [{ geometry :=
            (initRackLoop random 100 { geometry := allocate 100, fx := st.fx }).geometry
           emitter := emitter }] := rfl

/-! ## The age invariant (C3) -/

theorem lifetime_coolerParticle (sc : Scene) (random : ℕ → ℚ) (hr : UnitDraws random)
    (cooler n p : ℕ) (s : Sim) (hs : Sized n s.geometry) (hp : p < n)
    (h0 : 0 ≤ (particleAt s.geometry p).age) :
    0 ≤ (particleAt (coolerParticle sc random cooler s p).geometry p).age ∧
      (particleAt (coolerParticle sc random cooler s p).geometry p).age <
        (particleAt (coolerParticle sc random cooler s p).geometry p).maxAge := by
  have hi := (initCooler_ranges random s.fx.drawn p n (incrementLifetime p s.geometry) hr
    (sized_incrementLifetime n p _ hs) hp).2
  have hres := resets_eq n p s hs hp
  rw [particleAt_coolerParticle sc random cooler n p s hs hp,
    particleAt_coolerMove random n p s hs hp, particleAt_coolerLifetime random n p s hs hp]
  rcases hc : resets s p with _ | _
  · rw [hc] at hres
    have hlt := not_le.mp (of_decide_eq_false hres.symm)
    split <;> simp <;> constructor <;> linarith
  · obtain ⟨a1, a2, a3, a4⟩ := hi
    split <;> simp <;> constructor <;> linarith

theorem lifetime_rackParticle (sc : Scene) (random : ℕ → ℚ) (hr : UnitDraws random)
    (rack system n p : ℕ) (s : Sim) (hs : Sized n s.geometry) (hp : p < n)
    (h0 : 0 ≤ (particleAt s.geometry p).age) :
    0 ≤ (particleAt (rackParticle sc random rack system s p).geometry p).age ∧
      (particleAt (rackParticle sc random rack system s p).geometry p).age <
        (particleAt (rackParticle sc random rack system s p).geometry p).maxAge := by
  have hi := (initRack_ranges random s.fx.drawn p n (incrementLifetime p s.geometry) hr
    (sized_incrementLifetime n p _ hs) hp).2
  have hres := resets_eq n p s hs hp
  rw [particleAt_rackParticle sc random rack system n p s hs hp,
    particleAt_rackMove random n p s hs hp, particleAt_rackLifetime random n p s hs hp]
  rcases hc : resets s p with _ | _
  · rw [hc] at hres
    have hlt := not_le.mp (of_decide_eq_false hres.symm)
    split <;> simp <;> constructor <;> linarith
  · obtain ⟨a1, a2, a3, a4⟩ := hi
    split <;> simp <;> constructor <;> linarith

theorem alive_coolerSystem (sc : Scene) (random : ℕ → ℚ) (hr : UnitDraws random)
    (cooler n : ℕ) (s : Sim) (hs : Alive n s.geometry) :
    Alive n (coolerSystem sc random cooler s).geometry := by
  refine ⟨sized_coolerSystem sc random cooler n s hs.1, fun p hp => ?_⟩
  rw [particleAt_coolerSystem sc random cooler n p s hs.1 hp]
  refine lifetime_coolerParticle sc random hr cooler n p _
    (sized_coolerReach sc random cooler n p s hs.1) hp ?_
  rw [particleAt_coolerReach sc random cooler p p s le_rfl]
  exact (hs.2 p hp).1

theorem alive_rackSystem (sc : Scene) (random : ℕ → ℚ) (hr : UnitDraws random)
    (rack system n : ℕ) (s : Sim) (hs : Alive n s.geometry) :
    Alive n (rackSystem sc random rack system s).geometry := by
  refine ⟨sized_rackSystem sc random rack system n s hs.1, fun p hp => ?_⟩
  rw [particleAt_rackSystem sc random rack system n p s hs.1 hp]
  refine lifetime_rackParticle sc random hr rack system n p _
    (sized_rackReach sc random rack system n p s hs.1) hp ?_
  rw [particleAt_rackReach sc random rack system p p s le_rfl]
  exact (hs.2 p hp).1

theorem alive_initRack (random : ℕ → ℚ) (hr : UnitDraws random) (k index n : ℕ)
    (b : Buffers) (hb : Alive n b) : Alive n (initRackParticleProps random k index b) := by
  refine ⟨sized_initRack random k n index b hb.1, fun p hp => ?_⟩
  by_cases h : p = index
  · subst h
    obtain ⟨a1, a2, a3, a4⟩ := (initRack_ranges random k p n b hr hb.1 hp).2
    constructor <;> linarith
  · rw [particleAt_initRack_ne random k index p b h]
    exact hb.2 p hp

theorem alive_forEachCooler (sc : Scene) (random : ℕ → ℚ) (hr : UnitDraws random)
    (l : List ParticleData) (fx : Effects) (hl : ∀ d, d ∈ l → ∃ n, Alive n d.geometry) :
    ∀ d, d ∈ (forEachCooler sc random l fx).1 → ∃ n, Alive n d.geometry := by
  induction l generalizing fx with
  | nil => intro d hd; simp [forEachCooler] at hd
  | cons e rest ih =>
    intro d hd
    simp only [forEachCooler, List.mem_cons] at hd
    rcases hd with hd | hd
    · obtain ⟨n, hn⟩ := hl e (List.mem_cons_self _ _)
      exact ⟨n, by rw [hd]; exact alive_coolerSystem sc random hr e.emitter n _ hn⟩
    · exact ih _ (fun d hd => hl d (List.mem_cons_of_mem _ hd)) d hd

theorem alive_forEachRack (sc : Scene) (random : ℕ → ℚ) (hr : UnitDraws random)
    (l : List ParticleData) (system : ℕ) (fx : Effects)
    (hl : ∀ d, d ∈ l → ∃ n, Alive n d.geometry) :
    ∀ d, d ∈ (forEachRack sc random system l fx).1 → ∃ n, Alive n d.geometry := by
  induction l generalizing fx system with
  | nil => intro d hd; simp [forEachRack] at hd
  | cons e rest ih =>
    intro d hd
    simp only [forEachRack, List.mem_cons] at hd
    rcases hd with hd | hd
    · obtain ⟨n, hn⟩ := hl e (List.mem_cons_self _ _)
      exact ⟨n, by rw [hd]; exact alive_rackSystem sc random hr e.emitter system n _ hn⟩
    · exact ih _ _ (fun d hd => hl d (List.mem_cons_of_mem _ hd)) d hd

theorem alive_of_ranges (n : ℕ) (b : Buffers) (hb : Sized n b)
    (h : ∀ p, p < n → LifetimeRanges (particleAt b p)) : Alive n b :=
  ⟨hb, fun p hp => by
    obtain ⟨a1, a2, a3, a4⟩ := h p hp
    constructor <;> linarith⟩

theorem alive_coolerReachable (st : Store) (h : CoolerReachable st) :
    ∀ d, d ∈ st.particleSystems → ∃ n, Alive n d.geometry := by
  induction h with
  | empty n => intro d hd; simp at hd
  | create random obj st hr _ ih =>
    intro d hd
    rw [createCooler_systems, List.mem_append, List.mem_singleton] at hd
    rcases hd with hd | hd
    · exact ih d hd
    · have hc := initCoolerLoop_spec random hr 500 500
        { geometry := allocate 500, fx := st.fx } (sized_allocate 500) le_rfl
      refine ⟨500, ?_⟩
      rw [hd]
      dsimp only
      exact alive_of_ranges 500 _ hc.1 (fun p hp => (hc.2 p hp).2)
  | update sc random st hr _ ih =>
    exact alive_forEachCooler sc random hr _ _ ih

theorem alive_rackReachable (st : Store) (h : RackReachable st) :
    ∀ d, d ∈ st.particleSystems → ∃ n, Alive n d.geometry := by
  induction h with
  | empty n => intro d hd; simp at hd
  | create random obj st hr _ ih =>
    intro d hd
    rw [createRack_systems, List.mem_append, List.mem_singleton] at hd
    rcases hd with hd | hd
    · exact ih d hd
    · have hc := initRackLoop_spec random hr 100 100
        { geometry := allocate 100, fx := st.fx } (sized_allocate 100) le_rfl
      refine ⟨100, ?_⟩
      rw [hd]
      dsimp only
      exact alive_of_ranges 100 _ hc.1 (fun p hp => (hc.2 p hp).2)
  | update sc random st hr _ ih =>
    exact alive_forEachRack sc random hr _ _ _ ih
  | timeout random k st hr _ ih =>
    intro d hd
    unfold runTimeout at hd
    split at hd
    · exact ih d hd
    · split at hd
      · exact ih d hd
      · rename_i t _ e he
        rcases List.mem_or_eq_of_mem_set hd with hd | hd
        · exact ih d hd
        · obtain ⟨n, hn⟩ := ih e (List.getElem?_mem he)
          exact ⟨n, by rw [hd]; exact alive_initRack random hr _ _ n _ hn⟩

/-- C3. In every store of either module that is reachable from the empty store by
creating systems, update ticks and (for the rack) delayed respawns, with all draws in
`[0, 1)`, every slot of every system has `0 ≤ age ≤ maxAge + 1`. -/
theorem age_bounded_when_reachable (st : Store) (h : CoolerReachable st ∨ RackReachable st)
    (d : ParticleData) (hd : d ∈ st.particleSystems) (p : ℕ)
    (hp : p < d.geometry.lifetimes.length) :
    0 ≤ (particleAt d.geometry p).age ∧
      (particleAt d.geometry p).age ≤ (particleAt d.geometry p).maxAge + 1 := by
  have ha : ∃ n, Alive n d.geometry := by
    rcases h with h | h
    · exact alive_coolerReachable st h d hd
    · exact alive_rackReachable st h d hd
  obtain ⟨n, hn⟩ := ha
  have hp2 : p < n := by
    have := hn.1.2.2.2.1
    omega
  obtain ⟨a1, a2⟩ := hn.2 p hp2
  exact ⟨a1, by linarith⟩

theorem reachable_firstRack : RackReachable (createRackParticles halfDraws 7 emptyStore) :=
  RackReachable.create halfDraws 7 emptyStore unitDraws_half (RackReachable.empty 0)

theorem firstRack_mem : firstRack ∈ (createRackParticles halfDraws 7 emptyStore).particleSystems := by
  rw [createRack_systems]
  exact List.mem_append_right _ (List.mem_singleton.mpr rfl)

theorem firstRack_length : 0 < firstRack.geometry.lifetimes.length := by
  have h := (initRackLoop_spec halfDraws unitDraws_half 100 100
    { geometry := allocate 100, fx := noEffects } (sized_allocate 100) le_rfl).1.2.2.2.1
  unfold firstRack
  dsimp only at h ⊢
  rw [h]
  decide

/-- Witness of C3: the rack system created for object 7 in the empty store with every
draw equal to 1/2, slot 0. -/
theorem age_bounded_when_reachable_witness :
    RackReachable (createRackParticles halfDraws 7 emptyStore) ∧
      firstRack ∈ (createRackParticles halfDraws 7 emptyStore).particleSystems ∧
      0 < firstRack.geometry.lifetimes.length ∧
      0 ≤ (particleAt firstRack.geometry 0).age ∧
      (particleAt firstRack.geometry 0).age ≤ (particleAt firstRack.geometry 0).maxAge + 1 :=
  ⟨reachable_firstRack, firstRack_mem, firstRack_length,
    age_bounded_when_reachable (createRackParticles halfDraws 7 emptyStore)
      (Or.inr reachable_firstRack) firstRack firstRack_mem 0 firstRack_length⟩

/-! ## The store grows by one entry per creation (C11) -/

/-- C11. `createCoolerParticles` and `createRackParticles` each append exactly one entry
for the given emitter at the end of the store and leave the earlier entries and their
order unchanged; no deduplication happens, so creating twice for the same emitter leaves
the store with two more entries for that emitter, each with freshly allocated and
initialised arrays of its own. -/
theorem create_appends_one_entry (r1 r2 : ℕ → ℚ) (e : ℕ) (st : Store) :
    ((∃ d, (createCoolerParticles r1 e st).particleSystems = st.particleSystems ++ [d] ∧
        d.emitter = e) ∧
      (∃ d, (createRackParticles r1 e st).particleSystems = st.particleSystems ++ [d] ∧
        d.emitter = e)) ∧
    ((∃ d1 d2,
        (createCoolerParticles r2 e (createCoolerParticles r1 e st)).particleSystems =
          st.particleSystems ++ [d1, d2] ∧
        d1.emitter = e ∧ d2.emitter = e ∧
        d1.geometry =
          (initCoolerLoop r1 500 { geometry := allocate 500, fx := st.fx }).geometry ∧
        d2.geometry =
          (initCoolerLoop r2 500
            { geometry := allocate 500, fx := (createCoolerParticles r1 e st).fx }).geometry) ∧
      (∃ d1 d2,
        (createRackParticles r2 e (createRackParticles r1 e st)).particleSystems =
          st.particleSystems ++ [d1, d2] ∧
        d1.emitter = e ∧ d2.emitter = e ∧
        d1.geometry =
          (initRackLoop r1 100 { geometry := allocate 100, fx := st.fx }).geometry ∧
        d2.geometry =
          (initRackLoop r2 100
            { geometry := allocate 100, fx := (createRackParticles r1 e st).fx }).geometry)) ∧
    (createCoolerParticles r2 e (createCoolerParticles r1 e st)).particleSystems.length =
      st.particleSystems.length + 2 ∧
    (createRackParticles r2 e (createRackParticles r1 e st)).particleSystems.length =
      st.particleSystems.length + 2 := by
  have hc1 := createCooler_systems r1 e st
  have hc2 := createCooler_systems r2 e (createCoolerParticles r1 e st)
  have hk1 := createRack_systems r1 e st
  have hk2 := createRack_systems r2 e (createRackParticles r1 e st)
  rw [hc1] at hc2
  rw [hk1] at hk2
  refine ⟨⟨⟨_, hc1, rfl⟩, ⟨_, hk1, rfl⟩⟩,
    ⟨⟨ParticleData.mk
        (initCoolerLoop r1 500 { geometry := allocate 500, fx := st.fx }).geometry e,
      ParticleData.mk
        (initCoolerLoop r2 500
          { geometry := allocate 500, fx := (createCoolerParticles r1 e st).fx }).geometry e,
      ?_, ?_⟩,
    ⟨ParticleData.mk
        (initRackLoop r1 100 { geometry := allocate 100, fx := st.fx }).geometry e,
      ParticleData.mk
        (initRackLoop r2 100
          { geometry := allocate 100, fx := (createRackParticles r1 e st).fx }).geometry e,
      ?_, ?_⟩⟩, ?_, ?_⟩
  · rw [hc2, List.append_assoc, List.singleton_append]
  · dsimp only
    exact ⟨rfl, rfl, rfl, rfl⟩
  · rw [hk2, List.append_assoc, List.singleton_append]
  · dsimp only
    exact ⟨rfl, rfl, rfl, rfl⟩
  · rw [hc2]
    simp only [List.length_append, List.length_singleton]
  · rw [hk2]
    simp only [List.length_append, List.length_singleton]

/-! ## The effects of a tick: queries and timers -/

theorem coolerReach_succ (sc : Scene) (random : ℕ → ℚ) (cooler p : ℕ) (s : Sim) :
    coolerReach sc random cooler s (p + 1) =
      coolerParticle sc random cooler (coolerReach sc random cooler s p) p := by
  simp only [coolerReach, List.range_succ, List.foldl_append, List.foldl_cons, List.foldl_nil]

theorem rackReach_succ (sc : Scene) (random : ℕ → ℚ) (rack system p : ℕ) (s : Sim) :
    rackReach sc random rack system s (p + 1) =
      rackParticle sc random rack system (rackReach sc random rack system s p) p := by
  simp only [rackReach, List.range_succ, List.foldl_append, List.foldl_cons, List.foldl_nil]

theorem coolerSystem_eq_reach (sc : Scene) (random : ℕ → ℚ) (cooler n : ℕ) (s : Sim)
    (hs : Sized n s.geometry) :
    coolerSystem sc random cooler s = coolerReach sc random cooler s n := by
  unfold coolerSystem coolerReach
  rw [particleIndices_sized n s.geometry hs]

theorem rackSystem_eq_reach (sc : Scene) (random : ℕ → ℚ) (rack system n : ℕ) (s : Sim)
    (hs : Sized n s.geometry) :
    rackSystem sc random rack system s = rackReach sc random rack system s n := by
  unfold rackSystem rackReach
  rw [particleIndices_sized n s.geometry hs]

theorem queries_coolerReach (sc : Scene) (random : ℕ → ℚ) (cooler p : ℕ) (s : Sim) :
    (coolerReach sc random cooler s p).fx.queries =
      s.fx.queries ++ (List.range p).map (fun k =>
        collisionQuery sc cooler false (3 * k)
          (coolerMove random (coolerReach sc random cooler s k) k)) := by
  induction p with
  | zero => simp [coolerReach]
  | succ p ih =>
    rw [coolerReach_succ, List.range_succ, List.map_append, ← List.append_assoc, ← ih]
    rfl

theorem queries_rackReach (sc : Scene) (random : ℕ → ℚ) (rack system p : ℕ) (s : Sim) :
    (rackReach sc random rack system s p).fx.queries =
      s.fx.queries ++ (List.range p).map (fun k =>
        collisionQuery sc rack true (3 * k)
          (rackMove random (rackReach sc random rack system s k) k)) := by
  induction p with
  | zero => simp [rackReach]
  | succ p ih =>
    rw [rackReach_succ, List.range_succ, List.map_append, ← List.append_assoc, ← ih]
    rfl

theorem timeouts_coolerReach (sc : Scene) (random : ℕ → ℚ) (cooler p : ℕ) (s : Sim) :
    (coolerReach sc random cooler s p).fx.timeouts = s.fx.timeouts := by
  induction p with
  | zero => rfl
  | succ p ih =>
    rw [coolerReach_succ, ← ih]
    rfl

theorem timeouts_rackReach (sc : Scene) (random : ℕ → ℚ) (rack system p : ℕ) (s : Sim) :
    (rackReach sc random rack system s p).fx.timeouts =
      s.fx.timeouts ++ (List.range p).filterMap (fun k =>
        if collides (rackIntersects sc random rack (rackReach sc random rack system s k) k)
        then some { system := system, particleIndex := k, delay := 1000 } else none) := by
  induction p with
  | zero => simp [rackReach]
  | succ p ih =>
    rw [rackReach_succ, List.range_succ, List.filterMap_append, ← List.append_assoc, ← ih]
    unfold rackParticle
    dsimp only
    by_cases h : collides (sc.intersectObjects (collisionQuery sc rack true (3 * p)
        (rackMove random (rackReach sc random rack system s p) p))) = true
    · simp [rackIntersects, h]
    · simp [rackIntersects, h]

theorem queries_coolerSystem (sc : Scene) (random : ℕ → ℚ) (cooler : ℕ) (s : Sim) :
    (coolerSystem sc random cooler s).fx.queries =
      s.fx.queries ++ (particleIndices s.geometry).map (fun k =>
        collisionQuery sc cooler false (3 * k)
          (coolerMove random (coolerReach sc random cooler s k) k)) :=
  queries_coolerReach sc random cooler _ s

theorem queries_rackSystem (sc : Scene) (random : ℕ → ℚ) (rack system : ℕ) (s : Sim) :
    (rackSystem sc random rack system s).fx.queries =
      s.fx.queries ++ (particleIndices s.geometry).map (fun k =>
        collisionQuery sc rack true (3 * k)
          (rackMove random (rackReach sc random rack system s k) k)) :=
  queries_rackReach sc random rack system _ s

theorem timeouts_coolerSystem (sc : Scene) (random : ℕ → ℚ) (cooler : ℕ) (s : Sim) :
    (coolerSystem sc random cooler s).fx.timeouts = s.fx.timeouts :=
  timeouts_coolerReach sc random cooler _ s

theorem timeouts_rackSystem (sc : Scene) (random : ℕ → ℚ) (rack system : ℕ) (s : Sim) :
    (rackSystem sc random rack system s).fx.timeouts =
      s.fx.timeouts ++ (particleIndices s.geometry).filterMap (fun k =>
        if collides (rackIntersects sc random rack (rackReach sc random rack system s k) k)
        then some { system := system, particleIndex := k, delay := 1000 } else none) :=
  timeouts_rackReach sc random rack system _ s

theorem queries_forEachCooler (sc : Scene) (random : ℕ → ℚ) (l : List ParticleData)
    (fx : Effects) :
    ∃ new, (forEachCooler sc random l fx).2.queries = fx.queries ++ new ∧
      new.length = (l.map (fun d => (particleIndices d.geometry).length)).sum ∧
      ∀ q, q ∈ new → q.recursive = false := by
  induction l generalizing fx with
  | nil => exact ⟨[], by simp [forEachCooler], rfl, fun q hq => absurd hq (List.not_mem_nil q)⟩
  | cons d rest ih =>
    obtain ⟨new, h1, h2, h3⟩ :=
      ih (coolerSystem sc random d.emitter { geometry := d.geometry, fx := fx }).fx
    refine ⟨(particleIndices d.geometry).map (fun k =>
        collisionQuery sc d.emitter false (3 * k)
          (coolerMove random
            (coolerReach sc random d.emitter { geometry := d.geometry, fx := fx } k) k)) ++ new,
      ?_, ?_, ?_⟩
    · simp only [forEachCooler]
      rw [h1, queries_coolerSystem, List.append_assoc]
    · simp only [List.length_append, List.length_map, List.map_cons, List.sum_cons, h2]
    · intro q hq
      rcases List.mem_append.mp hq with hq | hq
      · obtain ⟨k, _, hk⟩ := List.mem_map.mp hq
        rw [← hk]
        rfl
      · exact h3 q hq

theorem queries_forEachRack (sc : Scene) (random : ℕ → ℚ) (l : List ParticleData)
    (system : ℕ) (fx : Effects) :
    ∃ new, (forEachRack sc random system l fx).2.queries = fx.queries ++ new ∧
      new.length = (l.map (fun d => (particleIndices d.geometry).length)).sum ∧
      ∀ q, q ∈ new → q.recursive = true := by
  induction l generalizing fx system with
  | nil => exact ⟨[], by simp [forEachRack], rfl, fun q hq => absurd hq (List.not_mem_nil q)⟩
  | cons d rest ih =>
    obtain ⟨new, h1, h2, h3⟩ :=
      ih (system + 1)
        (rackSystem sc random d.emitter system { geometry := d.geometry, fx := fx }).fx
    refine ⟨(particleIndices d.geometry).map (fun k =>
        collisionQuery sc d.emitter true (3 * k)
          (rackMove random
            (rackReach sc random d.emitter system { geometry := d.geometry, fx := fx } k) k))
        ++ new, ?_, ?_, ?_⟩
    · simp only [forEachRack]
      rw [h1, queries_rackSystem, List.append_assoc]
    · simp only [List.length_append, List.length_map, List.map_cons, List.sum_cons, h2]
    · intro q hq
      rcases List.mem_append.mp hq with hq | hq
      · obtain ⟨k, _, hk⟩ := List.mem_map.mp hq
        rw [← hk]
        rfl
      · exact h3 q hq

/-! ## The candidates of a collision query (C12) -/

theorem not_mem_objectsToTest (sc : Scene) (emitter : ℕ) (hf : emitter ≠ sc.floor)
    (hw : emitter ∉ sc.walls) : emitter ∉ objectsToTest sc emitter := by
  simp [objectsToTest, hf, hw]

/-- C12. In one tick over a system of `n` slots of either class exactly `n` collision
queries are made, one per slot, and the candidate list of each is the tracked models with
every occurrence of the owning emitter removed and the order of the others kept, then the
floor, then the walls in order; the owning emitter is not in the part taken from the
models, and it is not among the candidates at all, since it is neither the floor nor a
wall. -/
theorem candidates_exclude_emitter (sc : Scene) (random : ℕ → ℚ) (emitter system n : ℕ)
    (s : Sim) (hs : Sized n s.geometry) :
    (∃ new, (coolerSystem sc random emitter s).fx.queries = s.fx.queries ++ new ∧
      new.length = n ∧
      ∀ q, q ∈ new →
        q.objects =
          sc.models.filter (fun obj => decide (obj ≠ emitter)) ++ [sc.floor] ++ sc.walls ∧
        emitter ∉ sc.models.filter (fun obj => decide (obj ≠ emitter)) ∧
        (emitter ≠ sc.floor → emitter ∉ sc.walls → emitter ∉ q.objects)) ∧
    (∃ new, (rackSystem sc random emitter system s).fx.queries = s.fx.queries ++ new ∧
      new.length = n ∧
      ∀ q, q ∈ new →
        q.objects =
          sc.models.filter (fun obj => decide (obj ≠ emitter)) ++ [sc.floor] ++ sc.walls ∧
        emitter ∉ sc.models.filter (fun obj => decide (obj ≠ emitter)) ∧
        (emitter ≠ sc.floor → emitter ∉ sc.walls → emitter ∉ q.objects)) := by
  have ho : objectsToTest sc emitter =
      sc.models.filter (fun obj => decide (obj ≠ emitter)) ++ [sc.floor] ++ sc.walls := by
    unfold objectsToTest
    congr 2
    apply List.filter_congr
    intro x _
    by_cases h : x = emitter <;> simp [h]
  have hm : emitter ∉ sc.models.filter (fun obj => decide (obj ≠ emitter)) := by
    simp
  constructor
  · refine ⟨_, queries_coolerSystem sc random emitter s, ?_, ?_⟩
    · rw [List.length_map, particleIndices_sized n s.geometry hs, List.length_range]
    · intro q hq
      obtain ⟨k, _, hk⟩ := List.mem_map.mp hq
      rw [← hk]
      exact ⟨ho, hm, not_mem_objectsToTest sc emitter⟩
  · refine ⟨_, queries_rackSystem sc random emitter system s, ?_, ?_⟩
    · rw [List.length_map, particleIndices_sized n s.geometry hs, List.length_range]
    · intro q hq
      obtain ⟨k, _, hk⟩ := List.mem_map.mp hq
      rw [← hk]
      exact ⟨ho, hm, not_mem_objectsToTest sc emitter⟩

/-- Witness of C12: the cooler `youngCooler` owned by object 7 in `roomScene`, whose
models are 5, 7, 6 and 7: the candidates of the one query are 5, 6, the floor 0 and the
walls 1 and 2. -/
theorem candidates_exclude_emitter_witness :
    Sized 1 youngCooler.geometry ∧
      ∃ new, (coolerSystem roomScene halfDraws 7 youngCooler).fx.queries =
          youngCooler.fx.queries ++ new ∧
        new.length = 1 ∧
        ∀ q, q ∈ new →
          q.objects =
            roomScene.models.filter (fun obj => decide (obj ≠ 7)) ++ [roomScene.floor] ++
              roomScene.walls ∧
          7 ∉ roomScene.models.filter (fun obj => decide (obj ≠ 7)) ∧
          ((7 : ℕ) ≠ roomScene.floor → 7 ∉ roomScene.walls → 7 ∉ q.objects) :=
  ⟨sized_youngCooler,
    (candidates_exclude_emitter roomScene halfDraws 7 0 1 youngCooler sized_youngCooler).1⟩

/-! ## The descendants flag (C13) -/

/-- C13. The queries that `updateCoolerParticles` adds to the log (one per slot of every
system in the store) all have `recursive = false`, and those that `updateRackParticles`
adds all have `recursive = true`. -/
theorem descendants_flag (sc : Scene) (random : ℕ → ℚ) (st : Store) :
    (∃ new, (updateCoolerParticles sc random st).fx.queries = st.fx.queries ++ new ∧
      new.length =
        (st.particleSystems.map (fun d => (particleIndices d.geometry).length)).sum ∧
      ∀ q, q ∈ new → q.recursive = false) ∧
    (∃ new, (updateRackParticles sc random st).fx.queries = st.fx.queries ++ new ∧
      new.length =
        (st.particleSystems.map (fun d => (particleIndices d.geometry).length)).sum ∧
      ∀ q, q ∈ new → q.recursive = true) :=
  ⟨queries_forEachCooler sc random st.particleSystems st.fx,
    queries_forEachRack sc random st.particleSystems 0 st.fx⟩

/-! ## Delayed respawns (C14) -/

theorem timeouts_forEachCooler (sc : Scene) (random : ℕ → ℚ) (l : List ParticleData)
    (fx : Effects) : (forEachCooler sc random l fx).2.timeouts = fx.timeouts := by
  induction l generalizing fx with
  | nil => rfl
  | cons d rest ih =>
    simp only [forEachCooler]
    rw [ih, timeouts_coolerSystem]

theorem timeouts_forEachRack (sc : Scene) (random : ℕ → ℚ) (l : List ParticleData)
    (system : ℕ) (fx : Effects) :
    ∃ new, (forEachRack sc random system l fx).2.timeouts = fx.timeouts ++ new ∧
      ∀ t, t ∈ new → t.delay = 1000 := by
  induction l generalizing fx system with
  | nil => exact ⟨[], by simp [forEachRack], fun t ht => absurd ht (List.not_mem_nil t)⟩
  | cons d rest ih =>
    obtain ⟨new, h1, h2⟩ :=
      ih (system + 1)
        (rackSystem sc random d.emitter system { geometry := d.geometry, fx := fx }).fx
    refine ⟨(particleIndices d.geometry).filterMap (fun k =>
        if collides (rackIntersects sc random d.emitter
          (rackReach sc random d.emitter system { geometry := d.geometry, fx := fx } k) k)
        then some { system := system, particleIndex := k, delay := 1000 } else none) ++ new,
      ?_, ?_⟩
    · simp only [forEachRack]
      rw [h1, timeouts_rackSystem, List.append_assoc]
    · intro t ht
      rcases List.mem_append.mp ht with ht | ht
      · obtain ⟨k, _, hk⟩ := List.mem_filterMap.mp ht
        split at hk
        · rw [← Option.some.inj hk]
        · exact absurd hk (by simp)
      · exact h2 t ht

/-- C14. With the waiting callbacks kept as explicit state: a tick over a rack system
keeps every waiting callback and appends, in slot order, exactly one callback for each
slot whose collision branch is taken, for that same slot and with delay 1000; a cooler
tick registers none; at store level `updateRackParticles` only appends callbacks of delay
1000 and `updateCoolerParticles` leaves the queue as it is, so no tick and no age-based
respawn removes a waiting callback; and when a waiting callback runs it leaves the queue
and overwrites its slot with `initRackParticleProps`, whatever the slot holds. -/
theorem delayed_respawn_scheduling (sc : Scene) (random : ℕ → ℚ) (emitter system k : ℕ)
    (s : Sim) (st : Store) (t : Timeout) (d : ParticleData)
    (ht : st.fx.timeouts[k]? = some t) (hd : st.particleSystems[t.system]? = some d) :
    (rackSystem sc random emitter system s).fx.timeouts =
        s.fx.timeouts ++ (particleIndices s.geometry).filterMap (fun p =>
          if collides (rackIntersects sc random emitter
            (rackReach sc random emitter system s p) p)
          then some { system := system, particleIndex := p, delay := 1000 } else none) ∧
      (coolerSystem sc random emitter s).fx.timeouts = s.fx.timeouts ∧
      (updateCoolerParticles sc random st).fx.timeouts = st.fx.timeouts ∧
      (∃ new, (updateRackParticles sc random st).fx.timeouts = st.fx.timeouts ++ new ∧
        ∀ u, u ∈ new → u.delay = 1000) ∧
      (runTimeout random k st).particleSystems =
        st.particleSystems.set t.system
          { d with
            geometry :=
              initRackParticleProps random st.fx.drawn t.particleIndex d.geometry } ∧
      (runTimeout random k st).fx.timeouts = st.fx.timeouts.eraseIdx k := by
  refine ⟨timeouts_rackSystem sc random emitter system s,
    timeouts_coolerSystem sc random emitter s,
    timeouts_forEachCooler sc random st.particleSystems st.fx,
    timeouts_forEachRack sc random st.particleSystems 0 st.fx, ?_, ?_⟩
  · unfold runTimeout
    rw [ht]
    dsimp only
    rw [hd]
  · unfold runTimeout
    rw [ht]
    dsimp only
    rw [hd]

/-- Witness of C14: the store `pendingStore`, whose only waiting callback is for slot 0 of
system 0. -/
theorem delayed_respawn_scheduling_witness :
    pendingStore.fx.timeouts[0]? = some { system := 0, particleIndex := 0, delay := 1000 } ∧
      pendingStore.particleSystems[0]? = some { geometry := agedRack.geometry, emitter := 7 } ∧
      (runTimeout halfDraws 0 pendingStore).fx.timeouts = pendingStore.fx.timeouts.eraseIdx 0 :=
  ⟨rfl, rfl,
    (delayed_respawn_scheduling quietScene halfDraws 7 0 0 agedRack pendingStore
      { system := 0, particleIndex := 0, delay := 1000 }
      { geometry := agedRack.geometry, emitter := 7 } rfl rfl).2.2.2.2.2⟩

/-! ## Deleting an object (C15, C19, C20) -/

theorem walkUp_spec (models : List ℕ) (ancestors : List ℕ) (obj : ℕ) :
    ∃ pre post, obj :: ancestors = pre ++ walkUp models obj ancestors :: post ∧
      (∀ y, y ∈ pre → y ∉ models) ∧ (walkUp models obj ancestors ∈ models ∨ post = []) := by
  induction ancestors generalizing obj with
  | nil => exact ⟨[], [], rfl, fun y hy => absurd hy (List.not_mem_nil y), Or.inr rfl⟩
  | cons parent rest ih =>
    by_cases h : obj ∈ models
    · refine ⟨[], parent :: rest, ?_, fun y hy => absurd hy (List.not_mem_nil y), Or.inl ?_⟩
      · simp [walkUp, h]
      · simp [walkUp, h]
    · obtain ⟨pre, post, h1, h2, h3⟩ := ih parent
      have e : walkUp models obj (parent :: rest) = walkUp models parent rest := by
        simp [walkUp, h]
      refine ⟨obj :: pre, post, ?_, ?_, ?_⟩
      · rw [e, List.cons_append, ← h1]
      · intro y hy
        rcases List.mem_cons.mp hy with hy | hy
        · rw [hy]
          exact h
        · exact h2 y hy
      · rw [e]
        exact h3

theorem deleteObject_cons (first : MouseHit) (rest : List MouseHit) (w : Editor) :
    deleteObject (first :: rest) w =
      if walkUp w.models first.object first.ancestors ∈ w.models then
        Except.ok
          { w with
            sceneChildren :=
              w.sceneChildren.erase (walkUp w.models first.object first.ancestors)
            models := w.models.erase (walkUp w.models first.object first.ancestors)
            attached := none }
      else Except.ok w := by
  simp [deleteObject]

/-- C15. When the first hit has an ancestor-or-self in `models`, `deleteObject` walks up
the chain of parents to the nearest one (nothing before it on the chain is in `models`)
and removes it: `models` then has one element fewer, lacks the first occurrence of that
object and keeps the others in order; when nothing on the chain is in `models`, the state
is returned unchanged. -/
theorem deleteObject_removes_nearest_model (first : MouseHit) (rest : List MouseHit)
    (w : Editor) :
    ((∃ x, x ∈ first.object :: first.ancestors ∧ x ∈ w.models) →
      ∃ pre post w',
        first.object :: first.ancestors =
          pre ++ walkUp w.models first.object first.ancestors :: post ∧
        (∀ y, y ∈ pre → y ∉ w.models) ∧
        walkUp w.models first.object first.ancestors ∈ w.models ∧
        deleteObject (first :: rest) w = Except.ok w' ∧
        w'.models.length + 1 = w.models.length ∧
        ∃ l1 l2, walkUp w.models first.object first.ancestors ∉ l1 ∧
          w.models = l1 ++ walkUp w.models first.object first.ancestors :: l2 ∧
          w'.models = l1 ++ l2) ∧
    ((∀ x, x ∈ first.object :: first.ancestors → x ∉ w.models) →
      deleteObject (first :: rest) w = Except.ok w) := by
  obtain ⟨pre, post, h1, h2, h3⟩ := walkUp_spec w.models first.ancestors first.object
  constructor
  · rintro ⟨x, hx, hm⟩
    have ht : walkUp w.models first.object first.ancestors ∈ w.models := by
      rcases h3 with h3 | h3
      · exact h3
      · rw [h1, h3] at hx
        rcases List.mem_append.mp hx with hx | hx
        · exact absurd hm (h2 x hx)
        · rw [List.mem_singleton.mp hx] at hm
          exact hm
    obtain ⟨l1, l2, e1, e2, e3⟩ := List.exists_erase_eq ht
    refine ⟨pre, post,
      Editor.mk (w.models.erase (walkUp w.models first.object first.ancestors))
        (w.sceneChildren.erase (walkUp w.models first.object first.ancestors)) none
        w.coolerStore w.rackStore, h1, h2, ht, ?_, ?_, l1, l2, e1, e2, ?_⟩
    · rw [deleteObject_cons, if_pos ht]
    · dsimp only
      rw [List.length_erase_of_mem ht]
      have : 0 < w.models.length := List.length_pos_of_mem ht
      omega
    · exact e3
  · intro hn
    have ht : walkUp w.models first.object first.ancestors ∉ w.models := by
      apply hn
      rw [h1]
      exact List.mem_append_right _ (List.mem_cons_self _ _)
    rw [deleteObject_cons, if_neg ht]

/-- C20 (the code at the failing input). With an empty intersection list `deleteObject`
does not complete: reading `intersects[0].object` for the log line throws before the
guard on `intersects.length` is reached. -/
theorem deleteObject_empty_throws (w : Editor) :
    deleteObject [] w = Except.error "TypeError: intersects[0] is undefined" := rfl

/-- Witness of C15: the hit `meshHit` in `demoEditor`, where the model 7 is the parent of
the mesh that was hit. -/
theorem deleteObject_removes_nearest_model_witness :
    (∃ x, x ∈ meshHit.object :: meshHit.ancestors ∧ x ∈ demoEditor.models) ∧
      ∃ w', deleteObject [meshHit] demoEditor = Except.ok w' ∧
        w'.models.length + 1 = demoEditor.models.length := by
  have hx : ∃ x, x ∈ meshHit.object :: meshHit.ancestors ∧ x ∈ demoEditor.models :=
    ⟨7, by decide, by decide⟩
  obtain ⟨_, _, w', _, _, _, h4, h5, _⟩ :=
    (deleteObject_removes_nearest_model meshHit [] demoEditor).1 hx
  exact ⟨hx, w', h4, h5⟩

theorem getElem?_forEachCooler (sc : Scene) (random : ℕ → ℚ) (l : List ParticleData)
    (fx : Effects) (k : ℕ) (d : ParticleData) (h : l[k]? = some d) :
    ∃ fx2, (forEachCooler sc random l fx).1[k]? =
      some { d with
        geometry :=
          (coolerSystem sc random d.emitter { geometry := d.geometry, fx := fx2 }).geometry } := by
  induction l generalizing fx k with
  | nil => simp at h
  | cons e rest ih =>
    cases k with
    | zero =>
      simp only [List.getElem?_cons_zero, Option.some.injEq] at h
      subst h
      exact ⟨fx, by simp only [forEachCooler, List.getElem?_cons_zero]⟩
    | succ k =>
      simp only [List.getElem?_cons_succ] at h
      obtain ⟨fx2, h2⟩ := ih
        (coolerSystem sc random e.emitter { geometry := e.geometry, fx := fx }).fx k h
      exact ⟨fx2, by simp only [forEachCooler, List.getElem?_cons_succ, h2]⟩

theorem getElem?_forEachRack (sc : Scene) (random : ℕ → ℚ) (l : List ParticleData)
    (system : ℕ) (fx : Effects) (k : ℕ) (d : ParticleData) (h : l[k]? = some d) :
    ∃ fx2, (forEachRack sc random system l fx).1[k]? =
      some { d with
        geometry :=
          (rackSystem sc random d.emitter (system + k)
            { geometry := d.geometry, fx := fx2 }).geometry } := by
  induction l generalizing fx k system with
  | nil => simp at h
  | cons e rest ih =>
    cases k with
    | zero =>
      simp only [List.getElem?_cons_zero, Option.some.injEq] at h
      subst h
      exact ⟨fx, by simp only [forEachRack, List.getElem?_cons_zero, Nat.add_zero]⟩
    | succ k =>
      simp only [List.getElem?_cons_succ] at h
      obtain ⟨fx2, h2⟩ := ih (system + 1)
        (rackSystem sc random e.emitter system { geometry := e.geometry, fx := fx }).fx k h
      refine ⟨fx2, ?_⟩
      simp only [forEachRack, List.getElem?_cons_succ, h2]
      have e2 : system + 1 + k = system + (k + 1) := by omega
      rw [e2]

/-- C19. A call of `deleteObject` that returns leaves both particle-system stores exactly
as they were (a call that throws changes nothing at all), so every entry is still
processed by the next update tick, whether or not its emitter is still in `models`: the
entry number `k` of the updated store is the old entry with its arrays run through the
loop of its class. -/
theorem deleteObject_keeps_stores (intersects : List MouseHit) (w w2 : Editor)
    (h : deleteObject intersects w = Except.ok w2) :
    w2.coolerStore = w.coolerStore ∧ w2.rackStore = w.rackStore ∧
      (∀ (sc : Scene) (random : ℕ → ℚ) (k : ℕ) (d : ParticleData),
        w.coolerStore.particleSystems[k]? = some d →
        ∃ fx, (updateCoolerParticles sc random w2.coolerStore).particleSystems[k]? =
          some { d with
            geometry :=
              (coolerSystem sc random d.emitter
                { geometry := d.geometry, fx := fx }).geometry }) ∧
      (∀ (sc : Scene) (random : ℕ → ℚ) (k : ℕ) (d : ParticleData),
        w.rackStore.particleSystems[k]? = some d →
        ∃ fx, (updateRackParticles sc random w2.rackStore).particleSystems[k]? =
          some { d with
            geometry :=
              (rackSystem sc random d.emitter k
                { geometry := d.geometry, fx := fx }).geometry }) := by
  have hs : w2.coolerStore = w.coolerStore ∧ w2.rackStore = w.rackStore := by
    cases intersects with
    | nil => simp [deleteObject] at h
    | cons first rest =>
      rw [deleteObject_cons] at h
      split at h
      · simp only [Except.ok.injEq] at h
        rw [← h]
        exact ⟨rfl, rfl⟩
      · simp only [Except.ok.injEq] at h
        rw [← h]
        exact ⟨rfl, rfl⟩
  refine ⟨hs.1, hs.2, ?_, ?_⟩
  · intro sc random k d hd
    rw [hs.1]
    exact getElem?_forEachCooler sc random _ _ k d hd
  · intro sc random k d hd
    rw [hs.2]
    obtain ⟨fx, hfx⟩ := getElem?_forEachRack sc random _ 0 w.rackStore.fx k d hd
    rw [Nat.zero_add] at hfx
    exact ⟨fx, hfx⟩

/-- Witness of C19: deleting the cooler 7 of `demoEditor` through a hit on its mesh; the
models become `[5]` and the cooler store still holds the system of cooler 7. -/
theorem deleteObject_keeps_stores_witness :
    deleteObject [meshHit] demoEditor =
        Except.ok
          { demoEditor with
            sceneChildren := [5]
            models := [5]
            attached := none } ∧
      ({ demoEditor with
            sceneChildren := [5]
            models := [5]
            attached := none } : Editor).coolerStore = demoEditor.coolerStore :=
  ⟨rfl,
    (deleteObject_keeps_stores [meshHit] demoEditor
      { demoEditor with
        sceneChildren := [5]
        models := [5]
        attached := none } rfl).1⟩

theorem unitDraws_zero : UnitDraws zeroDraws := by
  intro k
  constructor <;> norm_num [zeroDraws]

/-! ## The velocity that is normalised (C16) -/

theorem velocity_rackParticle (sc : Scene) (random : ℕ → ℚ) (hr : UnitDraws random)
    (rack system n p : ℕ) (s : Sim) (hs : Sized n s.geometry) (hp : p < n)
    (h0 : (particleAt s.geometry p).velocity = ⟨0, 0, 0⟩ ∨
      (particleAt s.geometry p).velocity.z < 0) :
    (particleAt (rackParticle sc random rack system s p).geometry p).velocity = ⟨0, 0, 0⟩ ∨
      (particleAt (rackParticle sc random rack system s p).geometry p).velocity.z < 0 := by
  have hi := (initRack_ranges random s.fx.drawn p n (incrementLifetime p s.geometry) hr
    (sized_incrementLifetime n p _ hs) hp).1
  rw [particleAt_rackParticle sc random rack system n p s hs hp,
    particleAt_rackMove random n p s hs hp, particleAt_rackLifetime random n p s hs hp]
  split
  · exact Or.inl rfl
  · rcases hc : resets s p with _ | _
    · simpa using h0
    · right
      simpa using hi.2.2.2.2.2.1

theorem rack_slot_invariant (Q : Particle → Prop)
    (hinit : ∀ a, RackSpawnRanges a → LifetimeRanges a → Q a)
    (hstep : ∀ (sc : Scene) (random : ℕ → ℚ) (rack system n p : ℕ) (s : Sim),
      UnitDraws random → Sized n s.geometry → p < n → Q (particleAt s.geometry p) →
      Q (particleAt (rackParticle sc random rack system s p).geometry p))
    (st : Store) (h : RackReachable st) :
    ∀ d, d ∈ st.particleSystems →
      ∃ n, Sized n d.geometry ∧ ∀ p, p < n → Q (particleAt d.geometry p) := by
  have hsys : ∀ (sc : Scene) (random : ℕ → ℚ) (rack system n : ℕ) (s : Sim),
      UnitDraws random → Sized n s.geometry → (∀ p, p < n → Q (particleAt s.geometry p)) →
      ∀ p, p < n → Q (particleAt (rackSystem sc random rack system s).geometry p) := by
    intro sc random rack system n s hr hs hq p hp
    rw [particleAt_rackSystem sc random rack system n p s hs hp]
    refine hstep sc random rack system n p _ hr
      (sized_rackReach sc random rack system n p s hs) hp ?_
    rw [particleAt_rackReach sc random rack system p p s le_rfl]
    exact hq p hp
  have hfor : ∀ (sc : Scene) (random : ℕ → ℚ), UnitDraws random →
      ∀ (l : List ParticleData) (system : ℕ) (fx : Effects),
      (∀ d, d ∈ l → ∃ n, Sized n d.geometry ∧ ∀ p, p < n → Q (particleAt d.geometry p)) →
      ∀ d, d ∈ (forEachRack sc random system l fx).1 →
        ∃ n, Sized n d.geometry ∧ ∀ p, p < n → Q (particleAt d.geometry p) := by
    intro sc random hr l
    induction l with
    | nil => intro system fx _ d hd; simp [forEachRack] at hd
    | cons e rest ih =>
      intro system fx hl d hd
      simp only [forEachRack, List.mem_cons] at hd
      rcases hd with hd | hd
      · obtain ⟨n, hn, hq⟩ := hl e (List.mem_cons_self _ _)
        refine ⟨n, ?_, ?_⟩
        · rw [hd]
          exact sized_rackSystem sc random e.emitter system n _ hn
        · rw [hd]
          exact hsys sc random e.emitter system n _ hr hn hq
      · exact ih _ _ (fun d hd => hl d (List.mem_cons_of_mem _ hd)) d hd
  induction h with
  | empty n => intro d hd; simp at hd
  | create random obj st hr _ ih =>
    intro d hd
    rw [createRack_systems, List.mem_append, List.mem_singleton] at hd
    rcases hd with hd | hd
    · exact ih d hd
    · have hc := initRackLoop_spec random hr 100 100
        { geometry := allocate 100, fx := st.fx } (sized_allocate 100) le_rfl
      refine ⟨100, ?_, ?_⟩
      · rw [hd]
        exact hc.1
      · intro p hp
        rw [hd]
        exact hinit _ (hc.2 p hp).1 (hc.2 p hp).2
  | update sc random st hr _ ih =>
    exact hfor sc random hr _ _ _ ih
  | timeout random k st hr _ ih =>
    intro d hd
    cases ht : st.fx.timeouts[k]? with
    | none =>
      simp only [runTimeout, ht] at hd
      exact ih d hd
    | some t =>
      cases he : st.particleSystems[t.system]? with
      | none =>
        simp only [runTimeout, ht, he] at hd
        exact ih d hd
      | some e =>
        simp only [runTimeout, ht, he] at hd
        rcases List.mem_or_eq_of_mem_set hd with hd | hd
        · exact ih d hd
        · obtain ⟨n, hn, hq⟩ := ih e (List.getElem?_mem he)
          refine ⟨n, ?_, ?_⟩
          · rw [hd]
            exact sized_initRack random _ n _ _ hn
          · intro p hp
            rw [hd]
            dsimp only
            by_cases hpt : p = t.particleIndex
            · have hi := initRack_ranges random st.fx.drawn p n e.geometry hr hn hp
              rw [← hpt]
              exact hinit _ hi.1 hi.2
            · rw [particleAt_initRack_ne random _ _ p _ hpt]
              exact hq p hp

/-- C16 (amended). In every store of the rack module reachable from the empty store by
creation, update ticks and delayed respawns with draws in `[0, 1)`, the velocity of every
slot is either the zero vector that a collision response leaves or has a negative z
component; in the next tick the ray direction is the normalisation of the slot's
velocity, and that velocity has a negative z component (so it is not the zero vector)
whenever the slot's velocity had one or the slot is respawned in the tick.  In a cooler
tick that respawns a slot, the velocity that is normalised has a negative y component. -/
theorem velocity_nonzero_unless_collided (st : Store) (h : RackReachable st)
    (d : ParticleData) (hd : d ∈ st.particleSystems) (p : ℕ)
    (hp : p < d.geometry.lifetimes.length) :
    ((particleAt d.geometry p).velocity = ⟨0, 0, 0⟩ ∨
        (particleAt d.geometry p).velocity.z < 0) ∧
      (∀ (sc : Scene) (random : ℕ → ℚ) (system : ℕ) (fx : Effects), UnitDraws random →
        ((particleAt d.geometry p).velocity.z < 0 ∨
          resets (rackReach sc random d.emitter system { geometry := d.geometry, fx := fx } p)
            p = true) →
        (collisionQuery sc d.emitter true (3 * p)
            (rackMove random
              (rackReach sc random d.emitter system { geometry := d.geometry, fx := fx } p)
              p)).direction =
          sc.normalize (particleAt
            (rackMove random
              (rackReach sc random d.emitter system { geometry := d.geometry, fx := fx } p)
              p) p).velocity ∧
        (particleAt
          (rackMove random
            (rackReach sc random d.emitter system { geometry := d.geometry, fx := fx } p)
            p) p).velocity.z < 0) ∧
      (∀ (sc : Scene) (random : ℕ → ℚ) (cooler n q : ℕ) (s : Sim), UnitDraws random →
        Sized n s.geometry → q < n →
        resets (coolerReach sc random cooler s q) q = true →
        (particleAt (coolerMove random (coolerReach sc random cooler s q) q) q).velocity.y
          < 0) := by
  obtain ⟨n, hn, hq⟩ := rack_slot_invariant
    (fun a => a.velocity = ⟨0, 0, 0⟩ ∨ a.velocity.z < 0)
    (fun a ha _ => Or.inr ha.2.2.2.2.2.1)
    (fun sc random rack system n p s hr hs hp h0 =>
      velocity_rackParticle sc random hr rack system n p s hs hp h0) st h d hd
  have hp2 : p < n := by
    have := hn.2.2.2.1
    omega
  refine ⟨hq p hp2, ?_, ?_⟩
  · intro sc random system fx hr hv
    refine ⟨rfl, ?_⟩
    have ht : Sized n
        (rackReach sc random d.emitter system { geometry := d.geometry, fx := fx } p).geometry :=
      sized_rackReach sc random d.emitter system n p _ hn
    have hi := (initRack_ranges random
      (rackReach sc random d.emitter system { geometry := d.geometry, fx := fx } p).fx.drawn
      p n (incrementLifetime p
        (rackReach sc random d.emitter system
          { geometry := d.geometry, fx := fx } p).geometry) hr
      (sized_incrementLifetime n p _ ht) hp2).1
    have he := particleAt_rackReach sc random d.emitter system p p
      { geometry := d.geometry, fx := fx } le_rfl
    rw [particleAt_rackMove random n p _ ht hp2, particleAt_rackLifetime random n p _ ht hp2,
      he]
    rcases hc : resets
      (rackReach sc random d.emitter system { geometry := d.geometry, fx := fx } p) p
      with _ | _
    · rw [hc] at hv
      rcases hv with hv | hv
      · simpa using hv
      · exact absurd hv (by simp)
    · simpa using hi.2.2.2.2.2.1
  · intro sc random cooler n q s hr hs hq2 hres
    have ht : Sized n (coolerReach sc random cooler s q).geometry :=
      sized_coolerReach sc random cooler n q s hs
    have hi := particleAt_initCooler random (coolerReach sc random cooler s q).fx.drawn q n
      (incrementLifetime q (coolerReach sc random cooler s q).geometry)
      (sized_incrementLifetime n q _ ht) hq2
    have c3 := hr ((coolerReach sc random cooler s q).fx.drawn + 3)
    have c8 := hr (coolerDrawn (coolerReach sc random cooler s q) q + 1)
    rw [particleAt_coolerMove random n q _ ht hq2,
      particleAt_coolerLifetime random n q _ ht hq2, hres, if_pos rfl, hi]
    dsimp only
    linarith [c3.1, c3.2, c8.1, c8.2]

/-- Witness of C16 (amended): slot 0 of the rack system created for object 7 in the empty
store with every draw equal to 1/2. -/
theorem velocity_nonzero_unless_collided_witness :
    RackReachable (createRackParticles halfDraws 7 emptyStore) ∧
      firstRack ∈ (createRackParticles halfDraws 7 emptyStore).particleSystems ∧
      0 < firstRack.geometry.lifetimes.length ∧
      ((particleAt firstRack.geometry 0).velocity = ⟨0, 0, 0⟩ ∨
        (particleAt firstRack.geometry 0).velocity.z < 0) :=
  ⟨reachable_firstRack, firstRack_mem, firstRack_length,
    (velocity_nonzero_unless_collided (createRackParticles halfDraws 7 emptyStore)
      reachable_firstRack firstRack firstRack_mem 0 firstRack_length).1⟩

theorem initRackLoop_half (n k p : ℕ) (s : Sim) (hs : Sized n s.geometry) (hk : k ≤ n)
    (hp : p < k) :
    particleAt (initRackLoop halfDraws k s).geometry p =
      { position := ⟨0, 0, -0.8⟩, velocity := ⟨0, 0.0025, -0.00375⟩, color := ⟨1.0, 0.1, 0.1⟩,
        age := 500, maxAge := 1250 } := by
  induction k with
  | zero => exact absurd hp (Nat.not_lt_zero p)
  | succ k ih =>
    have h1 := (initRackLoop_spec halfDraws unitDraws_half n k s hs (by omega)).1
    have e : initRackLoop halfDraws (k + 1) s =
        { geometry := initRackParticleProps halfDraws (initRackLoop halfDraws k s).fx.drawn k
            (initRackLoop halfDraws k s).geometry
          fx := { (initRackLoop halfDraws k s).fx with
            drawn := (initRackLoop halfDraws k s).fx.drawn + 8 } } := by
      simp only [initRackLoop, List.range_succ, List.foldl_append, List.foldl_cons,
        List.foldl_nil]
    rw [e]
    dsimp only
    by_cases hpk : p = k
    · subst hpk
      rw [particleAt_initRack halfDraws _ p n _ h1 (by omega)]
      norm_num [halfDraws, accelerationFactor]
    · rw [particleAt_initRack_ne _ _ _ _ _ hpk]
      exact ih (by omega) (by omega)

theorem particleAt_firstRack :
    particleAt firstRack.geometry 0 =
      { position := ⟨0, 0, -0.8⟩, velocity := ⟨0, 0.0025, -0.00375⟩, color := ⟨1.0, 0.1, 0.1⟩,
        age := 500, maxAge := 1250 } :=
  initRackLoop_half 100 100 0 { geometry := allocate 100, fx := noEffects }
    (sized_allocate 100) le_rfl (by decide)

theorem sized_firstRack : Sized 100 firstRack.geometry :=
  (initRackLoop_spec halfDraws unitDraws_half 100 100
    { geometry := allocate 100, fx := noEffects } (sized_allocate 100) le_rfl).1

theorem collides_backWall (random : ℕ → ℚ) (rack p : ℕ) (s : Sim) :
    collides (rackIntersects backWallScene random rack s p) =
      decide ((particleAt (rackMove random s p) p).velocity.z < 0) := by
  unfold rackIntersects
  by_cases h : (particleAt (rackMove random s p) p).velocity.z < 0
  · have h2 : (collisionQuery backWallScene rack true (3 * p)
        (rackMove random s p)).direction.z < 0 := h
    simp only [backWallScene, h, decide_True] at h2 ⊢
    rw [if_pos h2]
    norm_num [collides]
  · have h2 : ¬ (collisionQuery backWallScene rack true (3 * p)
        (rackMove random s p)).direction.z < 0 := h
    simp only [backWallScene, h, decide_False] at h2 ⊢
    rw [if_neg h2]
    rfl

theorem backWall_first_tick (system : ℕ) (fx : Effects) :
    particleAt (rackSystem backWallScene halfDraws 7 system
        { geometry := firstRack.geometry, fx := fx }).geometry 0 =
      { position := ⟨0, 0.0025, -0.80375⟩, velocity := ⟨0, 0, 0⟩, color := ⟨1.0, 0.5, 0.0⟩,
        age := 501, maxAge := 1250 } := by
  have hs : Sized 100 ({ geometry := firstRack.geometry, fx := fx } : Sim).geometry :=
    sized_firstRack
  have p0 : particleAt ({ geometry := firstRack.geometry, fx := fx } : Sim).geometry 0 = _ :=
    particleAt_firstRack
  have hr : resets { geometry := firstRack.geometry, fx := fx } 0 = false := by
    rw [resets_eq 100 0 _ hs (by decide), p0]
    norm_num
  have hm := particleAt_rackMove halfDraws 100 0 _ hs (by decide)
  rw [particleAt_rackLifetime halfDraws 100 0 _ hs (by decide)] at hm
  simp only [hr, p0, Bool.false_eq_true, if_false] at hm
  have e : rackReach backWallScene halfDraws 7 system
      { geometry := firstRack.geometry, fx := fx } 0 =
      { geometry := firstRack.geometry, fx := fx } := rfl
  rw [particleAt_rackSystem backWallScene halfDraws 7 system 100 0 _ hs (by decide), e,
    particleAt_rackParticle backWallScene halfDraws 7 system 100 0 _ hs (by decide),
    collides_backWall, hm]
  norm_num

theorem stopped_slot_next_tick (g : Buffers) (fx : Effects) (hs : Sized 100 g)
    (hp : particleAt g 0 =
      { position := ⟨0, 0.0025, -0.80375⟩, velocity := ⟨0, 0, 0⟩, color := ⟨1.0, 0.5, 0.0⟩,
        age := 501, maxAge := 1250 }) :
    (particleAt
      (rackMove halfDraws
        (rackReach backWallScene halfDraws 7 0 { geometry := g, fx := fx } 0) 0) 0).velocity =
      ⟨0, 0, 0⟩ := by
  have hs2 : Sized 100 ({ geometry := g, fx := fx } : Sim).geometry := hs
  have p2 : particleAt ({ geometry := g, fx := fx } : Sim).geometry 0 = _ := hp
  have e : rackReach backWallScene halfDraws 7 0 { geometry := g, fx := fx } 0 =
      { geometry := g, fx := fx } := rfl
  have hr : resets { geometry := g, fx := fx } 0 = false := by
    rw [resets_eq 100 0 _ hs2 (by decide), p2]
    norm_num
  rw [e, particleAt_rackMove halfDraws 100 0 _ hs2 (by decide),
    particleAt_rackLifetime halfDraws 100 0 _ hs2 (by decide), hr, p2]
  norm_num

/-- C16 (counterexample). The rack store created for object 7 with every draw 1/2 and
updated once in `backWallScene` is reachable, and slot 0 of its system has been stopped by
the collision response, its age 501 being below its maximal age 1250: in the next tick
the velocity that is normalised into the ray direction is the zero vector. -/
theorem zero_vector_normalised :
    RackReachable tickedRackStore ∧
      ∃ d, d ∈ tickedRackStore.particleSystems ∧ 0 < d.geometry.lifetimes.length ∧
        (particleAt d.geometry 0).velocity = ⟨0, 0, 0⟩ ∧
        (particleAt d.geometry 0).age + 1 < (particleAt d.geometry 0).maxAge ∧
        (particleAt
          (rackMove halfDraws
            (rackReach backWallScene halfDraws d.emitter 0
              { geometry := d.geometry, fx := tickedRackStore.fx } 0) 0) 0).velocity =
          ⟨0, 0, 0⟩ ∧
        (collisionQuery backWallScene d.emitter true (3 * 0)
          (rackMove halfDraws
            (rackReach backWallScene halfDraws d.emitter 0
              { geometry := d.geometry, fx := tickedRackStore.fx } 0) 0)).direction =
          backWallScene.normalize ⟨0, 0, 0⟩ := by
  have hreach : RackReachable tickedRackStore :=
    RackReachable.update backWallScene halfDraws _ unitDraws_half reachable_firstRack
  have h0 : createdRackStore.particleSystems[0]? = some firstRack := by
    unfold createdRackStore
    rw [createRack_systems]
    rfl
  obtain ⟨fx2, h1⟩ := getElem?_forEachRack backWallScene halfDraws
    createdRackStore.particleSystems 0 createdRackStore.fx 0 firstRack h0
  have hmem := List.getElem?_mem h1
  have e7 : firstRack.emitter = 7 := rfl
  rw [e7] at h1 hmem
  have hs1 : Sized 100 (rackSystem backWallScene halfDraws 7 (0 + 0)
      { geometry := firstRack.geometry, fx := fx2 }).geometry :=
    sized_rackSystem backWallScene halfDraws 7 (0 + 0) 100 _ sized_firstRack
  have p1 := backWall_first_tick (0 + 0) fx2
  refine ⟨hreach, _, hmem, ?_, ?_, ?_, ?_, ?_⟩
  · dsimp only
    rw [hs1.2.2.2.1]
    decide
  · dsimp only
    rw [p1]
  · dsimp only
    rw [p1]
    norm_num
  · exact stopped_slot_next_tick _ _ hs1 p1
  · show backWallScene.normalize (particleAt
      (rackMove halfDraws
        (rackReach backWallScene halfDraws 7 0
          { geometry := (rackSystem backWallScene halfDraws 7 (0 + 0)
              { geometry := firstRack.geometry, fx := fx2 }).geometry
            fx := tickedRackStore.fx } 0) 0) 0).velocity = _
    rw [stopped_slot_next_tick _ _ hs1 p1]

/-! ## The collision ray (C17) -/

theorem sized_fallingCooler : Sized 1 fallingCooler.geometry := by
  simp [Sized, fallingCooler]

theorem ray_of_slot (sc : Scene) (emitter : ℕ) (recursive : Bool) (p : ℕ) (b : Buffers) :
    (collisionQuery sc emitter recursive (3 * p) b).origin =
        sc.localToWorld emitter (particleAt b p).position ∧
      (collisionQuery sc emitter recursive (3 * p) b).direction =
        sc.normalize (particleAt b p).velocity :=
  ⟨rfl, rfl⟩

/-- C17 (the code at the failing input). The cooler 7 of `tiltedScene` is rotated by a
quarter turn about the x axis and its slot moves with local velocity (0, -0.15, 0), every
draw being 1/2.  The one query of the tick starts at the world image (0, 0, 19.775) of the
integrated position (0, 19.775, 0), but its direction is (0, -1, 0), the normalised local
velocity, while the velocity carried into world space is (0, 0, -0.15), of direction
(0, 0, -1). -/
theorem ray_direction_stays_local :
    (coolerSystem tiltedScene halfDraws 7 fallingCooler).fx.queries =
        [collisionQuery tiltedScene 7 false (3 * 0) (coolerMove halfDraws fallingCooler 0)] ∧
      (particleAt (coolerMove halfDraws fallingCooler 0) 0).position = ⟨0, 19.775, 0⟩ ∧
      (particleAt (coolerMove halfDraws fallingCooler 0) 0).velocity = ⟨0, -0.15, 0⟩ ∧
      (collisionQuery tiltedScene 7 false (3 * 0) (coolerMove halfDraws fallingCooler 0)).origin =
        ⟨0, 0, 19.775⟩ ∧
      (collisionQuery tiltedScene 7 false (3 * 0)
        (coolerMove halfDraws fallingCooler 0)).direction = ⟨0, -1, 0⟩ ∧
      Vector3.sub
          (tiltedScene.localToWorld 7 (particleAt (coolerMove halfDraws fallingCooler 0) 0).velocity)
          (tiltedScene.localToWorld 7 ⟨0, 0, 0⟩) = ⟨0, 0, -0.15⟩ ∧
      tiltedScene.normalize
        (Vector3.sub
          (tiltedScene.localToWorld 7
            (particleAt (coolerMove halfDraws fallingCooler 0) 0).velocity)
          (tiltedScene.localToWorld 7 ⟨0, 0, 0⟩)) = ⟨0, 0, -1⟩ := by
  have hq := queries_coolerSystem tiltedScene halfDraws 7 fallingCooler
  rw [particleIndices_sized 1 _ sized_fallingCooler] at hq
  have hp0 : particleAt fallingCooler.geometry 0 =
      { position := ⟨0, 20, 0⟩, velocity := ⟨0, -0.15, 0⟩, color := ⟨0.1, 0.5, 1.0⟩,
        age := 0, maxAge := 1000 } := by
    simp [particleAt, vectorAt, rd, fallingCooler]
  have hr : resets fallingCooler 0 = false := by
    rw [resets_eq 1 0 _ sized_fallingCooler (by decide), hp0]
    norm_num
  have hm := particleAt_coolerMove halfDraws 1 0 fallingCooler sized_fallingCooler (by decide)
  rw [particleAt_coolerLifetime halfDraws 1 0 _ sized_fallingCooler (by decide)] at hm
  simp only [hr, hp0, halfDraws, Bool.false_eq_true, if_false] at hm
  have hpos : (particleAt (coolerMove halfDraws fallingCooler 0) 0).position =
      ⟨0, 19.775, 0⟩ := by
    rw [hm]
    norm_num
  have hvel : (particleAt (coolerMove halfDraws fallingCooler 0) 0).velocity =
      ⟨0, -0.15, 0⟩ := by
    rw [hm]
    norm_num
  have ho := (ray_of_slot tiltedScene 7 false 0 (coolerMove halfDraws fallingCooler 0)).1
  have hd := (ray_of_slot tiltedScene 7 false 0 (coolerMove halfDraws fallingCooler 0)).2
  rw [hpos] at ho
  rw [hvel] at hd
  refine ⟨?_, hpos, hvel, ?_, ?_, ?_, ?_⟩
  · rw [hq]
    rfl
  · rw [ho]
    norm_num [tiltedScene]
  · rw [hd]
    norm_num [tiltedScene, axisNormalize, signOf]
  · rw [hvel]
    norm_num [tiltedScene, Vector3.sub]
  · rw [hvel]
    norm_num [tiltedScene, Vector3.sub, axisNormalize, signOf]
/-! ## Rounding -/

theorem roundHalfEven_of_near (x : ℚ) (k : ℤ) (h : |x - k| < 1 / 2) : roundHalfEven x = k := by
  rw [abs_lt] at h
  obtain ⟨h1, h2⟩ := h
  unfold roundHalfEven
  by_cases hk : (k : ℚ) ≤ x
  · have hf : ⌊x⌋ = k := by
      rw [Int.floor_eq_iff]
      constructor
      · exact hk
      · linarith
    rw [hf, if_pos (by linarith)]
  · have hf : ⌊x⌋ = k - 1 := by
      rw [Int.floor_eq_iff]
      push_cast
      constructor <;> linarith
    rw [hf]
    push_cast
    rw [if_neg (by linarith), if_pos (by linarith)]
    ring

theorem roundHalfEven_int (k : ℤ) : roundHalfEven (k : ℚ) = k :=
  roundHalfEven_of_near _ k (by simp)

theorem roundHalfEven_tie (x : ℚ) (n : ℤ) (h : x = n + 1 / 2) :
    roundHalfEven x = if n % 2 = 0 then n else n + 1 := by
  have hf : ⌊x⌋ = n := by
    rw [Int.floor_eq_iff]
    constructor <;> linarith
  unfold roundHalfEven
  rw [hf, if_neg (by linarith), if_neg (by linarith)]

theorem roundHalfEven_near_or_tie (x : ℚ) :
    (∃ k : ℤ, |x - k| < 1 / 2) ∨ ∃ n : ℤ, x = n + 1 / 2 := by
  have h1 := Int.floor_le x
  have h2 := Int.lt_floor_add_one x
  rcases lt_trichotomy (x - ⌊x⌋) (1 / 2) with h | h | h
  · left
    exact ⟨⌊x⌋, by rw [abs_lt]; constructor <;> linarith⟩
  · right
    exact ⟨⌊x⌋, by linarith⟩
  · left
    refine ⟨⌊x⌋ + 1, ?_⟩
    rw [abs_lt]
    push_cast
    constructor <;> linarith

theorem roundHalfEven_err (x : ℚ) : |(roundHalfEven x : ℚ) - x| ≤ 1 / 2 := by
  rcases roundHalfEven_near_or_tie x with ⟨k, hk⟩ | ⟨n, hn⟩
  · rw [roundHalfEven_of_near x k hk, abs_sub_comm]
    exact le_of_lt hk
  · rw [roundHalfEven_tie x n hn, hn, abs_le]
    split <;> push_cast <;> constructor <;> linarith

theorem roundHalfEven_neg (x : ℚ) : roundHalfEven (-x) = -roundHalfEven x := by
  rcases roundHalfEven_near_or_tie x with ⟨k, hk⟩ | ⟨n, hn⟩
  · rw [roundHalfEven_of_near x k hk]
    apply roundHalfEven_of_near
    push_cast
    rw [show -x - -(k : ℚ) = -(x - k) by ring, abs_neg]
    exact hk
  · have h2 : -x = ((-(n + 1) : ℤ) : ℚ) + 1 / 2 := by
      push_cast
      rw [hn]
      ring
    rw [roundHalfEven_tie x n hn, roundHalfEven_tie (-x) _ h2]
    rcases Int.emod_two_eq_zero_or_one n with h | h
    · have h3 : (-(n + 1)) % 2 ≠ 0 := by omega
      rw [if_pos h, if_neg h3]
      ring
    · have h3 : (-(n + 1)) % 2 = 0 := by omega
      have h4 : n % 2 ≠ 0 := by omega
      rw [if_neg h4, if_pos h3]

theorem roundHalfEven_mono (x y : ℚ) (h : x ≤ y) : roundHalfEven x ≤ roundHalfEven y := by
  have hx1 := Int.floor_le x
  have hx2 := Int.lt_floor_add_one x
  have hy1 := Int.floor_le y
  have hy2 := Int.lt_floor_add_one y
  have hf : ⌊x⌋ ≤ ⌊y⌋ := Int.floor_mono h
  rcases lt_or_eq_of_le hf with hlt | heq
  · have hxu : roundHalfEven x ≤ ⌊x⌋ + 1 := by
      unfold roundHalfEven
      split_ifs <;> omega
    have hyl : ⌊y⌋ ≤ roundHalfEven y := by
      unfold roundHalfEven
      split_ifs <;> omega
    omega
  · unfold roundHalfEven
    rw [← heq]
    split_ifs <;> first | omega | (exfalso; linarith)
theorem roundTo_zero (p : ℕ) (emin : ℤ) : roundTo p emin 0 = 0 := by
  simp [roundTo]

theorem binade_neg (emin : ℤ) (x : ℚ) : binade emin (-x) = binade emin x := by
  simp [binade]

theorem roundTo_neg (p : ℕ) (emin : ℤ) (x : ℚ) : roundTo p emin (-x) = -roundTo p emin x := by
  unfold roundTo
  by_cases h : x = 0
  · simp [h]
  · rw [if_neg h, if_neg (neg_ne_zero.mpr h), binade_neg, neg_div, roundHalfEven_neg]
    push_cast
    ring

theorem log_eq_of_bounds (x : ℚ) (e : ℤ) (h1 : (2 : ℚ) ^ e ≤ |x|) (h2 : |x| < 2 ^ (e + 1)) :
    Int.log 2 |x| = e := by
  have hpos : 0 < |x| := lt_of_lt_of_le (by positivity) h1
  have a : e ≤ Int.log 2 |x| := (Int.zpow_le_iff_le_log (by norm_num) hpos).mp (by exact_mod_cast h1)
  have b : Int.log 2 |x| < e + 1 :=
    (Int.lt_zpow_iff_log_lt (by norm_num) hpos).mp (by exact_mod_cast h2)
  omega

/-- Evaluation of a rounding: `x` lies in the binade of exponent `e` and `k` is the
integer nearest to `x` measured in units of the last place. -/
theorem roundTo_of_bounds (p : ℕ) (emin : ℤ) (x : ℚ) (e k : ℤ) (h1 : (2 : ℚ) ^ e ≤ |x|)
    (h2 : |x| < 2 ^ (e + 1)) (he : emin ≤ e) (hk : |x / 2 ^ (e - (p - 1)) - k| < 1 / 2) :
    roundTo p emin x = k * 2 ^ (e - (p - 1)) := by
  have hx : x ≠ 0 := by
    intro h
    rw [h, abs_zero] at h1
    exact absurd h1 (not_le.mpr (by positivity))
  have hb : binade emin x = e := by
    unfold binade
    rw [log_eq_of_bounds x e h1 h2]
    exact max_eq_left he
  unfold roundTo
  rw [if_neg hx, hb, roundHalfEven_of_near _ k hk]

theorem roundTo_nonneg (p : ℕ) (emin : ℤ) (x : ℚ) (h : 0 ≤ x) : 0 ≤ roundTo p emin x := by
  unfold roundTo
  split
  · exact le_refl 0
  · apply mul_nonneg
    · have h0 : roundHalfEven ((0 : ℤ) : ℚ) ≤
          roundHalfEven (x / 2 ^ (binade emin x - (p - 1))) :=
        roundHalfEven_mono _ _ (by push_cast; positivity)
      rw [roundHalfEven_int] at h0
      exact_mod_cast h0
    · positivity

theorem roundTo_le_top (p : ℕ) (emin : ℤ) (x : ℚ) (h : 0 < x) :
    roundTo p emin x ≤ 2 ^ (binade emin x + 1) := by
  have hx : x ≠ 0 := ne_of_gt h
  have hu : (0 : ℚ) < 2 ^ (binade emin x - (p - 1)) := by positivity
  have hlog : x < 2 ^ (Int.log 2 |x| + 1) := by
    have := Int.lt_zpow_succ_log_self (R := ℚ) (b := 2) (by norm_num) |x|
    rw [abs_of_pos h] at this ⊢
    exact_mod_cast this
  have hle : (2 : ℚ) ^ (Int.log 2 |x| + 1) ≤ 2 ^ (binade emin x + 1) := by
    apply zpow_le_zpow_right₀ (by norm_num)
    unfold binade
    have := le_max_left (Int.log 2 |x|) emin
    omega
  have hq : x / 2 ^ (binade emin x - (p - 1)) ≤ (((2 : ℤ) ^ p : ℤ) : ℚ) := by
    rw [div_le_iff₀ hu]
    push_cast
    have e : (2 : ℚ) ^ p * 2 ^ (binade emin x - (p - 1)) = 2 ^ (binade emin x + 1) := by
      rw [← zpow_natCast, ← zpow_add₀ (by norm_num)]
      congr 1
      ring
    rw [e]
    linarith
  have hr := roundHalfEven_mono _ _ hq
  rw [roundHalfEven_int] at hr
  unfold roundTo
  rw [if_neg hx]
  have hr2 : (roundHalfEven (x / 2 ^ (binade emin x - (p - 1))) : ℚ) ≤ 2 ^ p := by
    exact_mod_cast hr
  calc (roundHalfEven (x / 2 ^ (binade emin x - (p - 1))) : ℚ) * 2 ^ (binade emin x - (p - 1))
      ≤ 2 ^ p * 2 ^ (binade emin x - (p - 1)) := mul_le_mul_of_nonneg_right hr2 (le_of_lt hu)
    _ = 2 ^ (binade emin x + 1) := by
      rw [← zpow_natCast, ← zpow_add₀ (by norm_num)]
      congr 1
      ring

theorem roundTo_ge_bottom (p : ℕ) (emin : ℤ) (x : ℚ) (hp : 1 ≤ p) (h : 0 < x)
    (hn : emin ≤ Int.log 2 |x|) : (2 : ℚ) ^ binade emin x ≤ roundTo p emin x := by
  have hx : x ≠ 0 := ne_of_gt h
  have hb : binade emin x = Int.log 2 |x| := max_eq_left hn
  have hu : (0 : ℚ) < 2 ^ (binade emin x - (p - 1)) := by positivity
  have hlog : (2 : ℚ) ^ Int.log 2 |x| ≤ x := by
    have := Int.zpow_log_le_self (R := ℚ) (b := 2) (r := |x|) (by norm_num) (abs_pos.mpr hx)
    rw [abs_of_pos h] at this ⊢
    exact_mod_cast this
  have e : (2 : ℚ) ^ (p - 1 : ℕ) * 2 ^ (binade emin x - (p - 1)) = 2 ^ binade emin x := by
    rw [← zpow_natCast, ← zpow_add₀ (by norm_num)]
    congr 1
    have : ((p - 1 : ℕ) : ℤ) = (p : ℤ) - 1 := by omega
    rw [this]
    ring
  have hq : (((2 : ℤ) ^ (p - 1 : ℕ) : ℤ) : ℚ) ≤ x / 2 ^ (binade emin x - (p - 1)) := by
    rw [le_div_iff₀ hu]
    push_cast
    rw [e, hb]
    exact hlog
  have hr := roundHalfEven_mono _ _ hq
  rw [roundHalfEven_int] at hr
  unfold roundTo
  rw [if_neg hx]
  have hr2 : (2 : ℚ) ^ (p - 1 : ℕ) ≤ (roundHalfEven (x / 2 ^ (binade emin x - (p - 1))) : ℚ) := by
    exact_mod_cast hr
  calc (2 : ℚ) ^ binade emin x = 2 ^ (p - 1 : ℕ) * 2 ^ (binade emin x - (p - 1)) := e.symm
    _ ≤ _ := mul_le_mul_of_nonneg_right hr2 (le_of_lt hu)

theorem roundTo_mono_pos (p : ℕ) (emin : ℤ) (hp : 1 ≤ p) (x y : ℚ) (hx : 0 < x) (h : x ≤ y) :
    roundTo p emin x ≤ roundTo p emin y := by
  have hy : 0 < y := lt_of_lt_of_le hx h
  have hlog : Int.log 2 |x| ≤ Int.log 2 |y| := by
    rw [abs_of_pos hx, abs_of_pos hy]
    exact Int.log_mono_right hx h
  have hb : binade emin x ≤ binade emin y := max_le_max hlog (le_refl emin)
  rcases lt_or_eq_of_le hb with hlt | heq
  · have hn : emin ≤ Int.log 2 |y| := by
      by_contra hc
      have h1 : binade emin y = emin := max_eq_right (by omega)
      have h2 : emin ≤ binade emin x := le_max_right _ _
      omega
    have h1 := roundTo_le_top p emin x hx
    have h2 := roundTo_ge_bottom p emin y hp hy hn
    have h3 : (2 : ℚ) ^ (binade emin x + 1) ≤ 2 ^ binade emin y :=
      zpow_le_zpow_right₀ (by norm_num) (by omega)
    linarith
  · unfold roundTo
    rw [if_neg (ne_of_gt hx), if_neg (ne_of_gt hy), heq]
    have hu : (0 : ℚ) < 2 ^ (binade emin y - (p - 1)) := by positivity
    apply mul_le_mul_of_nonneg_right _ (le_of_lt hu)
    have := roundHalfEven_mono (x / 2 ^ (binade emin y - (p - 1)))
      (y / 2 ^ (binade emin y - (p - 1))) (div_le_div_of_nonneg_right h (le_of_lt hu))
    exact_mod_cast this

theorem roundTo_mono (p : ℕ) (emin : ℤ) (hp : 1 ≤ p) (x y : ℚ) (h : x ≤ y) :
    roundTo p emin x ≤ roundTo p emin y := by
  rcases lt_trichotomy 0 x with hx | hx | hx
  · exact roundTo_mono_pos p emin hp x y hx h
  · rw [← hx, roundTo_zero]
    exact roundTo_nonneg p emin y (by linarith)
  · rcases le_or_lt 0 y with hy | hy
    · have h1 := roundTo_nonneg p emin (-x) (by linarith)
      rw [roundTo_neg] at h1
      have h2 := roundTo_nonneg p emin y hy
      linarith
    · have h1 := roundTo_mono_pos p emin hp (-y) (-x) (by linarith) (by linarith)
      rw [roundTo_neg, roundTo_neg] at h1
      linarith
/-- A number with at most `p` significant bits and exponent at least `emin` is not
changed by rounding. -/
theorem roundTo_eq_self (p : ℕ) (emin : ℤ) (m k : ℤ) (hm : |m| < 2 ^ p)
    (hk : emin - (p - 1) ≤ k) : roundTo p emin (m * 2 ^ k) = m * 2 ^ k := by
  by_cases h0 : m = 0
  · simp [h0, roundTo_zero]
  have hx : (m : ℚ) * 2 ^ k ≠ 0 := by
    apply mul_ne_zero
    · exact_mod_cast h0
    · positivity
  have habs : |(m : ℚ) * 2 ^ k| < 2 ^ (k + p) := by
    rw [abs_mul, abs_of_pos (show (0 : ℚ) < 2 ^ k by positivity), zpow_add₀ (by norm_num),
      mul_comm ((2 : ℚ) ^ k)]
    apply mul_lt_mul_of_pos_right _ (by positivity)
    rw [zpow_natCast]
    have : ((|m| : ℤ) : ℚ) < ((2 ^ p : ℤ) : ℚ) := by exact_mod_cast hm
    push_cast at this
    exact this
  have hlog : Int.log 2 |(m : ℚ) * 2 ^ k| < k + p :=
    (Int.lt_zpow_iff_log_lt (by norm_num) (abs_pos.mpr hx)).mp (by exact_mod_cast habs)
  have hb : binade emin ((m : ℚ) * 2 ^ k) - (p - 1) ≤ k := by
    unfold binade
    have := max_le (show Int.log 2 |(m : ℚ) * 2 ^ k| ≤ k + (p - 1) by omega)
      (show emin ≤ k + (p - 1) by omega)
    omega
  obtain ⟨j, hj⟩ := Int.eq_ofNat_of_zero_le (sub_nonneg.mpr hb)
  have hk2 : k = binade emin ((m : ℚ) * 2 ^ k) - (p - 1) + j := by omega
  have hq : (m : ℚ) * 2 ^ k / 2 ^ (binade emin ((m : ℚ) * 2 ^ k) - (p - 1)) =
      ((m * 2 ^ j : ℤ) : ℚ) := by
    rw [div_eq_iff (by positivity)]
    push_cast
    rw [mul_assoc, ← zpow_natCast, ← zpow_add₀ (by norm_num)]
    congr 2
    omega
  unfold roundTo
  rw [if_neg hx, hq, roundHalfEven_int]
  push_cast
  rw [mul_assoc, ← zpow_natCast, ← zpow_add₀ (by norm_num)]
  congr 2
  omega

theorem roundTo_err (p : ℕ) (emin : ℤ) (x : ℚ) :
    |roundTo p emin x - x| ≤ 2 ^ (-(p : ℤ)) * |x| + 2 ^ (emin - p) := by
  by_cases hx : x = 0
  · rw [hx, roundTo_zero]
    simp
    positivity
  have hu : (0 : ℚ) < 2 ^ (binade emin x - (p - 1)) := by positivity
  have he := roundHalfEven_err (x / 2 ^ (binade emin x - (p - 1)))
  have h1 : roundTo p emin x - x =
      ((roundHalfEven (x / 2 ^ (binade emin x - (p - 1))) : ℚ) -
        x / 2 ^ (binade emin x - (p - 1))) * 2 ^ (binade emin x - (p - 1)) := by
    unfold roundTo
    rw [if_neg hx]
    field_simp
  have h2 : |roundTo p emin x - x| ≤ 1 / 2 * 2 ^ (binade emin x - (p - 1)) := by
    rw [h1, abs_mul, abs_of_pos hu]
    exact mul_le_mul_of_nonneg_right he (le_of_lt hu)
  have h3 : (1 : ℚ) / 2 * 2 ^ (binade emin x - (p - 1)) = 2 ^ (binade emin x - p) := by
    have : binade emin x - (p - 1) = binade emin x - p + 1 := by ring
    rw [this, zpow_add₀ (by norm_num)]
    ring
  rw [h3] at h2
  have hlog : (2 : ℚ) ^ Int.log 2 |x| ≤ |x| := by
    have := Int.zpow_log_le_self (R := ℚ) (b := 2) (r := |x|) (by norm_num) (abs_pos.mpr hx)
    exact_mod_cast this
  have h4 : (2 : ℚ) ^ (binade emin x - p) ≤ 2 ^ (-(p : ℤ)) * |x| + 2 ^ (emin - p) := by
    unfold binade
    rcases max_cases (Int.log 2 |x|) emin with ⟨hm, _⟩ | ⟨hm, _⟩
    · rw [hm]
      have e : (2 : ℚ) ^ (Int.log 2 |x| - p) = 2 ^ (-(p : ℤ)) * 2 ^ Int.log 2 |x| := by
        rw [← zpow_add₀ (by norm_num)]
        congr 1
        ring
      rw [e]
      have : (2 : ℚ) ^ (-(p : ℤ)) * 2 ^ Int.log 2 |x| ≤ 2 ^ (-(p : ℤ)) * |x| :=
        mul_le_mul_of_nonneg_left hlog (by positivity)
      have : (0 : ℚ) < 2 ^ (emin - p) := by positivity
      linarith
    · rw [hm]
      have : (0 : ℚ) ≤ 2 ^ (-(p : ℤ)) * |x| := by positivity
      linarith
  linarith

theorem f64_mono (x y : ℚ) (h : x ≤ y) : f64 x ≤ f64 y :=
  roundTo_mono 53 (-1022) (by norm_num) x y h

theorem f32_mono (x y : ℚ) (h : x ≤ y) : f32 x ≤ f32 y :=
  roundTo_mono 24 (-126) (by norm_num) x y h

theorem f64_neg (x : ℚ) : f64 (-x) = -f64 x := roundTo_neg 53 (-1022) x

theorem f32_neg (x : ℚ) : f32 (-x) = -f32 x := roundTo_neg 24 (-126) x

theorem f64_zero : f64 0 = 0 := roundTo_zero 53 (-1022)

theorem f32_zero : f32 0 = 0 := roundTo_zero 24 (-126)

/-- Numbers `m * 2 ^ k` with `|m| < 2 ^ 24` and `k ≥ -149` are `Float32` values, hence
also JavaScript numbers. -/
theorem f32_dyadic (m k : ℤ) (hm : |m| < 2 ^ 24) (hk : -149 ≤ k) :
    f32 (m * 2 ^ k) = m * 2 ^ k :=
  roundTo_eq_self 24 (-126) m k hm (by push_cast; omega)

theorem f64_dyadic (m k : ℤ) (hm : |m| < 2 ^ 53) (hk : -1074 ≤ k) :
    f64 (m * 2 ^ k) = m * 2 ^ k :=
  roundTo_eq_self 53 (-1022) m k hm (by push_cast; omega)

theorem f64_err (x : ℚ) : |f64 x - x| ≤ 2 ^ (-53 : ℤ) * |x| + 2 ^ (-1075 : ℤ) := by
  have := roundTo_err 53 (-1022) x
  norm_num at this ⊢
  exact this

theorem f32_err (x : ℚ) : |f32 x - x| ≤ 2 ^ (-24 : ℤ) * |x| + 2 ^ (-150 : ℤ) := by
  have := roundTo_err 24 (-126) x
  norm_num at this ⊢
  exact this

/-! ## Evaluating a rounding -/

/-- Evaluation of a rounding in a binade when the nearest integer is either strictly
nearest or an even integer at distance one half. -/
theorem roundTo_of_even (p : ℕ) (emin : ℤ) (x : ℚ) (e k : ℤ) (h1 : (2 : ℚ) ^ e ≤ |x|)
    (h2 : |x| < 2 ^ (e + 1)) (he : emin ≤ e) (hk : |x / 2 ^ (e - (p - 1)) - k| ≤ 1 / 2)
    (hev : k % 2 = 0) : roundTo p emin x = k * 2 ^ (e - (p - 1)) := by
  rcases lt_or_eq_of_le hk with h | h
  · exact roundTo_of_bounds p emin x e k h1 h2 he h
  · have hx : x ≠ 0 := by
      intro h0
      rw [h0, abs_zero] at h1
      exact absurd h1 (not_le.mpr (by positivity))
    have hb : binade emin x = e := by
      unfold binade
      rw [log_eq_of_bounds x e h1 h2]
      exact max_eq_left he
    unfold roundTo
    rw [if_neg hx, hb]
    congr 1
    rcases abs_eq (by norm_num : (0 : ℚ) ≤ 1 / 2) |>.mp h with h3 | h3
    · have h4 : x / 2 ^ (e - ((p : ℤ) - 1)) = ((k : ℤ) : ℚ) + 1 / 2 := by linarith
      rw [roundHalfEven_tie _ k h4, if_pos hev]
    · have h4 : x / 2 ^ (e - ((p : ℤ) - 1)) = ((k - 1 : ℤ) : ℚ) + 1 / 2 := by
        push_cast
        linarith
      rw [roundHalfEven_tie _ (k - 1) h4, if_neg (by omega)]
      push_cast
      ring

/-- A positive number that is `m * 2 ^ k` with `m < 2 ^ 53` is a JavaScript number. -/
theorem f64_fix (x : ℚ) (m : ℕ) (k : ℤ) (hx : x = m * 2 ^ k) (hm : m < 2 ^ 53)
    (hk : -1074 ≤ k) : f64 x = x := by
  have h := f64_dyadic (m : ℤ) k (by rw [abs_of_nonneg (by positivity)]; exact_mod_cast hm) hk
  rw [hx]
  exact_mod_cast h

/-- A positive number that is `m * 2 ^ k` with `m < 2 ^ 24` is a `Float32` value. -/
theorem f32_fix (x : ℚ) (m : ℕ) (k : ℤ) (hx : x = m * 2 ^ k) (hm : m < 2 ^ 24)
    (hk : -149 ≤ k) : f32 x = x := by
  have h := f32_dyadic (m : ℤ) k (by rw [abs_of_nonneg (by positivity)]; exact_mod_cast hm) hk
  rw [hx]
  exact_mod_cast h

/-- Evaluation of `f64` at a positive number of the binade of exponent `e`; a tie is
resolved to the even neighbour. -/
theorem f64_eval (x v : ℚ) (e k : ℤ) (h1 : (2 : ℚ) ^ e ≤ x) (h2 : x < 2 ^ (e + 1))
    (he : -1022 ≤ e) (hk : |x / 2 ^ (e - 52) - k| < 1 / 2 ∨
      (|x / 2 ^ (e - 52) - k| ≤ 1 / 2 ∧ k % 2 = 0)) (hv : v = k * 2 ^ (e - 52)) :
    f64 x = v := by
  have hx : 0 < x := lt_of_lt_of_le (by positivity) h1
  rcases hk with hk | ⟨hk, hev⟩
  · have h := roundTo_of_bounds 53 (-1022) x e k (by rwa [abs_of_pos hx])
      (by rwa [abs_of_pos hx]) he (by norm_num; exact hk)
    rw [f64, h, hv]
    norm_num
  · have h := roundTo_of_even 53 (-1022) x e k (by rwa [abs_of_pos hx])
      (by rwa [abs_of_pos hx]) he (by norm_num; exact hk) hev
    rw [f64, h, hv]
    norm_num

/-- Evaluation of `f32` at a positive number of the binade of exponent `e`; a tie is
resolved to the even neighbour. -/
theorem f32_eval (x v : ℚ) (e k : ℤ) (h1 : (2 : ℚ) ^ e ≤ x) (h2 : x < 2 ^ (e + 1))
    (he : -126 ≤ e) (hk : |x / 2 ^ (e - 23) - k| < 1 / 2 ∨
      (|x / 2 ^ (e - 23) - k| ≤ 1 / 2 ∧ k % 2 = 0)) (hv : v = k * 2 ^ (e - 23)) :
    f32 x = v := by
  have hx : 0 < x := lt_of_lt_of_le (by positivity) h1
  rcases hk with hk | ⟨hk, hev⟩
  · have h := roundTo_of_bounds 24 (-126) x e k (by rwa [abs_of_pos hx])
      (by rwa [abs_of_pos hx]) he (by norm_num; exact hk)
    rw [f32, h, hv]
    norm_num
  · have h := roundTo_of_even 24 (-126) x e k (by rwa [abs_of_pos hx])
      (by rwa [abs_of_pos hx]) he (by norm_num; exact hk) hev
    rw [f32, h, hv]
    norm_num
/-! ## The rounded model: blocks, loop body and loops -/

namespace Stored

theorem st_rd_accelerations : rd accelerations 0 = jsLit 0.5 ∧ rd accelerations 1 = jsLit 1.5 ∧
    rd accelerations 2 = 1 := by
  simp [rd, accelerations]

theorem st_sized_incrementLifetime (n p : ℕ) (b : Buffers) (hb : Sized n b) :
    Sized n (incrementLifetime p b) := by
  simpa [Sized, incrementLifetime] using hb

theorem st_sized_initCooler (random : ℕ → ℚ) (k n p : ℕ) (b : Buffers) (hb : Sized n b) :
    Sized n (initCoolerParticleProps random k p b) := by
  simpa [Sized, initCoolerParticleProps] using hb

theorem st_sized_initRack (random : ℕ → ℚ) (k n p : ℕ) (b : Buffers) (hb : Sized n b) :
    Sized n (initRackParticleProps random k p b) := by
  simpa [Sized, initRackParticleProps] using hb

theorem st_sized_coolerUpdatePosition (n i : ℕ) (b : Buffers) (hb : Sized n b) :
    Sized n (coolerUpdatePosition i b) := by
  simpa [Sized, coolerUpdatePosition] using hb

theorem st_sized_rackUpdatePosition (n i : ℕ) (b : Buffers) (hb : Sized n b) :
    Sized n (rackUpdatePosition i b) := by
  simpa [Sized, rackUpdatePosition] using hb

theorem st_sized_addTurbulence (random : ℕ → ℚ) (k n i : ℕ) (b : Buffers) (hb : Sized n b) :
    Sized n (addTurbulence random k i b) := by
  simpa [Sized, addTurbulence] using hb

theorem st_sized_collisionResponse (n i : ℕ) (b : Buffers) (hb : Sized n b) :
    Sized n (collisionResponse i b) := by
  simpa [Sized, collisionResponse] using hb

theorem st_particleAt_incrementLifetime_ne (p q : ℕ) (b : Buffers) (h : q ≠ p) :
    particleAt (incrementLifetime p b) q = particleAt b q := by
  simp (disch := omega) only [particleAt, incrementLifetime, vectorAt, rd_set_ne]

theorem st_particleAt_initCooler_ne (random : ℕ → ℚ) (k p q : ℕ) (b : Buffers) (h : q ≠ p) :
    particleAt (initCoolerParticleProps random k p b) q = particleAt b q := by
  simp (disch := omega) only [particleAt, initCoolerParticleProps, vectorAt, rd_set_ne]

theorem st_particleAt_initRack_ne (random : ℕ → ℚ) (k p q : ℕ) (b : Buffers) (h : q ≠ p) :
    particleAt (initRackParticleProps random k p b) q = particleAt b q := by
  simp (disch := omega) only [particleAt, initRackParticleProps, vectorAt, rd_set_ne]

theorem st_particleAt_coolerUpdatePosition_ne (p q : ℕ) (b : Buffers) (h : q ≠ p) :
    particleAt (coolerUpdatePosition (3 * p) b) q = particleAt b q := by
  simp (disch := omega) only [particleAt, coolerUpdatePosition, vectorAt, rd_set_ne]

theorem st_particleAt_rackUpdatePosition_ne (p q : ℕ) (b : Buffers) (h : q ≠ p) :
    particleAt (rackUpdatePosition (3 * p) b) q = particleAt b q := by
  simp (disch := omega) only [particleAt, rackUpdatePosition, vectorAt, rd_set_ne]

theorem st_particleAt_addTurbulence_ne (random : ℕ → ℚ) (k p q : ℕ) (b : Buffers) (h : q ≠ p) :
    particleAt (addTurbulence random k (3 * p) b) q = particleAt b q := by
  simp (disch := omega) only [particleAt, addTurbulence, vectorAt, rd_set_ne]

theorem st_particleAt_collisionResponse_ne (p q : ℕ) (b : Buffers) (h : q ≠ p) :
    particleAt (collisionResponse (3 * p) b) q = particleAt b q := by
  simp (disch := omega) only [particleAt, collisionResponse, vectorAt, rd_set_ne]

theorem st_particleAt_incrementLifetime (n p : ℕ) (b : Buffers) (hb : Sized n b) (hp : p < n) :
    particleAt (incrementLifetime p b) p =
      { particleAt b p with age := f32 (jsAdd (particleAt b p).age 1) } := by
  obtain ⟨h1, h2, h3, h4, h5⟩ := hb
  simp only [particleAt, incrementLifetime, vectorAt]
  simp (disch := first | omega | (simp only [List.length_set]; omega)) only [rd_set_eq, rd_set_ne]

theorem st_particleAt_coolerUpdatePosition (n p : ℕ) (b : Buffers) (hb : Sized n b) (hp : p < n) :
    particleAt (coolerUpdatePosition (3 * p) b) p =
      { particleAt b p with
        position :=
          ⟨f32 (jsAdd (particleAt b p).position.x (jsMul (particleAt b p).velocity.x (jsLit 0.5))),
            f32 (jsAdd (particleAt b p).position.y (jsMul (particleAt b p).velocity.y (jsLit 1.5))),
            f32 (jsAdd (particleAt b p).position.z (jsMul (particleAt b p).velocity.z 1))⟩ } := by
  obtain ⟨h1, h2, h3, h4, h5⟩ := hb
  simp only [particleAt, coolerUpdatePosition, vectorAt, st_rd_accelerations]
  simp (disch := first | omega | (simp only [List.length_set]; omega)) only [rd_set_eq, rd_set_ne]

theorem st_particleAt_rackUpdatePosition (n p : ℕ) (b : Buffers) (hb : Sized n b) (hp : p < n) :
    particleAt (rackUpdatePosition (3 * p) b) p =
      { particleAt b p with
        position :=
          ⟨f32 (jsAdd (particleAt b p).position.x (particleAt b p).velocity.x),
            f32 (jsAdd (particleAt b p).position.y (particleAt b p).velocity.y),
            f32 (jsAdd (particleAt b p).position.z (particleAt b p).velocity.z)⟩ } := by
  obtain ⟨h1, h2, h3, h4, h5⟩ := hb
  simp only [particleAt, rackUpdatePosition, vectorAt]
  simp (disch := first | omega | (simp only [List.length_set]; omega)) only [rd_set_eq, rd_set_ne]

theorem st_particleAt_addTurbulence (random : ℕ → ℚ) (k n p : ℕ) (b : Buffers) (hb : Sized n b)
    (hp : p < n) :
    particleAt (addTurbulence random k (3 * p) b) p =
      { particleAt b p with
        velocity :=
          ⟨f32 (jsAdd (particleAt b p).velocity.x (jsMul (jsSub (random k) (jsLit 0.5)) (jsLit 0.001))),
            f32 (jsAdd (particleAt b p).velocity.y (jsMul (jsSub (random (k + 1)) (jsLit 0.5)) (jsLit 0.01))),
            f32 (jsAdd (particleAt b p).velocity.z (jsMul (jsSub (random (k + 2)) (jsLit 0.5)) (jsLit 0.02)))⟩ } := by
  obtain ⟨h1, h2, h3, h4, h5⟩ := hb
  simp only [particleAt, addTurbulence, vectorAt]
  simp (disch := first | omega | (simp only [List.length_set]; omega)) only [rd_set_eq, rd_set_ne]

theorem st_particleAt_collisionResponse (n p : ℕ) (b : Buffers) (hb : Sized n b) (hp : p < n) :
    particleAt (collisionResponse (3 * p) b) p =
      { particleAt b p with
        velocity := ⟨f32 0, f32 0, f32 0⟩
        color := ⟨f32 (jsLit 1.0), f32 (jsLit 0.5), f32 (jsLit 0.0)⟩ } := by
  obtain ⟨h1, h2, h3, h4, h5⟩ := hb
  simp only [particleAt, collisionResponse, vectorAt]
  simp (disch := first | omega | (simp only [List.length_set]; omega)) only [rd_set_eq, rd_set_ne]

theorem st_sized_coolerLifetime (random : ℕ → ℚ) (n p : ℕ) (s : Sim) (hs : Sized n s.geometry) :
    Sized n (coolerLifetime random s p) := by
  unfold coolerLifetime
  dsimp only
  split
  · exact st_sized_initCooler _ _ _ _ _ (st_sized_incrementLifetime _ _ _ hs)
  · exact st_sized_incrementLifetime _ _ _ hs

theorem st_sized_rackLifetime (random : ℕ → ℚ) (n p : ℕ) (s : Sim) (hs : Sized n s.geometry) :
    Sized n (rackLifetime random s p) := by
  unfold rackLifetime
  dsimp only
  split
  · exact st_sized_initRack _ _ _ _ _ (st_sized_incrementLifetime _ _ _ hs)
  · exact st_sized_incrementLifetime _ _ _ hs

theorem st_sized_coolerMove (random : ℕ → ℚ) (n p : ℕ) (s : Sim) (hs : Sized n s.geometry) :
    Sized n (coolerMove random s p) :=
  st_sized_addTurbulence _ _ _ _ _
    (st_sized_coolerUpdatePosition _ _ _ (st_sized_coolerLifetime random n p s hs))

theorem st_sized_rackMove (random : ℕ → ℚ) (n p : ℕ) (s : Sim) (hs : Sized n s.geometry) :
    Sized n (rackMove random s p) :=
  st_sized_rackUpdatePosition _ _ _ (st_sized_rackLifetime random n p s hs)

theorem st_coolerParticle_geometry (sc : Scene) (random : ℕ → ℚ) (cooler : ℕ) (s : Sim) (p : ℕ) :
    (coolerParticle sc random cooler s p).geometry =
      if collides (coolerIntersects sc random cooler s p) then
        collisionResponse (3 * p) (coolerMove random s p)
      else coolerMove random s p := rfl

theorem st_rackParticle_geometry (sc : Scene) (random : ℕ → ℚ) (rack system : ℕ) (s : Sim)
    (p : ℕ) :
    (rackParticle sc random rack system s p).geometry =
      if collides (rackIntersects sc random rack s p) then
        collisionResponse (3 * p) (rackMove random s p)
      else rackMove random s p := rfl

theorem st_sized_coolerParticle (sc : Scene) (random : ℕ → ℚ) (cooler n p : ℕ) (s : Sim)
    (hs : Sized n s.geometry) : Sized n (coolerParticle sc random cooler s p).geometry := by
  rw [st_coolerParticle_geometry]
  split
  · exact st_sized_collisionResponse _ _ _ (st_sized_coolerMove random n p s hs)
  · exact st_sized_coolerMove random n p s hs

theorem st_sized_rackParticle (sc : Scene) (random : ℕ → ℚ) (rack system n p : ℕ) (s : Sim)
    (hs : Sized n s.geometry) :
    Sized n (rackParticle sc random rack system s p).geometry := by
  rw [st_rackParticle_geometry]
  split
  · exact st_sized_collisionResponse _ _ _ (st_sized_rackMove random n p s hs)
  · exact st_sized_rackMove random n p s hs

theorem st_particleAt_coolerLifetime_ne (random : ℕ → ℚ) (p q : ℕ) (s : Sim) (h : q ≠ p) :
    particleAt (coolerLifetime random s p) q = particleAt s.geometry q := by
  unfold coolerLifetime
  dsimp only
  split
  · rw [st_particleAt_initCooler_ne _ _ _ _ _ h, st_particleAt_incrementLifetime_ne _ _ _ h]
  · rw [st_particleAt_incrementLifetime_ne _ _ _ h]

theorem st_particleAt_rackLifetime_ne (random : ℕ → ℚ) (p q : ℕ) (s : Sim) (h : q ≠ p) :
    particleAt (rackLifetime random s p) q = particleAt s.geometry q := by
  unfold rackLifetime
  dsimp only
  split
  · rw [st_particleAt_initRack_ne _ _ _ _ _ h, st_particleAt_incrementLifetime_ne _ _ _ h]
  · rw [st_particleAt_incrementLifetime_ne _ _ _ h]

theorem st_particleAt_coolerMove_ne (random : ℕ → ℚ) (p q : ℕ) (s : Sim) (h : q ≠ p) :
    particleAt (coolerMove random s p) q = particleAt s.geometry q := by
  unfold coolerMove
  dsimp only
  rw [st_particleAt_addTurbulence_ne _ _ _ _ _ h, st_particleAt_coolerUpdatePosition_ne _ _ _ h,
    st_particleAt_coolerLifetime_ne _ _ _ _ h]

theorem st_particleAt_rackMove_ne (random : ℕ → ℚ) (p q : ℕ) (s : Sim) (h : q ≠ p) :
    particleAt (rackMove random s p) q = particleAt s.geometry q := by
  unfold rackMove
  dsimp only
  rw [st_particleAt_rackUpdatePosition_ne _ _ _ h, st_particleAt_rackLifetime_ne _ _ _ _ h]

theorem st_particleAt_coolerParticle_ne (sc : Scene) (random : ℕ → ℚ) (cooler p q : ℕ) (s : Sim)
    (h : q ≠ p) :
    particleAt (coolerParticle sc random cooler s p).geometry q = particleAt s.geometry q := by
  rw [st_coolerParticle_geometry]
  split
  · rw [st_particleAt_collisionResponse_ne _ _ _ h, st_particleAt_coolerMove_ne _ _ _ _ h]
  · rw [st_particleAt_coolerMove_ne _ _ _ _ h]

theorem st_particleAt_rackParticle_ne (sc : Scene) (random : ℕ → ℚ) (rack system p q : ℕ)
    (s : Sim) (h : q ≠ p) :
    particleAt (rackParticle sc random rack system s p).geometry q =
      particleAt s.geometry q := by
  rw [st_rackParticle_geometry]
  split
  · rw [st_particleAt_collisionResponse_ne _ _ _ h, st_particleAt_rackMove_ne _ _ _ _ h]
  · rw [st_particleAt_rackMove_ne _ _ _ _ h]

theorem st_sized_coolerReach (sc : Scene) (random : ℕ → ℚ) (cooler n p : ℕ) (s : Sim)
    (hs : Sized n s.geometry) : Sized n (coolerReach sc random cooler s p).geometry :=
  foldl_invariant (fun t => Sized n t.geometry) _ _
    (fun t q _ ht => st_sized_coolerParticle sc random cooler n q t ht) s hs

theorem st_sized_rackReach (sc : Scene) (random : ℕ → ℚ) (rack system n p : ℕ) (s : Sim)
    (hs : Sized n s.geometry) : Sized n (rackReach sc random rack system s p).geometry :=
  foldl_invariant (fun t => Sized n t.geometry) _ _
    (fun t q _ ht => st_sized_rackParticle sc random rack system n q t ht) s hs

theorem st_particleAt_coolerReach (sc : Scene) (random : ℕ → ℚ) (cooler p q : ℕ) (s : Sim)
    (h : p ≤ q) :
    particleAt (coolerReach sc random cooler s p).geometry q = particleAt s.geometry q :=
  foldl_invariant (fun t => particleAt t.geometry q = particleAt s.geometry q) _ _
    (fun t k hk ht => by
      beta_reduce at ht ⊢
      rw [st_particleAt_coolerParticle_ne sc random cooler k q t
        (by have := List.mem_range.mp hk; omega)]
      exact ht) s rfl

theorem st_particleAt_rackReach (sc : Scene) (random : ℕ → ℚ) (rack system p q : ℕ) (s : Sim)
    (h : p ≤ q) :
    particleAt (rackReach sc random rack system s p).geometry q = particleAt s.geometry q :=
  foldl_invariant (fun t => particleAt t.geometry q = particleAt s.geometry q) _ _
    (fun t k hk ht => by
      beta_reduce at ht ⊢
      rw [st_particleAt_rackParticle_ne sc random rack system k q t
        (by have := List.mem_range.mp hk; omega)]
      exact ht) s rfl

theorem st_coolerSystem_split (sc : Scene) (random : ℕ → ℚ) (cooler n p : ℕ) (s : Sim)
    (hs : Sized n s.geometry) (hp : p < n) :
    coolerSystem sc random cooler s =
      (List.range' (p + 1) (n - p - 1)).foldl (coolerParticle sc random cooler)
        (coolerParticle sc random cooler (coolerReach sc random cooler s p) p) := by
  unfold coolerSystem coolerReach
  rw [particleIndices_sized n s.geometry hs, range_split n p hp, List.foldl_append,
    List.foldl_cons]

theorem st_rackSystem_split (sc : Scene) (random : ℕ → ℚ) (rack system n p : ℕ) (s : Sim)
    (hs : Sized n s.geometry) (hp : p < n) :
    rackSystem sc random rack system s =
      (List.range' (p + 1) (n - p - 1)).foldl (rackParticle sc random rack system)
        (rackParticle sc random rack system (rackReach sc random rack system s p) p) := by
  unfold rackSystem rackReach
  rw [particleIndices_sized n s.geometry hs, range_split n p hp, List.foldl_append,
    List.foldl_cons]

theorem st_particleAt_coolerSystem (sc : Scene) (random : ℕ → ℚ) (cooler n p : ℕ) (s : Sim)
    (hs : Sized n s.geometry) (hp : p < n) :
    particleAt (coolerSystem sc random cooler s).geometry p =
      particleAt (coolerParticle sc random cooler (coolerReach sc random cooler s p) p).geometry
        p := by
  rw [st_coolerSystem_split sc random cooler n p s hs hp]
  exact foldl_invariant
    (fun t => particleAt t.geometry p =
      particleAt (coolerParticle sc random cooler (coolerReach sc random cooler s p) p).geometry
        p) _ _
    (fun t k hk ht => by
      beta_reduce at ht ⊢
      rw [st_particleAt_coolerParticle_ne sc random cooler k p t
        (by have := (List.mem_range'_1.mp hk).1; omega)]
      exact ht) _ rfl

theorem st_particleAt_rackSystem (sc : Scene) (random : ℕ → ℚ) (rack system n p : ℕ) (s : Sim)
    (hs : Sized n s.geometry) (hp : p < n) :
    particleAt (rackSystem sc random rack system s).geometry p =
      particleAt
        (rackParticle sc random rack system (rackReach sc random rack system s p) p).geometry
        p := by
  rw [st_rackSystem_split sc random rack system n p s hs hp]
  exact foldl_invariant
    (fun t => particleAt t.geometry p =
      particleAt
        (rackParticle sc random rack system (rackReach sc random rack system s p) p).geometry
        p) _ _
    (fun t k hk ht => by
      beta_reduce at ht ⊢
      rw [st_particleAt_rackParticle_ne sc random rack system k p t
        (by have := (List.mem_range'_1.mp hk).1; omega)]
      exact ht) _ rfl

theorem st_sized_coolerSystem (sc : Scene) (random : ℕ → ℚ) (cooler n : ℕ) (s : Sim)
    (hs : Sized n s.geometry) : Sized n (coolerSystem sc random cooler s).geometry :=
  foldl_invariant (fun t => Sized n t.geometry) _ _
    (fun t q _ ht => st_sized_coolerParticle sc random cooler n q t ht) s hs

theorem st_sized_rackSystem (sc : Scene) (random : ℕ → ℚ) (rack system n : ℕ) (s : Sim)
    (hs : Sized n s.geometry) : Sized n (rackSystem sc random rack system s).geometry :=
  foldl_invariant (fun t => Sized n t.geometry) _ _
    (fun t q _ ht => st_sized_rackParticle sc random rack system n q t ht) s hs

theorem st_resets_eq (n p : ℕ) (s : Sim) (hs : Sized n s.geometry) (hp : p < n) :
    resets s p =
      decide (f32 (jsAdd (particleAt s.geometry p).age 1) ≥ (particleAt s.geometry p).maxAge) := by
  obtain ⟨h1, h2, h3, h4, h5⟩ := hs
  simp only [resets, expired, incrementLifetime, particleAt]
  simp (disch := omega) only [rd_set_eq]

theorem st_particleAt_coolerLifetime (random : ℕ → ℚ) (n p : ℕ) (s : Sim)
    (hs : Sized n s.geometry) (hp : p < n) :
    particleAt (coolerLifetime random s p) p =
      if resets s p then
        particleAt
          (initCoolerParticleProps random s.fx.drawn p (incrementLifetime p s.geometry)) p
      else { particleAt s.geometry p with age := f32 (jsAdd (particleAt s.geometry p).age 1) } := by
  unfold coolerLifetime resets
  dsimp only
  split
  · rfl
  · exact st_particleAt_incrementLifetime n p s.geometry hs hp

theorem st_particleAt_rackLifetime (random : ℕ → ℚ) (n p : ℕ) (s : Sim)
    (hs : Sized n s.geometry) (hp : p < n) :
    particleAt (rackLifetime random s p) p =
      if resets s p then
        particleAt
          (initRackParticleProps random s.fx.drawn p (incrementLifetime p s.geometry)) p
      else { particleAt s.geometry p with age := f32 (jsAdd (particleAt s.geometry p).age 1) } := by
  unfold rackLifetime resets
  dsimp only
  split
  · rfl
  · exact st_particleAt_incrementLifetime n p s.geometry hs hp

theorem st_particleAt_coolerMove (random : ℕ → ℚ) (n p : ℕ) (s : Sim)
    (hs : Sized n s.geometry) (hp : p < n) :
    particleAt (coolerMove random s p) p =
      { particleAt (coolerLifetime random s p) p with
        position :=
          ⟨f32 (jsAdd (particleAt (coolerLifetime random s p) p).position.x (jsMul (particleAt (coolerLifetime random s p) p).velocity.x (jsLit 0.5))),
            f32 (jsAdd (particleAt (coolerLifetime random s p) p).position.y (jsMul (particleAt (coolerLifetime random s p) p).velocity.y (jsLit 1.5))),
            f32 (jsAdd (particleAt (coolerLifetime random s p) p).position.z (jsMul (particleAt (coolerLifetime random s p) p).velocity.z 1))⟩
        velocity :=
          ⟨f32 (jsAdd (particleAt (coolerLifetime random s p) p).velocity.x (jsMul (jsSub (random (coolerDrawn s p)) (jsLit 0.5)) (jsLit 0.001))),
            f32 (jsAdd (particleAt (coolerLifetime random s p) p).velocity.y (jsMul (jsSub (random (coolerDrawn s p + 1)) (jsLit 0.5)) (jsLit 0.01))),
            f32 (jsAdd (particleAt (coolerLifetime random s p) p).velocity.z (jsMul (jsSub (random (coolerDrawn s p + 2)) (jsLit 0.5)) (jsLit 0.02)))⟩ } := by
  have h1 := st_sized_coolerLifetime random n p s hs
  have h2 := st_sized_coolerUpdatePosition n (3 * p) _ h1
  unfold coolerMove
  dsimp only
  rw [st_particleAt_addTurbulence random _ n p _ h2 hp,
    st_particleAt_coolerUpdatePosition n p _ h1 hp]

theorem st_particleAt_rackMove (random : ℕ → ℚ) (n p : ℕ) (s : Sim)
    (hs : Sized n s.geometry) (hp : p < n) :
    particleAt (rackMove random s p) p =
      { particleAt (rackLifetime random s p) p with
        position :=
          ⟨f32 (jsAdd (particleAt (rackLifetime random s p) p).position.x (particleAt (rackLifetime random s p) p).velocity.x),
            f32 (jsAdd (particleAt (rackLifetime random s p) p).position.y (particleAt (rackLifetime random s p) p).velocity.y),
            f32 (jsAdd (particleAt (rackLifetime random s p) p).position.z (particleAt (rackLifetime random s p) p).velocity.z)⟩ } := by
  have h1 := st_sized_rackLifetime random n p s hs
  unfold rackMove
  dsimp only
  rw [st_particleAt_rackUpdatePosition n p _ h1 hp]

theorem st_particleAt_coolerParticle (sc : Scene) (random : ℕ → ℚ) (cooler n p : ℕ) (s : Sim)
    (hs : Sized n s.geometry) (hp : p < n) :
    particleAt (coolerParticle sc random cooler s p).geometry p =
      if collides (coolerIntersects sc random cooler s p) then
        { particleAt (coolerMove random s p) p with
          velocity := ⟨f32 0, f32 0, f32 0⟩
          color := ⟨f32 (jsLit 1.0), f32 (jsLit 0.5), f32 (jsLit 0.0)⟩ }
      else particleAt (coolerMove random s p) p := by
  rw [st_coolerParticle_geometry]
  split
  · exact st_particleAt_collisionResponse n p _ (st_sized_coolerMove random n p s hs) hp
  · rfl

theorem st_particleAt_rackParticle (sc : Scene) (random : ℕ → ℚ) (rack system n p : ℕ) (s : Sim)
    (hs : Sized n s.geometry) (hp : p < n) :
    particleAt (rackParticle sc random rack system s p).geometry p =
      if collides (rackIntersects sc random rack s p) then
        { particleAt (rackMove random s p) p with
          velocity := ⟨f32 0, f32 0, f32 0⟩
          color := ⟨f32 (jsLit 1.0), f32 (jsLit 0.5), f32 (jsLit 0.0)⟩ }
      else particleAt (rackMove random s p) p := by
  rw [st_rackParticle_geometry]
  split
  · exact st_particleAt_collisionResponse n p _ (st_sized_rackMove random n p s hs) hp
  · rfl

end Stored
/-! ## Values of the literals and of the respawn formulas at the ends of the draw range -/

theorem fround_19_9 :
    fround 19.9 = (10433331 / 524288) := by
  simp only [fround, jsAdd, jsSub, jsMul, jsLit]
  have e0 : f64 19.9 = (2800676018271027 / 140737488355328) := by
    rw [show (19.9 : ℚ) = (199 / 10) by norm_num]
    exact f64_eval _ _ (4) 5601352036542054 (by norm_num) (by norm_num) (by norm_num) (Or.inl (by
      norm_num [abs_lt])) (by norm_num)
  rw [e0]
  have e1 : f32 (2800676018271027 / 140737488355328) = (10433331 / 524288) := by
    exact f32_eval _ _ (4) 10433331 (by norm_num) (by norm_num) (by norm_num) (Or.inl (by norm_num
      [abs_lt])) (by norm_num)
  rw [e1]

theorem fround_20_1 :
    fround 20.1 = (10538189 / 524288) := by
  simp only [fround, jsAdd, jsSub, jsMul, jsLit]
  have e0 : f64 20.1 = (2828823515942093 / 140737488355328) := by
    rw [show (20.1 : ℚ) = (201 / 10) by norm_num]
    exact f64_eval _ _ (4) 5657647031884186 (by norm_num) (by norm_num) (by norm_num) (Or.inl (by
      norm_num [abs_lt])) (by norm_num)
  rw [e0]
  have e1 : f32 (2828823515942093 / 140737488355328) = (10538189 / 524288) := by
    exact f32_eval _ _ (4) 10538189 (by norm_num) (by norm_num) (by norm_num) (Or.inl (by norm_num
      [abs_lt])) (by norm_num)
  rw [e1]

theorem fround_0_2 :
    fround 0.2 = (13421773 / 67108864) := by
  simp only [fround, jsAdd, jsSub, jsMul, jsLit]
  have e0 : f64 0.2 = (3602879701896397 / 18014398509481984) := by
    rw [show (0.2 : ℚ) = (1 / 5) by norm_num]
    exact f64_eval _ _ (-3) 7205759403792794 (by norm_num) (by norm_num) (by norm_num) (Or.inl (by
      norm_num [abs_lt])) (by norm_num)
  rw [e0]
  have e1 : f32 (3602879701896397 / 18014398509481984) = (13421773 / 67108864) := by
    exact f32_eval _ _ (-3) 13421773 (by norm_num) (by norm_num) (by norm_num) (Or.inl (by norm_num
      [abs_lt])) (by norm_num)
  rw [e1]

theorem fround_0_1 :
    fround 0.1 = (13421773 / 134217728) := by
  simp only [fround, jsAdd, jsSub, jsMul, jsLit]
  have e0 : f64 0.1 = (3602879701896397 / 36028797018963968) := by
    rw [show (0.1 : ℚ) = (1 / 10) by norm_num]
    exact f64_eval _ _ (-4) 7205759403792794 (by norm_num) (by norm_num) (by norm_num) (Or.inl (by
      norm_num [abs_lt])) (by norm_num)
  rw [e0]
  have e1 : f32 (3602879701896397 / 36028797018963968) = (13421773 / 134217728) := by
    exact f32_eval _ _ (-4) 13421773 (by norm_num) (by norm_num) (by norm_num) (Or.inl (by norm_num
      [abs_lt])) (by norm_num)
  rw [e1]

theorem fround_0_01 :
    fround 0.01 = (5368709 / 536870912) := by
  simp only [fround, jsAdd, jsSub, jsMul, jsLit]
  have e0 : f64 0.01 = (5764607523034235 / 576460752303423488) := by
    rw [show (0.01 : ℚ) = (1 / 100) by norm_num]
    exact f64_eval _ _ (-7) 5764607523034235 (by norm_num) (by norm_num) (by norm_num) (Or.inl (by
      norm_num [abs_lt])) (by norm_num)
  rw [e0]
  have e1 : f32 (5764607523034235 / 576460752303423488) = (5368709 / 536870912) := by
    exact f32_eval _ _ (-7) 10737418 (by norm_num) (by norm_num) (by norm_num) (Or.inl (by norm_num
      [abs_lt])) (by norm_num)
  rw [e1]

theorem fround_1_3 :
    fround 1.3 = (5452595 / 4194304) := by
  simp only [fround, jsAdd, jsSub, jsMul, jsLit]
  have e0 : f64 1.3 = (5854679515581645 / 4503599627370496) := by
    rw [show (1.3 : ℚ) = (13 / 10) by norm_num]
    exact f64_eval _ _ (0) 5854679515581645 (by norm_num) (by norm_num) (by norm_num) (Or.inl (by
      norm_num [abs_lt])) (by norm_num)
  rw [e0]
  have e1 : f32 (5854679515581645 / 4503599627370496) = (5452595 / 4194304) := by
    exact f32_eval _ _ (0) 10905190 (by norm_num) (by norm_num) (by norm_num) (Or.inl (by norm_num
      [abs_lt])) (by norm_num)
  rw [e1]

theorem fround_0_3 :
    fround 0.3 = (5033165 / 16777216) := by
  simp only [fround, jsAdd, jsSub, jsMul, jsLit]
  have e0 : f64 0.3 = (5404319552844595 / 18014398509481984) := by
    rw [show (0.3 : ℚ) = (3 / 10) by norm_num]
    exact f64_eval _ _ (-2) 5404319552844595 (by norm_num) (by norm_num) (by norm_num) (Or.inl (by
      norm_num [abs_lt])) (by norm_num)
  rw [e0]
  have e1 : f32 (5404319552844595 / 18014398509481984) = (5033165 / 16777216) := by
    exact f32_eval _ _ (-2) 10066330 (by norm_num) (by norm_num) (by norm_num) (Or.inl (by norm_num
      [abs_lt])) (by norm_num)
  rw [e1]

theorem fround_0_00125 :
    fround 0.00125 = (5368709 / 4294967296) := by
  simp only [fround, jsAdd, jsSub, jsMul, jsLit]
  have e0 : f64 0.00125 = (5764607523034235 / 4611686018427387904) := by
    rw [show (0.00125 : ℚ) = (1 / 800) by norm_num]
    exact f64_eval _ _ (-10) 5764607523034235 (by norm_num) (by norm_num) (by norm_num) (Or.inl (by
      norm_num [abs_lt])) (by norm_num)
  rw [e0]
  have e1 : f32 (5764607523034235 / 4611686018427387904) = (5368709 / 4294967296) := by
    exact f32_eval _ _ (-10) 10737418 (by norm_num) (by norm_num) (by norm_num) (Or.inl (by
      norm_num [abs_lt])) (by norm_num)
  rw [e1]

theorem fround_0_00375 :
    fround 0.00375 = (16106127 / 4294967296) := by
  simp only [fround, jsAdd, jsSub, jsMul, jsLit]
  have e0 : f64 0.00375 = (1080863910568919 / 288230376151711744) := by
    rw [show (0.00375 : ℚ) = (3 / 800) by norm_num]
    exact f64_eval _ _ (-9) 8646911284551352 (by norm_num) (by norm_num) (by norm_num) (Or.inl (by
      norm_num [abs_lt])) (by norm_num)
  rw [e0]
  have e1 : f32 (1080863910568919 / 288230376151711744) = (16106127 / 4294967296) := by
    exact f32_eval _ _ (-9) 16106127 (by norm_num) (by norm_num) (by norm_num) (Or.inl (by norm_num
      [abs_lt])) (by norm_num)
  rw [e1]

theorem fround_0_005 :
    fround 0.005 = (5368709 / 1073741824) := by
  simp only [fround, jsAdd, jsSub, jsMul, jsLit]
  have e0 : f64 0.005 = (5764607523034235 / 1152921504606846976) := by
    rw [show (0.005 : ℚ) = (1 / 200) by norm_num]
    exact f64_eval _ _ (-8) 5764607523034235 (by norm_num) (by norm_num) (by norm_num) (Or.inl (by
      norm_num [abs_lt])) (by norm_num)
  rw [e0]
  have e1 : f32 (5764607523034235 / 1152921504606846976) = (5368709 / 1073741824) := by
    exact f32_eval _ _ (-8) 10737418 (by norm_num) (by norm_num) (by norm_num) (Or.inl (by norm_num
      [abs_lt])) (by norm_num)
  rw [e1]

theorem fround_0_0025 :
    fround 0.0025 = (5368709 / 2147483648) := by
  simp only [fround, jsAdd, jsSub, jsMul, jsLit]
  have e0 : f64 0.0025 = (5764607523034235 / 2305843009213693952) := by
    rw [show (0.0025 : ℚ) = (1 / 400) by norm_num]
    exact f64_eval _ _ (-9) 5764607523034235 (by norm_num) (by norm_num) (by norm_num) (Or.inl (by
      norm_num [abs_lt])) (by norm_num)
  rw [e0]
  have e1 : f32 (5764607523034235 / 2305843009213693952) = (5368709 / 2147483648) := by
    exact f32_eval _ _ (-9) 10737418 (by norm_num) (by norm_num) (by norm_num) (Or.inl (by norm_num
      [abs_lt])) (by norm_num)
  rw [e1]

theorem fround_half :
    f32 (jsLit 0.5) = 0.5 := by
  simp only [fround, jsAdd, jsSub, jsMul, jsLit]
  have e0 : f64 0.5 = (1 / 2) := by
    rw [show (0.5 : ℚ) = (1 / 2) by norm_num]
    exact f64_fix _ 1 (-1) (by norm_num) (by norm_num) (by norm_num)
  rw [e0]
  have e1 : f32 (1 / 2) = (1 / 2) := by
    exact f32_fix _ 1 (-1) (by norm_num) (by norm_num) (by norm_num)
  rw [e1]
  norm_num

theorem fround_one :
    f32 (jsLit 1.0) = 1.0 := by
  simp only [fround, jsAdd, jsSub, jsMul, jsLit]
  have e0 : f64 1.0 = 1 := by
    rw [show (1.0 : ℚ) = 1 by norm_num]
    exact f64_fix _ 1 (0) (by norm_num) (by norm_num) (by norm_num)
  rw [e0]
  have e1 : f32 1 = 1 := by
    exact f32_fix _ 1 (0) (by norm_num) (by norm_num) (by norm_num)
  rw [e1]
  norm_num

namespace Stored

theorem st_coolerY_zero :
    f32 (jsAdd (jsMul (jsSub 0 (jsLit 0.5)) (jsLit 0.2)) 20) = fround 19.9 := by
  rw [fround_19_9]
  simp only [fround, jsAdd, jsSub, jsMul, jsLit]
  have e0 : f64 0.5 = (1 / 2) := by
    rw [show (0.5 : ℚ) = (1 / 2) by norm_num]
    exact f64_fix _ 1 (-1) (by norm_num) (by norm_num) (by norm_num)
  rw [e0]
  have e1 : f64 (0 - (1 / 2)) = -(1 / 2) := by
    rw [show (0 - (1 / 2) : ℚ) = -(1 / 2) by norm_num, f64_neg]
    exact neg_inj.mpr (f64_fix _ 1 (-1) (by norm_num) (by norm_num) (by norm_num))
  rw [e1]
  have e2 : f64 0.2 = (3602879701896397 / 18014398509481984) := by
    rw [show (0.2 : ℚ) = (1 / 5) by norm_num]
    exact f64_eval _ _ (-3) 7205759403792794 (by norm_num) (by norm_num) (by norm_num) (Or.inl (by
      norm_num [abs_lt])) (by norm_num)
  rw [e2]
  have e3 : f64 ((-(1 / 2)) * (3602879701896397 / 18014398509481984)) = -(3602879701896397 /
    36028797018963968) := by
    rw [show ((-(1 / 2)) * (3602879701896397 / 18014398509481984) : ℚ) = -(3602879701896397 /
      36028797018963968) by norm_num, f64_neg]
    exact neg_inj.mpr (f64_fix _ 3602879701896397 (-55) (by norm_num) (by norm_num) (by norm_num))
  rw [e3]
  have e4 : f64 ((-(3602879701896397 / 36028797018963968)) + 20) = (2800676018271027 /
    140737488355328) := by
    rw [show ((-(3602879701896397 / 36028797018963968)) + 20 : ℚ) = (716973060677382963 /
      36028797018963968) by norm_num]
    exact f64_eval _ _ (4) 5601352036542054 (by norm_num) (by norm_num) (by norm_num) (Or.inl (by
      norm_num [abs_lt])) (by norm_num)
  rw [e4]
  have e5 : f32 (2800676018271027 / 140737488355328) = (10433331 / 524288) := by
    exact f32_eval _ _ (4) 10433331 (by norm_num) (by norm_num) (by norm_num) (Or.inl (by norm_num
      [abs_lt])) (by norm_num)
  rw [e5]

theorem st_coolerY_one :
    f32 (jsAdd (jsMul (jsSub 1 (jsLit 0.5)) (jsLit 0.2)) 20) = fround 20.1 := by
  rw [fround_20_1]
  simp only [fround, jsAdd, jsSub, jsMul, jsLit]
  have e0 : f64 0.5 = (1 / 2) := by
    rw [show (0.5 : ℚ) = (1 / 2) by norm_num]
    exact f64_fix _ 1 (-1) (by norm_num) (by norm_num) (by norm_num)
  rw [e0]
  have e1 : f64 (1 - (1 / 2)) = (1 / 2) := by
    rw [show (1 - (1 / 2) : ℚ) = (1 / 2) by norm_num]
    exact f64_fix _ 1 (-1) (by norm_num) (by norm_num) (by norm_num)
  rw [e1]
  have e2 : f64 0.2 = (3602879701896397 / 18014398509481984) := by
    rw [show (0.2 : ℚ) = (1 / 5) by norm_num]
    exact f64_eval _ _ (-3) 7205759403792794 (by norm_num) (by norm_num) (by norm_num) (Or.inl (by
      norm_num [abs_lt])) (by norm_num)
  rw [e2]
  have e3 : f64 ((1 / 2) * (3602879701896397 / 18014398509481984)) = (3602879701896397 /
    36028797018963968) := by
    rw [show ((1 / 2) * (3602879701896397 / 18014398509481984) : ℚ) = (3602879701896397 /
      36028797018963968) by norm_num]
    exact f64_fix _ 3602879701896397 (-55) (by norm_num) (by norm_num) (by norm_num)
  rw [e3]
  have e4 : f64 ((3602879701896397 / 36028797018963968) + 20) = (2828823515942093 /
    140737488355328) := by
    rw [show ((3602879701896397 / 36028797018963968) + 20 : ℚ) = (724178820081175757 /
      36028797018963968) by norm_num]
    exact f64_eval _ _ (4) 5657647031884186 (by norm_num) (by norm_num) (by norm_num) (Or.inl (by
      norm_num [abs_lt])) (by norm_num)
  rw [e4]
  have e5 : f32 (2828823515942093 / 140737488355328) = (10538189 / 524288) := by
    exact f32_eval _ _ (4) 10538189 (by norm_num) (by norm_num) (by norm_num) (Or.inl (by norm_num
      [abs_lt])) (by norm_num)
  rw [e5]

theorem st_coolerZ_zero :
    f32 (jsMul (jsSub 0 (jsLit 0.5)) 40) = -20 := by
  simp only [fround, jsAdd, jsSub, jsMul, jsLit]
  have e0 : f64 0.5 = (1 / 2) := by
    rw [show (0.5 : ℚ) = (1 / 2) by norm_num]
    exact f64_fix _ 1 (-1) (by norm_num) (by norm_num) (by norm_num)
  rw [e0]
  have e1 : f64 (0 - (1 / 2)) = -(1 / 2) := by
    rw [show (0 - (1 / 2) : ℚ) = -(1 / 2) by norm_num, f64_neg]
    exact neg_inj.mpr (f64_fix _ 1 (-1) (by norm_num) (by norm_num) (by norm_num))
  rw [e1]
  have e2 : f64 ((-(1 / 2)) * 40) = -20 := by
    rw [show ((-(1 / 2)) * 40 : ℚ) = -20 by norm_num, f64_neg]
    exact neg_inj.mpr (f64_fix _ 5 (2) (by norm_num) (by norm_num) (by norm_num))
  rw [e2]
  have e3 : f32 (-20) = -20 := by
    rw [f32_neg]
    exact neg_inj.mpr (f32_fix _ 5 (2) (by norm_num) (by norm_num) (by norm_num))
  rw [e3]

theorem st_coolerZ_one :
    f32 (jsMul (jsSub 1 (jsLit 0.5)) 40) = 20 := by
  simp only [fround, jsAdd, jsSub, jsMul, jsLit]
  have e0 : f64 0.5 = (1 / 2) := by
    rw [show (0.5 : ℚ) = (1 / 2) by norm_num]
    exact f64_fix _ 1 (-1) (by norm_num) (by norm_num) (by norm_num)
  rw [e0]
  have e1 : f64 (1 - (1 / 2)) = (1 / 2) := by
    rw [show (1 - (1 / 2) : ℚ) = (1 / 2) by norm_num]
    exact f64_fix _ 1 (-1) (by norm_num) (by norm_num) (by norm_num)
  rw [e1]
  have e2 : f64 ((1 / 2) * 40) = 20 := by
    rw [show ((1 / 2) * 40 : ℚ) = 20 by norm_num]
    exact f64_fix _ 5 (2) (by norm_num) (by norm_num) (by norm_num)
  rw [e2]
  have e3 : f32 20 = 20 := by
    exact f32_fix _ 5 (2) (by norm_num) (by norm_num) (by norm_num)
  rw [e3]

theorem st_coolerVx_zero :
    f32 (jsMul 0 2) = 0 := by
  simp only [fround, jsAdd, jsSub, jsMul, jsLit]
  have e0 : f64 (0 * 2) = 0 := by
    rw [show (0 * 2 : ℚ) = 0 by norm_num, f64_zero]
  rw [e0]
  have e1 : f32 0 = 0 := by
    rw [show (0 : ℚ) = 0 by norm_num, f32_zero]
  rw [e1]

theorem st_coolerVx_one :
    f32 (jsMul 1 2) = 2 := by
  simp only [fround, jsAdd, jsSub, jsMul, jsLit]
  have e0 : f64 (1 * 2) = 2 := by
    rw [show (1 * 2 : ℚ) = 2 by norm_num]
    exact f64_fix _ 1 (1) (by norm_num) (by norm_num) (by norm_num)
  rw [e0]
  have e1 : f32 2 = 2 := by
    exact f32_fix _ 1 (1) (by norm_num) (by norm_num) (by norm_num)
  rw [e1]

theorem st_coolerVy_zero :
    f32 (-(jsAdd (jsMul 0 (jsLit 0.1)) (jsLit 0.1))) = -fround 0.1 := by
  rw [fround_0_1]
  simp only [fround, jsAdd, jsSub, jsMul, jsLit]
  have e0 : f64 0.1 = (3602879701896397 / 36028797018963968) := by
    rw [show (0.1 : ℚ) = (1 / 10) by norm_num]
    exact f64_eval _ _ (-4) 7205759403792794 (by norm_num) (by norm_num) (by norm_num) (Or.inl (by
      norm_num [abs_lt])) (by norm_num)
  rw [e0]
  have e1 : f64 (0 * (3602879701896397 / 36028797018963968)) = 0 := by
    rw [show (0 * (3602879701896397 / 36028797018963968) : ℚ) = 0 by norm_num, f64_zero]
  rw [e1]
  have e2 : f64 (0 + (3602879701896397 / 36028797018963968)) = (3602879701896397 /
    36028797018963968) := by
    rw [show (0 + (3602879701896397 / 36028797018963968) : ℚ) = (3602879701896397 /
      36028797018963968) by norm_num]
    exact f64_fix _ 3602879701896397 (-55) (by norm_num) (by norm_num) (by norm_num)
  rw [e2]
  have e3 : f32 (-(3602879701896397 / 36028797018963968)) = -(13421773 / 134217728) := by
    rw [f32_neg]
    exact neg_inj.mpr (f32_eval _ _ (-4) 13421773 (by norm_num) (by norm_num) (by norm_num) (Or.inl
      (by norm_num [abs_lt])) (by norm_num))
  rw [e3]

theorem st_coolerVy_one :
    f32 (-(jsAdd (jsMul 1 (jsLit 0.1)) (jsLit 0.1))) = -fround 0.2 := by
  rw [fround_0_2]
  simp only [fround, jsAdd, jsSub, jsMul, jsLit]
  have e0 : f64 0.1 = (3602879701896397 / 36028797018963968) := by
    rw [show (0.1 : ℚ) = (1 / 10) by norm_num]
    exact f64_eval _ _ (-4) 7205759403792794 (by norm_num) (by norm_num) (by norm_num) (Or.inl (by
      norm_num [abs_lt])) (by norm_num)
  rw [e0]
  have e1 : f64 (1 * (3602879701896397 / 36028797018963968)) = (3602879701896397 /
    36028797018963968) := by
    rw [show (1 * (3602879701896397 / 36028797018963968) : ℚ) = (3602879701896397 /
      36028797018963968) by norm_num]
    exact f64_fix _ 3602879701896397 (-55) (by norm_num) (by norm_num) (by norm_num)
  rw [e1]
  have e2 : f64 ((3602879701896397 / 36028797018963968) + (3602879701896397 / 36028797018963968)) =
    (3602879701896397 / 18014398509481984) := by
    rw [show ((3602879701896397 / 36028797018963968) + (3602879701896397 / 36028797018963968) : ℚ)
      = (3602879701896397 / 18014398509481984) by norm_num]
    exact f64_fix _ 3602879701896397 (-54) (by norm_num) (by norm_num) (by norm_num)
  rw [e2]
  have e3 : f32 (-(3602879701896397 / 18014398509481984)) = -(13421773 / 67108864) := by
    rw [f32_neg]
    exact neg_inj.mpr (f32_eval _ _ (-3) 13421773 (by norm_num) (by norm_num) (by norm_num) (Or.inl
      (by norm_num [abs_lt])) (by norm_num))
  rw [e3]

theorem st_coolerVz_zero :
    f32 (jsMul (jsSub 0 (jsLit 0.5)) (jsLit 0.02)) = -fround 0.01 := by
  rw [fround_0_01]
  simp only [fround, jsAdd, jsSub, jsMul, jsLit]
  have e0 : f64 0.5 = (1 / 2) := by
    rw [show (0.5 : ℚ) = (1 / 2) by norm_num]
    exact f64_fix _ 1 (-1) (by norm_num) (by norm_num) (by norm_num)
  rw [e0]
  have e1 : f64 (0 - (1 / 2)) = -(1 / 2) := by
    rw [show (0 - (1 / 2) : ℚ) = -(1 / 2) by norm_num, f64_neg]
    exact neg_inj.mpr (f64_fix _ 1 (-1) (by norm_num) (by norm_num) (by norm_num))
  rw [e1]
  have e2 : f64 0.02 = (5764607523034235 / 288230376151711744) := by
    rw [show (0.02 : ℚ) = (1 / 50) by norm_num]
    exact f64_eval _ _ (-6) 5764607523034235 (by norm_num) (by norm_num) (by norm_num) (Or.inl (by
      norm_num [abs_lt])) (by norm_num)
  rw [e2]
  have e3 : f64 ((-(1 / 2)) * (5764607523034235 / 288230376151711744)) = -(5764607523034235 /
    576460752303423488) := by
    rw [show ((-(1 / 2)) * (5764607523034235 / 288230376151711744) : ℚ) = -(5764607523034235 /
      576460752303423488) by norm_num, f64_neg]
    exact neg_inj.mpr (f64_fix _ 5764607523034235 (-59) (by norm_num) (by norm_num) (by norm_num))
  rw [e3]
  have e4 : f32 (-(5764607523034235 / 576460752303423488)) = -(5368709 / 536870912) := by
    rw [f32_neg]
    exact neg_inj.mpr (f32_eval _ _ (-7) 10737418 (by norm_num) (by norm_num) (by norm_num) (Or.inl
      (by norm_num [abs_lt])) (by norm_num))
  rw [e4]

theorem st_coolerVz_one :
    f32 (jsMul (jsSub 1 (jsLit 0.5)) (jsLit 0.02)) = fround 0.01 := by
  rw [fround_0_01]
  simp only [fround, jsAdd, jsSub, jsMul, jsLit]
  have e0 : f64 0.5 = (1 / 2) := by
    rw [show (0.5 : ℚ) = (1 / 2) by norm_num]
    exact f64_fix _ 1 (-1) (by norm_num) (by norm_num) (by norm_num)
  rw [e0]
  have e1 : f64 (1 - (1 / 2)) = (1 / 2) := by
    rw [show (1 - (1 / 2) : ℚ) = (1 / 2) by norm_num]
    exact f64_fix _ 1 (-1) (by norm_num) (by norm_num) (by norm_num)
  rw [e1]
  have e2 : f64 0.02 = (5764607523034235 / 288230376151711744) := by
    rw [show (0.02 : ℚ) = (1 / 50) by norm_num]
    exact f64_eval _ _ (-6) 5764607523034235 (by norm_num) (by norm_num) (by norm_num) (Or.inl (by
      norm_num [abs_lt])) (by norm_num)
  rw [e2]
  have e3 : f64 ((1 / 2) * (5764607523034235 / 288230376151711744)) = (5764607523034235 /
    576460752303423488) := by
    rw [show ((1 / 2) * (5764607523034235 / 288230376151711744) : ℚ) = (5764607523034235 /
      576460752303423488) by norm_num]
    exact f64_fix _ 5764607523034235 (-59) (by norm_num) (by norm_num) (by norm_num)
  rw [e3]
  have e4 : f32 (5764607523034235 / 576460752303423488) = (5368709 / 536870912) := by
    exact f32_eval _ _ (-7) 10737418 (by norm_num) (by norm_num) (by norm_num) (Or.inl (by norm_num
      [abs_lt])) (by norm_num)
  rw [e4]

theorem st_spawnAge_zero :
    f32 (jsMul 0 1000) = 0 := by
  simp only [fround, jsAdd, jsSub, jsMul, jsLit]
  have e0 : f64 (0 * 1000) = 0 := by
    rw [show (0 * 1000 : ℚ) = 0 by norm_num, f64_zero]
  rw [e0]
  have e1 : f32 0 = 0 := by
    rw [show (0 : ℚ) = 0 by norm_num, f32_zero]
  rw [e1]

theorem st_spawnAge_one :
    f32 (jsMul 1 1000) = 1000 := by
  simp only [fround, jsAdd, jsSub, jsMul, jsLit]
  have e0 : f64 (1 * 1000) = 1000 := by
    rw [show (1 * 1000 : ℚ) = 1000 by norm_num]
    exact f64_fix _ 125 (3) (by norm_num) (by norm_num) (by norm_num)
  rw [e0]
  have e1 : f32 1000 = 1000 := by
    exact f32_fix _ 125 (3) (by norm_num) (by norm_num) (by norm_num)
  rw [e1]

theorem st_spawnMaxAge_zero :
    f32 (jsAdd 1000 (jsMul 0 500)) = 1000 := by
  simp only [fround, jsAdd, jsSub, jsMul, jsLit]
  have e0 : f64 (0 * 500) = 0 := by
    rw [show (0 * 500 : ℚ) = 0 by norm_num, f64_zero]
  rw [e0]
  have e1 : f64 (1000 + 0) = 1000 := by
    rw [show (1000 + 0 : ℚ) = 1000 by norm_num]
    exact f64_fix _ 125 (3) (by norm_num) (by norm_num) (by norm_num)
  rw [e1]
  have e2 : f32 1000 = 1000 := by
    exact f32_fix _ 125 (3) (by norm_num) (by norm_num) (by norm_num)
  rw [e2]

theorem st_spawnMaxAge_one :
    f32 (jsAdd 1000 (jsMul 1 500)) = 1500 := by
  simp only [fround, jsAdd, jsSub, jsMul, jsLit]
  have e0 : f64 (1 * 500) = 500 := by
    rw [show (1 * 500 : ℚ) = 500 by norm_num]
    exact f64_fix _ 125 (2) (by norm_num) (by norm_num) (by norm_num)
  rw [e0]
  have e1 : f64 (1000 + 500) = 1500 := by
    rw [show (1000 + 500 : ℚ) = 1500 by norm_num]
    exact f64_fix _ 375 (2) (by norm_num) (by norm_num) (by norm_num)
  rw [e1]
  have e2 : f32 1500 = 1500 := by
    exact f32_fix _ 375 (2) (by norm_num) (by norm_num) (by norm_num)
  rw [e2]

theorem st_rackX_zero :
    f32 (jsMul (jsSub 0 (jsLit 0.5)) (jsLit 0.5)) = -0.25 := by
  simp only [fround, jsAdd, jsSub, jsMul, jsLit]
  have e0 : f64 0.5 = (1 / 2) := by
    rw [show (0.5 : ℚ) = (1 / 2) by norm_num]
    exact f64_fix _ 1 (-1) (by norm_num) (by norm_num) (by norm_num)
  rw [e0]
  have e1 : f64 (0 - (1 / 2)) = -(1 / 2) := by
    rw [show (0 - (1 / 2) : ℚ) = -(1 / 2) by norm_num, f64_neg]
    exact neg_inj.mpr (f64_fix _ 1 (-1) (by norm_num) (by norm_num) (by norm_num))
  rw [e1]
  have e2 : f64 ((-(1 / 2)) * (1 / 2)) = -(1 / 4) := by
    rw [show ((-(1 / 2)) * (1 / 2) : ℚ) = -(1 / 4) by norm_num, f64_neg]
    exact neg_inj.mpr (f64_fix _ 1 (-2) (by norm_num) (by norm_num) (by norm_num))
  rw [e2]
  have e3 : f32 (-(1 / 4)) = -(1 / 4) := by
    rw [f32_neg]
    exact neg_inj.mpr (f32_fix _ 1 (-2) (by norm_num) (by norm_num) (by norm_num))
  rw [e3]
  norm_num

theorem st_rackX_one :
    f32 (jsMul (jsSub 1 (jsLit 0.5)) (jsLit 0.5)) = 0.25 := by
  simp only [fround, jsAdd, jsSub, jsMul, jsLit]
  have e0 : f64 0.5 = (1 / 2) := by
    rw [show (0.5 : ℚ) = (1 / 2) by norm_num]
    exact f64_fix _ 1 (-1) (by norm_num) (by norm_num) (by norm_num)
  rw [e0]
  have e1 : f64 (1 - (1 / 2)) = (1 / 2) := by
    rw [show (1 - (1 / 2) : ℚ) = (1 / 2) by norm_num]
    exact f64_fix _ 1 (-1) (by norm_num) (by norm_num) (by norm_num)
  rw [e1]
  have e2 : f64 ((1 / 2) * (1 / 2)) = (1 / 4) := by
    rw [show ((1 / 2) * (1 / 2) : ℚ) = (1 / 4) by norm_num]
    exact f64_fix _ 1 (-2) (by norm_num) (by norm_num) (by norm_num)
  rw [e2]
  have e3 : f32 (1 / 4) = (1 / 4) := by
    exact f32_fix _ 1 (-2) (by norm_num) (by norm_num) (by norm_num)
  rw [e3]
  norm_num

theorem st_rackY_zero :
    f32 (jsMul (jsSub 0 (jsLit 0.5)) (jsLit 2.5)) = -1.25 := by
  simp only [fround, jsAdd, jsSub, jsMul, jsLit]
  have e0 : f64 0.5 = (1 / 2) := by
    rw [show (0.5 : ℚ) = (1 / 2) by norm_num]
    exact f64_fix _ 1 (-1) (by norm_num) (by norm_num) (by norm_num)
  rw [e0]
  have e1 : f64 (0 - (1 / 2)) = -(1 / 2) := by
    rw [show (0 - (1 / 2) : ℚ) = -(1 / 2) by norm_num, f64_neg]
    exact neg_inj.mpr (f64_fix _ 1 (-1) (by norm_num) (by norm_num) (by norm_num))
  rw [e1]
  have e2 : f64 2.5 = (5 / 2) := by
    rw [show (2.5 : ℚ) = (5 / 2) by norm_num]
    exact f64_fix _ 5 (-1) (by norm_num) (by norm_num) (by norm_num)
  rw [e2]
  have e3 : f64 ((-(1 / 2)) * (5 / 2)) = -(5 / 4) := by
    rw [show ((-(1 / 2)) * (5 / 2) : ℚ) = -(5 / 4) by norm_num, f64_neg]
    exact neg_inj.mpr (f64_fix _ 5 (-2) (by norm_num) (by norm_num) (by norm_num))
  rw [e3]
  have e4 : f32 (-(5 / 4)) = -(5 / 4) := by
    rw [f32_neg]
    exact neg_inj.mpr (f32_fix _ 5 (-2) (by norm_num) (by norm_num) (by norm_num))
  rw [e4]
  norm_num

theorem st_rackY_one :
    f32 (jsMul (jsSub 1 (jsLit 0.5)) (jsLit 2.5)) = 1.25 := by
  simp only [fround, jsAdd, jsSub, jsMul, jsLit]
  have e0 : f64 0.5 = (1 / 2) := by
    rw [show (0.5 : ℚ) = (1 / 2) by norm_num]
    exact f64_fix _ 1 (-1) (by norm_num) (by norm_num) (by norm_num)
  rw [e0]
  have e1 : f64 (1 - (1 / 2)) = (1 / 2) := by
    rw [show (1 - (1 / 2) : ℚ) = (1 / 2) by norm_num]
    exact f64_fix _ 1 (-1) (by norm_num) (by norm_num) (by norm_num)
  rw [e1]
  have e2 : f64 2.5 = (5 / 2) := by
    rw [show (2.5 : ℚ) = (5 / 2) by norm_num]
    exact f64_fix _ 5 (-1) (by norm_num) (by norm_num) (by norm_num)
  rw [e2]
  have e3 : f64 ((1 / 2) * (5 / 2)) = (5 / 4) := by
    rw [show ((1 / 2) * (5 / 2) : ℚ) = (5 / 4) by norm_num]
    exact f64_fix _ 5 (-2) (by norm_num) (by norm_num) (by norm_num)
  rw [e3]
  have e4 : f32 (5 / 4) = (5 / 4) := by
    exact f32_fix _ 5 (-2) (by norm_num) (by norm_num) (by norm_num)
  rw [e4]
  norm_num

theorem st_rackZ_zero :
    f32 (-(jsAdd (jsSub 0 (jsLit 0.5)) (jsLit 0.8))) = -fround 0.3 := by
  rw [fround_0_3]
  simp only [fround, jsAdd, jsSub, jsMul, jsLit]
  have e0 : f64 0.5 = (1 / 2) := by
    rw [show (0.5 : ℚ) = (1 / 2) by norm_num]
    exact f64_fix _ 1 (-1) (by norm_num) (by norm_num) (by norm_num)
  rw [e0]
  have e1 : f64 (0 - (1 / 2)) = -(1 / 2) := by
    rw [show (0 - (1 / 2) : ℚ) = -(1 / 2) by norm_num, f64_neg]
    exact neg_inj.mpr (f64_fix _ 1 (-1) (by norm_num) (by norm_num) (by norm_num))
  rw [e1]
  have e2 : f64 0.8 = (3602879701896397 / 4503599627370496) := by
    rw [show (0.8 : ℚ) = (4 / 5) by norm_num]
    exact f64_eval _ _ (-1) 7205759403792794 (by norm_num) (by norm_num) (by norm_num) (Or.inl (by
      norm_num [abs_lt])) (by norm_num)
  rw [e2]
  have e3 : f64 ((-(1 / 2)) + (3602879701896397 / 4503599627370496)) = (1351079888211149 /
    4503599627370496) := by
    rw [show ((-(1 / 2)) + (3602879701896397 / 4503599627370496) : ℚ) = (1351079888211149 /
      4503599627370496) by norm_num]
    exact f64_fix _ 1351079888211149 (-52) (by norm_num) (by norm_num) (by norm_num)
  rw [e3]
  have e4 : f32 (-(1351079888211149 / 4503599627370496)) = -(5033165 / 16777216) := by
    rw [f32_neg]
    exact neg_inj.mpr (f32_eval _ _ (-2) 10066330 (by norm_num) (by norm_num) (by norm_num) (Or.inl
      (by norm_num [abs_lt])) (by norm_num))
  rw [e4]

theorem st_rackZ_one :
    f32 (-(jsAdd (jsSub 1 (jsLit 0.5)) (jsLit 0.8))) = -fround 1.3 := by
  rw [fround_1_3]
  simp only [fround, jsAdd, jsSub, jsMul, jsLit]
  have e0 : f64 0.5 = (1 / 2) := by
    rw [show (0.5 : ℚ) = (1 / 2) by norm_num]
    exact f64_fix _ 1 (-1) (by norm_num) (by norm_num) (by norm_num)
  rw [e0]
  have e1 : f64 (1 - (1 / 2)) = (1 / 2) := by
    rw [show (1 - (1 / 2) : ℚ) = (1 / 2) by norm_num]
    exact f64_fix _ 1 (-1) (by norm_num) (by norm_num) (by norm_num)
  rw [e1]
  have e2 : f64 0.8 = (3602879701896397 / 4503599627370496) := by
    rw [show (0.8 : ℚ) = (4 / 5) by norm_num]
    exact f64_eval _ _ (-1) 7205759403792794 (by norm_num) (by norm_num) (by norm_num) (Or.inl (by
      norm_num [abs_lt])) (by norm_num)
  rw [e2]
  have e3 : f64 ((1 / 2) + (3602879701896397 / 4503599627370496)) = (5854679515581645 /
    4503599627370496) := by
    rw [show ((1 / 2) + (3602879701896397 / 4503599627370496) : ℚ) = (5854679515581645 /
      4503599627370496) by norm_num]
    exact f64_fix _ 5854679515581645 (-52) (by norm_num) (by norm_num) (by norm_num)
  rw [e3]
  have e4 : f32 (-(5854679515581645 / 4503599627370496)) = -(5452595 / 4194304) := by
    rw [f32_neg]
    exact neg_inj.mpr (f32_eval _ _ (0) 10905190 (by norm_num) (by norm_num) (by norm_num) (Or.inl
      (by norm_num [abs_lt])) (by norm_num))
  rw [e4]

theorem st_rackVx_zero :
    f32 (jsMul (jsMul (jsSub 0 (jsLit 0.5)) (jsLit 0.001)) accelerationFactor) = -fround 0.00125 :=
      by
  rw [fround_0_00125]
  simp only [fround, accelerationFactor, jsAdd, jsSub, jsMul, jsLit]
  have e0 : f64 0.5 = (1 / 2) := by
    rw [show (0.5 : ℚ) = (1 / 2) by norm_num]
    exact f64_fix _ 1 (-1) (by norm_num) (by norm_num) (by norm_num)
  rw [e0]
  have e1 : f64 (0 - (1 / 2)) = -(1 / 2) := by
    rw [show (0 - (1 / 2) : ℚ) = -(1 / 2) by norm_num, f64_neg]
    exact neg_inj.mpr (f64_fix _ 1 (-1) (by norm_num) (by norm_num) (by norm_num))
  rw [e1]
  have e2 : f64 0.001 = (1152921504606847 / 1152921504606846976) := by
    rw [show (0.001 : ℚ) = (1 / 1000) by norm_num]
    exact f64_eval _ _ (-10) 4611686018427388 (by norm_num) (by norm_num) (by norm_num) (Or.inl (by
      norm_num [abs_lt])) (by norm_num)
  rw [e2]
  have e3 : f64 ((-(1 / 2)) * (1152921504606847 / 1152921504606846976)) = -(1152921504606847 /
    2305843009213693952) := by
    rw [show ((-(1 / 2)) * (1152921504606847 / 1152921504606846976) : ℚ) = -(1152921504606847 /
      2305843009213693952) by norm_num, f64_neg]
    exact neg_inj.mpr (f64_fix _ 1152921504606847 (-61) (by norm_num) (by norm_num) (by norm_num))
  rw [e3]
  have e4 : f64 2.5 = (5 / 2) := by
    rw [show (2.5 : ℚ) = (5 / 2) by norm_num]
    exact f64_fix _ 5 (-1) (by norm_num) (by norm_num) (by norm_num)
  rw [e4]
  have e5 : f64 ((-(1152921504606847 / 2305843009213693952)) * (5 / 2)) = -(5764607523034235 /
    4611686018427387904) := by
    rw [show ((-(1152921504606847 / 2305843009213693952)) * (5 / 2) : ℚ) = -(5764607523034235 /
      4611686018427387904) by norm_num, f64_neg]
    exact neg_inj.mpr (f64_fix _ 5764607523034235 (-62) (by norm_num) (by norm_num) (by norm_num))
  rw [e5]
  have e6 : f32 (-(5764607523034235 / 4611686018427387904)) = -(5368709 / 4294967296) := by
    rw [f32_neg]
    exact neg_inj.mpr (f32_eval _ _ (-10) 10737418 (by norm_num) (by norm_num) (by norm_num)
      (Or.inl (by norm_num [abs_lt])) (by norm_num))
  rw [e6]

theorem st_rackVx_one :
    f32 (jsMul (jsMul (jsSub 1 (jsLit 0.5)) (jsLit 0.001)) accelerationFactor) = fround 0.00125 :=
      by
  rw [fround_0_00125]
  simp only [fround, accelerationFactor, jsAdd, jsSub, jsMul, jsLit]
  have e0 : f64 0.5 = (1 / 2) := by
    rw [show (0.5 : ℚ) = (1 / 2) by norm_num]
    exact f64_fix _ 1 (-1) (by norm_num) (by norm_num) (by norm_num)
  rw [e0]
  have e1 : f64 (1 - (1 / 2)) = (1 / 2) := by
    rw [show (1 - (1 / 2) : ℚ) = (1 / 2) by norm_num]
    exact f64_fix _ 1 (-1) (by norm_num) (by norm_num) (by norm_num)
  rw [e1]
  have e2 : f64 0.001 = (1152921504606847 / 1152921504606846976) := by
    rw [show (0.001 : ℚ) = (1 / 1000) by norm_num]
    exact f64_eval _ _ (-10) 4611686018427388 (by norm_num) (by norm_num) (by norm_num) (Or.inl (by
      norm_num [abs_lt])) (by norm_num)
  rw [e2]
  have e3 : f64 ((1 / 2) * (1152921504606847 / 1152921504606846976)) = (1152921504606847 /
    2305843009213693952) := by
    rw [show ((1 / 2) * (1152921504606847 / 1152921504606846976) : ℚ) = (1152921504606847 /
      2305843009213693952) by norm_num]
    exact f64_fix _ 1152921504606847 (-61) (by norm_num) (by norm_num) (by norm_num)
  rw [e3]
  have e4 : f64 2.5 = (5 / 2) := by
    rw [show (2.5 : ℚ) = (5 / 2) by norm_num]
    exact f64_fix _ 5 (-1) (by norm_num) (by norm_num) (by norm_num)
  rw [e4]
  have e5 : f64 ((1152921504606847 / 2305843009213693952) * (5 / 2)) = (5764607523034235 /
    4611686018427387904) := by
    rw [show ((1152921504606847 / 2305843009213693952) * (5 / 2) : ℚ) = (5764607523034235 /
      4611686018427387904) by norm_num]
    exact f64_fix _ 5764607523034235 (-62) (by norm_num) (by norm_num) (by norm_num)
  rw [e5]
  have e6 : f32 (5764607523034235 / 4611686018427387904) = (5368709 / 4294967296) := by
    exact f32_eval _ _ (-10) 10737418 (by norm_num) (by norm_num) (by norm_num) (Or.inl (by
      norm_num [abs_lt])) (by norm_num)
  rw [e6]

theorem st_rackVy_zero :
    f32 (jsMul (jsAdd (jsMul (jsSub 0 (jsLit 0.5)) (jsLit 0.001)) (jsLit 0.001))
      accelerationFactor) = fround 0.00125 := by
  rw [fround_0_00125]
  simp only [fround, accelerationFactor, jsAdd, jsSub, jsMul, jsLit]
  have e0 : f64 0.5 = (1 / 2) := by
    rw [show (0.5 : ℚ) = (1 / 2) by norm_num]
    exact f64_fix _ 1 (-1) (by norm_num) (by norm_num) (by norm_num)
  rw [e0]
  have e1 : f64 (0 - (1 / 2)) = -(1 / 2) := by
    rw [show (0 - (1 / 2) : ℚ) = -(1 / 2) by norm_num, f64_neg]
    exact neg_inj.mpr (f64_fix _ 1 (-1) (by norm_num) (by norm_num) (by norm_num))
  rw [e1]
  have e2 : f64 0.001 = (1152921504606847 / 1152921504606846976) := by
    rw [show (0.001 : ℚ) = (1 / 1000) by norm_num]
    exact f64_eval _ _ (-10) 4611686018427388 (by norm_num) (by norm_num) (by norm_num) (Or.inl (by
      norm_num [abs_lt])) (by norm_num)
  rw [e2]
  have e3 : f64 ((-(1 / 2)) * (1152921504606847 / 1152921504606846976)) = -(1152921504606847 /
    2305843009213693952) := by
    rw [show ((-(1 / 2)) * (1152921504606847 / 1152921504606846976) : ℚ) = -(1152921504606847 /
      2305843009213693952) by norm_num, f64_neg]
    exact neg_inj.mpr (f64_fix _ 1152921504606847 (-61) (by norm_num) (by norm_num) (by norm_num))
  rw [e3]
  have e4 : f64 ((-(1152921504606847 / 2305843009213693952)) + (1152921504606847 /
    1152921504606846976)) = (1152921504606847 / 2305843009213693952) := by
    rw [show ((-(1152921504606847 / 2305843009213693952)) + (1152921504606847 /
      1152921504606846976) : ℚ) = (1152921504606847 / 2305843009213693952) by norm_num]
    exact f64_fix _ 1152921504606847 (-61) (by norm_num) (by norm_num) (by norm_num)
  rw [e4]
  have e5 : f64 2.5 = (5 / 2) := by
    rw [show (2.5 : ℚ) = (5 / 2) by norm_num]
    exact f64_fix _ 5 (-1) (by norm_num) (by norm_num) (by norm_num)
  rw [e5]
  have e6 : f64 ((1152921504606847 / 2305843009213693952) * (5 / 2)) = (5764607523034235 /
    4611686018427387904) := by
    rw [show ((1152921504606847 / 2305843009213693952) * (5 / 2) : ℚ) = (5764607523034235 /
      4611686018427387904) by norm_num]
    exact f64_fix _ 5764607523034235 (-62) (by norm_num) (by norm_num) (by norm_num)
  rw [e6]
  have e7 : f32 (5764607523034235 / 4611686018427387904) = (5368709 / 4294967296) := by
    exact f32_eval _ _ (-10) 10737418 (by norm_num) (by norm_num) (by norm_num) (Or.inl (by
      norm_num [abs_lt])) (by norm_num)
  rw [e7]

theorem st_rackVy_one :
    f32 (jsMul (jsAdd (jsMul (jsSub 1 (jsLit 0.5)) (jsLit 0.001)) (jsLit 0.001))
      accelerationFactor) = fround 0.00375 := by
  rw [fround_0_00375]
  simp only [fround, accelerationFactor, jsAdd, jsSub, jsMul, jsLit]
  have e0 : f64 0.5 = (1 / 2) := by
    rw [show (0.5 : ℚ) = (1 / 2) by norm_num]
    exact f64_fix _ 1 (-1) (by norm_num) (by norm_num) (by norm_num)
  rw [e0]
  have e1 : f64 (1 - (1 / 2)) = (1 / 2) := by
    rw [show (1 - (1 / 2) : ℚ) = (1 / 2) by norm_num]
    exact f64_fix _ 1 (-1) (by norm_num) (by norm_num) (by norm_num)
  rw [e1]
  have e2 : f64 0.001 = (1152921504606847 / 1152921504606846976) := by
    rw [show (0.001 : ℚ) = (1 / 1000) by norm_num]
    exact f64_eval _ _ (-10) 4611686018427388 (by norm_num) (by norm_num) (by norm_num) (Or.inl (by
      norm_num [abs_lt])) (by norm_num)
  rw [e2]
  have e3 : f64 ((1 / 2) * (1152921504606847 / 1152921504606846976)) = (1152921504606847 /
    2305843009213693952) := by
    rw [show ((1 / 2) * (1152921504606847 / 1152921504606846976) : ℚ) = (1152921504606847 /
      2305843009213693952) by norm_num]
    exact f64_fix _ 1152921504606847 (-61) (by norm_num) (by norm_num) (by norm_num)
  rw [e3]
  have e4 : f64 ((1152921504606847 / 2305843009213693952) + (1152921504606847 /
    1152921504606846976)) = (3458764513820541 / 2305843009213693952) := by
    rw [show ((1152921504606847 / 2305843009213693952) + (1152921504606847 / 1152921504606846976) :
      ℚ) = (3458764513820541 / 2305843009213693952) by norm_num]
    exact f64_fix _ 3458764513820541 (-61) (by norm_num) (by norm_num) (by norm_num)
  rw [e4]
  have e5 : f64 2.5 = (5 / 2) := by
    rw [show (2.5 : ℚ) = (5 / 2) by norm_num]
    exact f64_fix _ 5 (-1) (by norm_num) (by norm_num) (by norm_num)
  rw [e5]
  have e6 : f64 ((3458764513820541 / 2305843009213693952) * (5 / 2)) = (1080863910568919 /
    288230376151711744) := by
    rw [show ((3458764513820541 / 2305843009213693952) * (5 / 2) : ℚ) = (17293822569102705 /
      4611686018427387904) by norm_num]
    exact f64_eval _ _ (-9) 8646911284551352 (by norm_num) (by norm_num) (by norm_num) (Or.inr ⟨by
      norm_num [abs_le], by decide⟩) (by norm_num)
  rw [e6]
  have e7 : f32 (1080863910568919 / 288230376151711744) = (16106127 / 4294967296) := by
    exact f32_eval _ _ (-9) 16106127 (by norm_num) (by norm_num) (by norm_num) (Or.inl (by norm_num
      [abs_lt])) (by norm_num)
  rw [e7]

theorem st_rackVz_zero :
    f32 (jsMul (-(jsAdd (jsMul 0 (jsLit 0.001)) (jsLit 0.001))) accelerationFactor) = -fround
      0.0025 := by
  rw [fround_0_0025]
  simp only [fround, accelerationFactor, jsAdd, jsSub, jsMul, jsLit]
  have e0 : f64 0.001 = (1152921504606847 / 1152921504606846976) := by
    rw [show (0.001 : ℚ) = (1 / 1000) by norm_num]
    exact f64_eval _ _ (-10) 4611686018427388 (by norm_num) (by norm_num) (by norm_num) (Or.inl (by
      norm_num [abs_lt])) (by norm_num)
  rw [e0]
  have e1 : f64 (0 * (1152921504606847 / 1152921504606846976)) = 0 := by
    rw [show (0 * (1152921504606847 / 1152921504606846976) : ℚ) = 0 by norm_num, f64_zero]
  rw [e1]
  have e2 : f64 (0 + (1152921504606847 / 1152921504606846976)) = (1152921504606847 /
    1152921504606846976) := by
    rw [show (0 + (1152921504606847 / 1152921504606846976) : ℚ) = (1152921504606847 /
      1152921504606846976) by norm_num]
    exact f64_fix _ 1152921504606847 (-60) (by norm_num) (by norm_num) (by norm_num)
  rw [e2]
  have e3 : f64 2.5 = (5 / 2) := by
    rw [show (2.5 : ℚ) = (5 / 2) by norm_num]
    exact f64_fix _ 5 (-1) (by norm_num) (by norm_num) (by norm_num)
  rw [e3]
  have e4 : f64 ((-(1152921504606847 / 1152921504606846976)) * (5 / 2)) = -(5764607523034235 /
    2305843009213693952) := by
    rw [show ((-(1152921504606847 / 1152921504606846976)) * (5 / 2) : ℚ) = -(5764607523034235 /
      2305843009213693952) by norm_num, f64_neg]
    exact neg_inj.mpr (f64_fix _ 5764607523034235 (-61) (by norm_num) (by norm_num) (by norm_num))
  rw [e4]
  have e5 : f32 (-(5764607523034235 / 2305843009213693952)) = -(5368709 / 2147483648) := by
    rw [f32_neg]
    exact neg_inj.mpr (f32_eval _ _ (-9) 10737418 (by norm_num) (by norm_num) (by norm_num) (Or.inl
      (by norm_num [abs_lt])) (by norm_num))
  rw [e5]

theorem st_rackVz_one :
    f32 (jsMul (-(jsAdd (jsMul 1 (jsLit 0.001)) (jsLit 0.001))) accelerationFactor) = -fround 0.005
      := by
  rw [fround_0_005]
  simp only [fround, accelerationFactor, jsAdd, jsSub, jsMul, jsLit]
  have e0 : f64 0.001 = (1152921504606847 / 1152921504606846976) := by
    rw [show (0.001 : ℚ) = (1 / 1000) by norm_num]
    exact f64_eval _ _ (-10) 4611686018427388 (by norm_num) (by norm_num) (by norm_num) (Or.inl (by
      norm_num [abs_lt])) (by norm_num)
  rw [e0]
  have e1 : f64 (1 * (1152921504606847 / 1152921504606846976)) = (1152921504606847 /
    1152921504606846976) := by
    rw [show (1 * (1152921504606847 / 1152921504606846976) : ℚ) = (1152921504606847 /
      1152921504606846976) by norm_num]
    exact f64_fix _ 1152921504606847 (-60) (by norm_num) (by norm_num) (by norm_num)
  rw [e1]
  have e2 : f64 ((1152921504606847 / 1152921504606846976) + (1152921504606847 /
    1152921504606846976)) = (1152921504606847 / 576460752303423488) := by
    rw [show ((1152921504606847 / 1152921504606846976) + (1152921504606847 / 1152921504606846976) :
      ℚ) = (1152921504606847 / 576460752303423488) by norm_num]
    exact f64_fix _ 1152921504606847 (-59) (by norm_num) (by norm_num) (by norm_num)
  rw [e2]
  have e3 : f64 2.5 = (5 / 2) := by
    rw [show (2.5 : ℚ) = (5 / 2) by norm_num]
    exact f64_fix _ 5 (-1) (by norm_num) (by norm_num) (by norm_num)
  rw [e3]
  have e4 : f64 ((-(1152921504606847 / 576460752303423488)) * (5 / 2)) = -(5764607523034235 /
    1152921504606846976) := by
    rw [show ((-(1152921504606847 / 576460752303423488)) * (5 / 2) : ℚ) = -(5764607523034235 /
      1152921504606846976) by norm_num, f64_neg]
    exact neg_inj.mpr (f64_fix _ 5764607523034235 (-60) (by norm_num) (by norm_num) (by norm_num))
  rw [e4]
  have e5 : f32 (-(5764607523034235 / 1152921504606846976)) = -(5368709 / 1073741824) := by
    rw [f32_neg]
    exact neg_inj.mpr (f32_eval _ _ (-8) 10737418 (by norm_num) (by norm_num) (by norm_num) (Or.inl
      (by norm_num [abs_lt])) (by norm_num))
  rw [e5]

theorem st_spawnAge_top :
    f32 (jsMul (1 - 1 / 2 ^ 52) 1000) = 1000 := by
  simp only [fround, jsAdd, jsSub, jsMul, jsLit]
  have e0 : f64 ((1 - 1 / 2 ^ 52) * 1000) = (4398046511103999 / 4398046511104) := by
    rw [show ((1 - 1 / 2 ^ 52) * 1000 : ℚ) = (562949953421311875 / 562949953421312) by norm_num]
    exact f64_eval _ _ (9) 8796093022207998 (by norm_num) (by norm_num) (by norm_num) (Or.inl (by
      norm_num [abs_lt])) (by norm_num)
  rw [e0]
  have e1 : f32 (4398046511103999 / 4398046511104) = 1000 := by
    exact f32_eval _ _ (9) 16384000 (by norm_num) (by norm_num) (by norm_num) (Or.inl (by norm_num
      [abs_lt])) (by norm_num)
  rw [e1]

theorem st_spawnMaxAge_top :
    f32 (jsAdd 1000 (jsMul (1 - 1 / 2 ^ 52) 500)) = 1500 := by
  simp only [fround, jsAdd, jsSub, jsMul, jsLit]
  have e0 : f64 ((1 - 1 / 2 ^ 52) * 500) = (4398046511103999 / 8796093022208) := by
    rw [show ((1 - 1 / 2 ^ 52) * 500 : ℚ) = (562949953421311875 / 1125899906842624) by norm_num]
    exact f64_eval _ _ (8) 8796093022207998 (by norm_num) (by norm_num) (by norm_num) (Or.inl (by
      norm_num [abs_lt])) (by norm_num)
  rw [e0]
  have e1 : f64 (1000 + (4398046511103999 / 8796093022208)) = 1500 := by
    rw [show (1000 + (4398046511103999 / 8796093022208) : ℚ) = (13194139533311999 / 8796093022208)
      by norm_num]
    exact f64_eval _ _ (10) 6597069766656000 (by norm_num) (by norm_num) (by norm_num) (Or.inr ⟨by
      norm_num [abs_le], by decide⟩) (by norm_num)
  rw [e1]
  have e2 : f32 1500 = 1500 := by
    exact f32_fix _ 375 (2) (by norm_num) (by norm_num) (by norm_num)
  rw [e2]

theorem st_coolerY_top :
    f32 (jsAdd (jsMul (jsSub (1 - 1 / 2 ^ 52) (jsLit 0.5)) (jsLit 0.2)) 20) = (10538189 / 524288)
      := by
  simp only [fround, jsAdd, jsSub, jsMul, jsLit]
  have e0 : f64 0.5 = (1 / 2) := by
    rw [show (0.5 : ℚ) = (1 / 2) by norm_num]
    exact f64_fix _ 1 (-1) (by norm_num) (by norm_num) (by norm_num)
  rw [e0]
  have e1 : f64 ((1 - 1 / 2 ^ 52) - (1 / 2)) = (2251799813685247 / 4503599627370496) := by
    rw [show ((1 - 1 / 2 ^ 52) - (1 / 2) : ℚ) = (2251799813685247 / 4503599627370496) by norm_num]
    exact f64_fix _ 2251799813685247 (-52) (by norm_num) (by norm_num) (by norm_num)
  rw [e1]
  have e2 : f64 0.2 = (3602879701896397 / 18014398509481984) := by
    rw [show (0.2 : ℚ) = (1 / 5) by norm_num]
    exact f64_eval _ _ (-3) 7205759403792794 (by norm_num) (by norm_num) (by norm_num) (Or.inl (by
      norm_num [abs_lt])) (by norm_num)
  rw [e2]
  have e3 : f64 ((2251799813685247 / 4503599627370496) * (3602879701896397 / 18014398509481984)) =
    (7205759403792791 / 72057594037927936) := by
    rw [show ((2251799813685247 / 4503599627370496) * (3602879701896397 / 18014398509481984) : ℚ) =
      (8112963841460665017059161355059 / 81129638414606681695789005144064) by norm_num]
    exact f64_eval _ _ (-4) 7205759403792791 (by norm_num) (by norm_num) (by norm_num) (Or.inl (by
      norm_num [abs_lt])) (by norm_num)
  rw [e3]
  have e4 : f64 ((7205759403792791 / 72057594037927936) + 20) = (2828823515942093 /
    140737488355328) := by
    rw [show ((7205759403792791 / 72057594037927936) + 20 : ℚ) = (1448357640162351511 /
      72057594037927936) by norm_num]
    exact f64_eval _ _ (4) 5657647031884186 (by norm_num) (by norm_num) (by norm_num) (Or.inl (by
      norm_num [abs_lt])) (by norm_num)
  rw [e4]
  have e5 : f32 (2828823515942093 / 140737488355328) = (10538189 / 524288) := by
    exact f32_eval _ _ (4) 10538189 (by norm_num) (by norm_num) (by norm_num) (Or.inl (by norm_num
      [abs_lt])) (by norm_num)
  rw [e5]

theorem st_coolerZ_top :
    f32 (jsMul (jsSub (1 - 1 / 2 ^ 52) (jsLit 0.5)) 40) = 20 := by
  simp only [fround, jsAdd, jsSub, jsMul, jsLit]
  have e0 : f64 0.5 = (1 / 2) := by
    rw [show (0.5 : ℚ) = (1 / 2) by norm_num]
    exact f64_fix _ 1 (-1) (by norm_num) (by norm_num) (by norm_num)
  rw [e0]
  have e1 : f64 ((1 - 1 / 2 ^ 52) - (1 / 2)) = (2251799813685247 / 4503599627370496) := by
    rw [show ((1 - 1 / 2 ^ 52) - (1 / 2) : ℚ) = (2251799813685247 / 4503599627370496) by norm_num]
    exact f64_fix _ 2251799813685247 (-52) (by norm_num) (by norm_num) (by norm_num)
  rw [e1]
  have e2 : f64 ((2251799813685247 / 4503599627370496) * 40) = (2814749767106559 / 140737488355328)
    := by
    rw [show ((2251799813685247 / 4503599627370496) * 40 : ℚ) = (11258999068426235 /
      562949953421312) by norm_num]
    exact f64_eval _ _ (4) 5629499534213118 (by norm_num) (by norm_num) (by norm_num) (Or.inr ⟨by
      norm_num [abs_le], by decide⟩) (by norm_num)
  rw [e2]
  have e3 : f32 (2814749767106559 / 140737488355328) = 20 := by
    exact f32_eval _ _ (4) 10485760 (by norm_num) (by norm_num) (by norm_num) (Or.inl (by norm_num
      [abs_lt])) (by norm_num)
  rw [e3]

theorem st_coolerVx_top :
    f32 (jsMul (1 - 1 / 2 ^ 52) 2) = 2 := by
  simp only [fround, jsAdd, jsSub, jsMul, jsLit]
  have e0 : f64 ((1 - 1 / 2 ^ 52) * 2) = (4503599627370495 / 2251799813685248) := by
    rw [show ((1 - 1 / 2 ^ 52) * 2 : ℚ) = (4503599627370495 / 2251799813685248) by norm_num]
    exact f64_fix _ 4503599627370495 (-51) (by norm_num) (by norm_num) (by norm_num)
  rw [e0]
  have e1 : f32 (4503599627370495 / 2251799813685248) = 2 := by
    exact f32_eval _ _ (0) 16777216 (by norm_num) (by norm_num) (by norm_num) (Or.inl (by norm_num
      [abs_lt])) (by norm_num)
  rw [e1]

theorem st_coolerVy_top :
    f32 (-(jsAdd (jsMul (1 - 1 / 2 ^ 52) (jsLit 0.1)) (jsLit 0.1))) = -(13421773 / 67108864) := by
  simp only [fround, jsAdd, jsSub, jsMul, jsLit]
  have e0 : f64 0.1 = (3602879701896397 / 36028797018963968) := by
    rw [show (0.1 : ℚ) = (1 / 10) by norm_num]
    exact f64_eval _ _ (-4) 7205759403792794 (by norm_num) (by norm_num) (by norm_num) (Or.inl (by
      norm_num [abs_lt])) (by norm_num)
  rw [e0]
  have e1 : f64 ((1 - 1 / 2 ^ 52) * (3602879701896397 / 36028797018963968)) = (900719925474099 /
    9007199254740992) := by
    rw [show ((1 - 1 / 2 ^ 52) * (3602879701896397 / 36028797018963968) : ℚ) =
      (16225927682921333636998024606515 / 162259276829213363391578010288128) by norm_num]
    exact f64_eval _ _ (-4) 7205759403792792 (by norm_num) (by norm_num) (by norm_num) (Or.inl (by
      norm_num [abs_lt])) (by norm_num)
  rw [e1]
  have e2 : f64 ((900719925474099 / 9007199254740992) + (3602879701896397 / 36028797018963968)) =
    (7205759403792793 / 36028797018963968) := by
    rw [show ((900719925474099 / 9007199254740992) + (3602879701896397 / 36028797018963968) : ℚ) =
      (7205759403792793 / 36028797018963968) by norm_num]
    exact f64_fix _ 7205759403792793 (-55) (by norm_num) (by norm_num) (by norm_num)
  rw [e2]
  have e3 : f32 (-(7205759403792793 / 36028797018963968)) = -(13421773 / 67108864) := by
    rw [f32_neg]
    exact neg_inj.mpr (f32_eval _ _ (-3) 13421773 (by norm_num) (by norm_num) (by norm_num) (Or.inl
      (by norm_num [abs_lt])) (by norm_num))
  rw [e3]

theorem st_rackX_top :
    f32 (jsMul (jsSub (1 - 1 / 2 ^ 52) (jsLit 0.5)) (jsLit 0.5)) = (1 / 4) := by
  simp only [fround, jsAdd, jsSub, jsMul, jsLit]
  have e0 : f64 0.5 = (1 / 2) := by
    rw [show (0.5 : ℚ) = (1 / 2) by norm_num]
    exact f64_fix _ 1 (-1) (by norm_num) (by norm_num) (by norm_num)
  rw [e0]
  have e1 : f64 ((1 - 1 / 2 ^ 52) - (1 / 2)) = (2251799813685247 / 4503599627370496) := by
    rw [show ((1 - 1 / 2 ^ 52) - (1 / 2) : ℚ) = (2251799813685247 / 4503599627370496) by norm_num]
    exact f64_fix _ 2251799813685247 (-52) (by norm_num) (by norm_num) (by norm_num)
  rw [e1]
  have e2 : f64 ((2251799813685247 / 4503599627370496) * (1 / 2)) = (2251799813685247 /
    9007199254740992) := by
    rw [show ((2251799813685247 / 4503599627370496) * (1 / 2) : ℚ) = (2251799813685247 /
      9007199254740992) by norm_num]
    exact f64_fix _ 2251799813685247 (-53) (by norm_num) (by norm_num) (by norm_num)
  rw [e2]
  have e3 : f32 (2251799813685247 / 9007199254740992) = (1 / 4) := by
    exact f32_eval _ _ (-3) 16777216 (by norm_num) (by norm_num) (by norm_num) (Or.inl (by norm_num
      [abs_lt])) (by norm_num)
  rw [e3]

theorem st_rackY_top :
    f32 (jsMul (jsSub (1 - 1 / 2 ^ 52) (jsLit 0.5)) (jsLit 2.5)) = (5 / 4) := by
  simp only [fround, jsAdd, jsSub, jsMul, jsLit]
  have e0 : f64 0.5 = (1 / 2) := by
    rw [show (0.5 : ℚ) = (1 / 2) by norm_num]
    exact f64_fix _ 1 (-1) (by norm_num) (by norm_num) (by norm_num)
  rw [e0]
  have e1 : f64 ((1 - 1 / 2 ^ 52) - (1 / 2)) = (2251799813685247 / 4503599627370496) := by
    rw [show ((1 - 1 / 2 ^ 52) - (1 / 2) : ℚ) = (2251799813685247 / 4503599627370496) by norm_num]
    exact f64_fix _ 2251799813685247 (-52) (by norm_num) (by norm_num) (by norm_num)
  rw [e1]
  have e2 : f64 2.5 = (5 / 2) := by
    rw [show (2.5 : ℚ) = (5 / 2) by norm_num]
    exact f64_fix _ 5 (-1) (by norm_num) (by norm_num) (by norm_num)
  rw [e2]
  have e3 : f64 ((2251799813685247 / 4503599627370496) * (5 / 2)) = (2814749767106559 /
    2251799813685248) := by
    rw [show ((2251799813685247 / 4503599627370496) * (5 / 2) : ℚ) = (11258999068426235 /
      9007199254740992) by norm_num]
    exact f64_eval _ _ (0) 5629499534213118 (by norm_num) (by norm_num) (by norm_num) (Or.inr ⟨by
      norm_num [abs_le], by decide⟩) (by norm_num)
  rw [e3]
  have e4 : f32 (2814749767106559 / 2251799813685248) = (5 / 4) := by
    exact f32_eval _ _ (0) 10485760 (by norm_num) (by norm_num) (by norm_num) (Or.inl (by norm_num
      [abs_lt])) (by norm_num)
  rw [e4]

theorem st_increment_tie :
    f32 (jsAdd (5033165 / 16777216) 1) = (5452595 / 4194304) := by
  simp only [fround, jsAdd, jsSub, jsMul, jsLit]
  have e0 : f64 ((5033165 / 16777216) + 1) = (21810381 / 16777216) := by
    rw [show ((5033165 / 16777216) + 1 : ℚ) = (21810381 / 16777216) by norm_num]
    exact f64_fix _ 21810381 (-24) (by norm_num) (by norm_num) (by norm_num)
  rw [e0]
  have e1 : f32 (21810381 / 16777216) = (5452595 / 4194304) := by
    exact f32_eval _ _ (0) 10905190 (by norm_num) (by norm_num) (by norm_num) (Or.inr ⟨by norm_num
      [abs_le], by decide⟩) (by norm_num)
  rw [e1]

theorem st_turbulence_one :
    f32 (jsAdd 1 (jsMul (jsSub 0 (jsLit 0.5)) (jsLit 0.001))) = (16768827 / 16777216) := by
  simp only [fround, jsAdd, jsSub, jsMul, jsLit]
  have e0 : f64 0.5 = (1 / 2) := by
    rw [show (0.5 : ℚ) = (1 / 2) by norm_num]
    exact f64_fix _ 1 (-1) (by norm_num) (by norm_num) (by norm_num)
  rw [e0]
  have e1 : f64 (0 - (1 / 2)) = -(1 / 2) := by
    rw [show (0 - (1 / 2) : ℚ) = -(1 / 2) by norm_num, f64_neg]
    exact neg_inj.mpr (f64_fix _ 1 (-1) (by norm_num) (by norm_num) (by norm_num))
  rw [e1]
  have e2 : f64 0.001 = (1152921504606847 / 1152921504606846976) := by
    rw [show (0.001 : ℚ) = (1 / 1000) by norm_num]
    exact f64_eval _ _ (-10) 4611686018427388 (by norm_num) (by norm_num) (by norm_num) (Or.inl (by
      norm_num [abs_lt])) (by norm_num)
  rw [e2]
  have e3 : f64 ((-(1 / 2)) * (1152921504606847 / 1152921504606846976)) = -(1152921504606847 /
    2305843009213693952) := by
    rw [show ((-(1 / 2)) * (1152921504606847 / 1152921504606846976) : ℚ) = -(1152921504606847 /
      2305843009213693952) by norm_num, f64_neg]
    exact neg_inj.mpr (f64_fix _ 1152921504606847 (-61) (by norm_num) (by norm_num) (by norm_num))
  rw [e3]
  have e4 : f64 (1 + (-(1152921504606847 / 2305843009213693952))) = (4501347827556811 /
    4503599627370496) := by
    rw [show (1 + (-(1152921504606847 / 2305843009213693952)) : ℚ) = (2304690087709087105 /
      2305843009213693952) by norm_num]
    exact f64_eval _ _ (-1) 9002695655113622 (by norm_num) (by norm_num) (by norm_num) (Or.inl (by
      norm_num [abs_lt])) (by norm_num)
  rw [e4]
  have e5 : f32 (4501347827556811 / 4503599627370496) = (16768827 / 16777216) := by
    exact f32_eval _ _ (-1) 16768827 (by norm_num) (by norm_num) (by norm_num) (Or.inl (by norm_num
      [abs_lt])) (by norm_num)
  rw [e5]

theorem st_turbulenceX_zero :
    jsMul (jsSub 0 (jsLit 0.5)) (jsLit 0.001) = -(1152921504606847 / 2305843009213693952) := by
  simp only [fround, jsAdd, jsSub, jsMul, jsLit]
  have e0 : f64 0.5 = (1 / 2) := by
    rw [show (0.5 : ℚ) = (1 / 2) by norm_num]
    exact f64_fix _ 1 (-1) (by norm_num) (by norm_num) (by norm_num)
  rw [e0]
  have e1 : f64 (0 - (1 / 2)) = -(1 / 2) := by
    rw [show (0 - (1 / 2) : ℚ) = -(1 / 2) by norm_num, f64_neg]
    exact neg_inj.mpr (f64_fix _ 1 (-1) (by norm_num) (by norm_num) (by norm_num))
  rw [e1]
  have e2 : f64 0.001 = (1152921504606847 / 1152921504606846976) := by
    rw [show (0.001 : ℚ) = (1 / 1000) by norm_num]
    exact f64_eval _ _ (-10) 4611686018427388 (by norm_num) (by norm_num) (by norm_num) (Or.inl (by
      norm_num [abs_lt])) (by norm_num)
  rw [e2]
  have e3 : f64 ((-(1 / 2)) * (1152921504606847 / 1152921504606846976)) = -(1152921504606847 /
    2305843009213693952) := by
    rw [show ((-(1 / 2)) * (1152921504606847 / 1152921504606846976) : ℚ) = -(1152921504606847 /
      2305843009213693952) by norm_num, f64_neg]
    exact neg_inj.mpr (f64_fix _ 1152921504606847 (-61) (by norm_num) (by norm_num) (by norm_num))
  rw [e3]

theorem st_turbulenceX_one :
    jsMul (jsSub 1 (jsLit 0.5)) (jsLit 0.001) = (1152921504606847 / 2305843009213693952) := by
  simp only [fround, jsAdd, jsSub, jsMul, jsLit]
  have e0 : f64 0.5 = (1 / 2) := by
    rw [show (0.5 : ℚ) = (1 / 2) by norm_num]
    exact f64_fix _ 1 (-1) (by norm_num) (by norm_num) (by norm_num)
  rw [e0]
  have e1 : f64 (1 - (1 / 2)) = (1 / 2) := by
    rw [show (1 - (1 / 2) : ℚ) = (1 / 2) by norm_num]
    exact f64_fix _ 1 (-1) (by norm_num) (by norm_num) (by norm_num)
  rw [e1]
  have e2 : f64 0.001 = (1152921504606847 / 1152921504606846976) := by
    rw [show (0.001 : ℚ) = (1 / 1000) by norm_num]
    exact f64_eval _ _ (-10) 4611686018427388 (by norm_num) (by norm_num) (by norm_num) (Or.inl (by
      norm_num [abs_lt])) (by norm_num)
  rw [e2]
  have e3 : f64 ((1 / 2) * (1152921504606847 / 1152921504606846976)) = (1152921504606847 /
    2305843009213693952) := by
    rw [show ((1 / 2) * (1152921504606847 / 1152921504606846976) : ℚ) = (1152921504606847 /
      2305843009213693952) by norm_num]
    exact f64_fix _ 1152921504606847 (-61) (by norm_num) (by norm_num) (by norm_num)
  rw [e3]

theorem st_turbulenceY_zero :
    jsMul (jsSub 0 (jsLit 0.5)) (jsLit 0.01) = -(5764607523034235 / 1152921504606846976) := by
  simp only [fround, jsAdd, jsSub, jsMul, jsLit]
  have e0 : f64 0.5 = (1 / 2) := by
    rw [show (0.5 : ℚ) = (1 / 2) by norm_num]
    exact f64_fix _ 1 (-1) (by norm_num) (by norm_num) (by norm_num)
  rw [e0]
  have e1 : f64 (0 - (1 / 2)) = -(1 / 2) := by
    rw [show (0 - (1 / 2) : ℚ) = -(1 / 2) by norm_num, f64_neg]
    exact neg_inj.mpr (f64_fix _ 1 (-1) (by norm_num) (by norm_num) (by norm_num))
  rw [e1]
  have e2 : f64 0.01 = (5764607523034235 / 576460752303423488) := by
    rw [show (0.01 : ℚ) = (1 / 100) by norm_num]
    exact f64_eval _ _ (-7) 5764607523034235 (by norm_num) (by norm_num) (by norm_num) (Or.inl (by
      norm_num [abs_lt])) (by norm_num)
  rw [e2]
  have e3 : f64 ((-(1 / 2)) * (5764607523034235 / 576460752303423488)) = -(5764607523034235 /
    1152921504606846976) := by
    rw [show ((-(1 / 2)) * (5764607523034235 / 576460752303423488) : ℚ) = -(5764607523034235 /
      1152921504606846976) by norm_num, f64_neg]
    exact neg_inj.mpr (f64_fix _ 5764607523034235 (-60) (by norm_num) (by norm_num) (by norm_num))
  rw [e3]

theorem st_turbulenceY_one :
    jsMul (jsSub 1 (jsLit 0.5)) (jsLit 0.01) = (5764607523034235 / 1152921504606846976) := by
  simp only [fround, jsAdd, jsSub, jsMul, jsLit]
  have e0 : f64 0.5 = (1 / 2) := by
    rw [show (0.5 : ℚ) = (1 / 2) by norm_num]
    exact f64_fix _ 1 (-1) (by norm_num) (by norm_num) (by norm_num)
  rw [e0]
  have e1 : f64 (1 - (1 / 2)) = (1 / 2) := by
    rw [show (1 - (1 / 2) : ℚ) = (1 / 2) by norm_num]
    exact f64_fix _ 1 (-1) (by norm_num) (by norm_num) (by norm_num)
  rw [e1]
  have e2 : f64 0.01 = (5764607523034235 / 576460752303423488) := by
    rw [show (0.01 : ℚ) = (1 / 100) by norm_num]
    exact f64_eval _ _ (-7) 5764607523034235 (by norm_num) (by norm_num) (by norm_num) (Or.inl (by
      norm_num [abs_lt])) (by norm_num)
  rw [e2]
  have e3 : f64 ((1 / 2) * (5764607523034235 / 576460752303423488)) = (5764607523034235 /
    1152921504606846976) := by
    rw [show ((1 / 2) * (5764607523034235 / 576460752303423488) : ℚ) = (5764607523034235 /
      1152921504606846976) by norm_num]
    exact f64_fix _ 5764607523034235 (-60) (by norm_num) (by norm_num) (by norm_num)
  rw [e3]

theorem st_turbulenceZ_zero :
    jsMul (jsSub 0 (jsLit 0.5)) (jsLit 0.02) = -(5764607523034235 / 576460752303423488) := by
  simp only [fround, jsAdd, jsSub, jsMul, jsLit]
  have e0 : f64 0.5 = (1 / 2) := by
    rw [show (0.5 : ℚ) = (1 / 2) by norm_num]
    exact f64_fix _ 1 (-1) (by norm_num) (by norm_num) (by norm_num)
  rw [e0]
  have e1 : f64 (0 - (1 / 2)) = -(1 / 2) := by
    rw [show (0 - (1 / 2) : ℚ) = -(1 / 2) by norm_num, f64_neg]
    exact neg_inj.mpr (f64_fix _ 1 (-1) (by norm_num) (by norm_num) (by norm_num))
  rw [e1]
  have e2 : f64 0.02 = (5764607523034235 / 288230376151711744) := by
    rw [show (0.02 : ℚ) = (1 / 50) by norm_num]
    exact f64_eval _ _ (-6) 5764607523034235 (by norm_num) (by norm_num) (by norm_num) (Or.inl (by
      norm_num [abs_lt])) (by norm_num)
  rw [e2]
  have e3 : f64 ((-(1 / 2)) * (5764607523034235 / 288230376151711744)) = -(5764607523034235 /
    576460752303423488) := by
    rw [show ((-(1 / 2)) * (5764607523034235 / 288230376151711744) : ℚ) = -(5764607523034235 /
      576460752303423488) by norm_num, f64_neg]
    exact neg_inj.mpr (f64_fix _ 5764607523034235 (-59) (by norm_num) (by norm_num) (by norm_num))
  rw [e3]

theorem st_turbulenceZ_one :
    jsMul (jsSub 1 (jsLit 0.5)) (jsLit 0.02) = (5764607523034235 / 576460752303423488) := by
  simp only [fround, jsAdd, jsSub, jsMul, jsLit]
  have e0 : f64 0.5 = (1 / 2) := by
    rw [show (0.5 : ℚ) = (1 / 2) by norm_num]
    exact f64_fix _ 1 (-1) (by norm_num) (by norm_num) (by norm_num)
  rw [e0]
  have e1 : f64 (1 - (1 / 2)) = (1 / 2) := by
    rw [show (1 - (1 / 2) : ℚ) = (1 / 2) by norm_num]
    exact f64_fix _ 1 (-1) (by norm_num) (by norm_num) (by norm_num)
  rw [e1]
  have e2 : f64 0.02 = (5764607523034235 / 288230376151711744) := by
    rw [show (0.02 : ℚ) = (1 / 50) by norm_num]
    exact f64_eval _ _ (-6) 5764607523034235 (by norm_num) (by norm_num) (by norm_num) (Or.inl (by
      norm_num [abs_lt])) (by norm_num)
  rw [e2]
  have e3 : f64 ((1 / 2) * (5764607523034235 / 288230376151711744)) = (5764607523034235 /
    576460752303423488) := by
    rw [show ((1 / 2) * (5764607523034235 / 288230376151711744) : ℚ) = (5764607523034235 /
      576460752303423488) by norm_num]
    exact f64_fix _ 5764607523034235 (-59) (by norm_num) (by norm_num) (by norm_num)
  rw [e3]

end Stored

/-! ## Monotonicity of the JavaScript operations -/

theorem jsLit_nonneg (x : ℚ) (h : 0 ≤ x) : 0 ≤ jsLit x := roundTo_nonneg 53 (-1022) x h

theorem jsAdd_mono (a b c d : ℚ) (h1 : a ≤ b) (h2 : c ≤ d) : jsAdd a c ≤ jsAdd b d :=
  f64_mono _ _ (add_le_add h1 h2)

theorem jsSub_mono (a b c : ℚ) (h : a ≤ b) : jsSub a c ≤ jsSub b c :=
  f64_mono _ _ (sub_le_sub_right h c)

theorem jsMul_mono (a b c : ℚ) (hc : 0 ≤ c) (h : a ≤ b) : jsMul a c ≤ jsMul b c :=
  f64_mono _ _ (mul_le_mul_of_nonneg_right h hc)

theorem unitDraws_top : UnitDraws topDraws := by
  intro k
  constructor <;> norm_num [topDraws]

theorem unitDraws_edge (j : ℕ) : UnitDraws (edgeDraws j) := by
  intro k
  unfold edgeDraws
  split <;> constructor <;> norm_num

/-- The draw `1 - 2 ^ (-52)` is a JavaScript number. -/
theorem topDraws_number (k : ℕ) : f64 (topDraws k) = topDraws k :=
  f64_fix _ 4503599627370495 (-52) (by norm_num [topDraws]) (by norm_num) (by norm_num)

theorem edgeDraws_self (j : ℕ) : edgeDraws j j = 1 - 1 / 2 ^ 52 := by
  unfold edgeDraws
  rw [if_pos rfl]

theorem edgeDraws_other (j k : ℕ) (h : k ≠ j) : edgeDraws j k = 0 := by
  unfold edgeDraws
  rw [if_neg h]

/-! ## The stored respawn -/

namespace Stored

theorem st_particleAt_initCooler (random : ℕ → ℚ) (n index slots : ℕ) (b : Buffers)
    (hb : Sized slots b) (hi : index < slots) :
    particleAt (initCoolerParticleProps random n index b) index = coolerSpawn random n := by
  obtain ⟨h1, h2, h3, h4, h5⟩ := hb
  have e : index * 3 = 3 * index := Nat.mul_comm _ _
  simp only [particleAt, initCoolerParticleProps, coolerSpawn, vectorAt, e]
  simp (disch := first | omega | (simp only [List.length_set]; omega)) only [rd_set_eq, rd_set_ne]

theorem st_particleAt_initRack (random : ℕ → ℚ) (n index slots : ℕ) (b : Buffers)
    (hb : Sized slots b) (hi : index < slots) :
    particleAt (initRackParticleProps random n index b) index = rackSpawn random n := by
  obtain ⟨h1, h2, h3, h4, h5⟩ := hb
  have e : index * 3 = 3 * index := Nat.mul_comm _ _
  simp only [particleAt, initRackParticleProps, rackSpawn, vectorAt, e]
  simp (disch := first | omega | (simp only [List.length_set]; omega)) only [rd_set_eq, rd_set_ne]

theorem st_spawn_lifetime (r1 r2 : ℚ) (h1 : 0 ≤ r1 ∧ r1 < 1) (h2 : 0 ≤ r2 ∧ r2 < 1) :
    (0 ≤ f32 (jsMul r1 1000) ∧ f32 (jsMul r1 1000) ≤ 1000) ∧
      1000 ≤ f32 (jsAdd 1000 (jsMul r2 500)) ∧ f32 (jsAdd 1000 (jsMul r2 500)) ≤ 1500 :=
  ⟨⟨st_spawnAge_zero.symm.le.trans (f32_mono _ _ (jsMul_mono _ _ _ (by norm_num) h1.1)),
      (f32_mono _ _ (jsMul_mono _ _ _ (by norm_num) h1.2.le)).trans st_spawnAge_one.le⟩,
    st_spawnMaxAge_zero.symm.le.trans
      (f32_mono _ _ (jsAdd_mono _ _ _ _ le_rfl (jsMul_mono _ _ _ (by norm_num) h2.1))),
    (f32_mono _ _ (jsAdd_mono _ _ _ _ le_rfl (jsMul_mono _ _ _ (by norm_num) h2.2.le))).trans
      st_spawnMaxAge_one.le⟩

theorem st_coolerSpawn_ranges (random : ℕ → ℚ) (hr : UnitDraws random) (n : ℕ) :
    StoredCoolerRanges (coolerSpawn random n) ∧ StoredLifetimeRanges (coolerSpawn random n) := by
  have c0 := hr n
  have c1 := hr (n + 1)
  have c2 := hr (n + 2)
  have c3 := hr (n + 3)
  have c4 := hr (n + 4)
  have hl := st_spawn_lifetime _ _ (hr (n + 5)) (hr (n + 6))
  have p01 : 0 ≤ jsLit 0.1 := jsLit_nonneg _ (by norm_num)
  have p02 : 0 ≤ jsLit 0.2 := jsLit_nonneg _ (by norm_num)
  have p002 : 0 ≤ jsLit 0.02 := jsLit_nonneg _ (by norm_num)
  refine ⟨⟨f32_zero, ⟨?_, ?_⟩, ⟨?_, ?_⟩, ⟨?_, ?_⟩, ⟨?_, ?_⟩, ⟨?_, ?_⟩, ?_⟩,
    hl.1.1, hl.1.2, hl.2.1, hl.2.2⟩
  · exact st_coolerY_zero.symm.le.trans
      (f32_mono _ _ (jsAdd_mono _ _ _ _ (jsMul_mono _ _ _ p02 (jsSub_mono _ _ _ c0.1)) le_rfl))
  · exact (f32_mono _ _
      (jsAdd_mono _ _ _ _ (jsMul_mono _ _ _ p02 (jsSub_mono _ _ _ c0.2.le)) le_rfl)).trans
      st_coolerY_one.le
  · exact st_coolerZ_zero.symm.le.trans
      (f32_mono _ _ (jsMul_mono _ _ _ (by norm_num) (jsSub_mono _ _ _ c1.1)))
  · exact (f32_mono _ _ (jsMul_mono _ _ _ (by norm_num) (jsSub_mono _ _ _ c1.2.le))).trans
      st_coolerZ_one.le
  · exact st_coolerVx_zero.symm.le.trans (f32_mono _ _ (jsMul_mono _ _ _ (by norm_num) c2.1))
  · exact (f32_mono _ _ (jsMul_mono _ _ _ (by norm_num) c2.2.le)).trans st_coolerVx_one.le
  · exact st_coolerVy_one.symm.le.trans
      (f32_mono _ _ (neg_le_neg (jsAdd_mono _ _ _ _ (jsMul_mono _ _ _ p01 c3.2.le) le_rfl)))
  · exact ((f32_mono _ _
      (neg_le_neg (jsAdd_mono _ _ _ _ (jsMul_mono _ _ _ p01 c3.1) le_rfl))).trans
      st_coolerVy_zero.le).trans (by rw [fround_0_1]; norm_num)
  · exact (le_of_le_of_eq (by rw [fround_0_01]; norm_num) st_coolerVz_zero.symm).trans
      (f32_mono _ _ (jsMul_mono _ _ _ p002 (jsSub_mono _ _ _ c4.1)))
  · exact lt_of_le_of_lt ((f32_mono _ _
      (jsMul_mono _ _ _ p002 (jsSub_mono _ _ _ c4.2.le))).trans st_coolerVz_one.le)
      (by rw [fround_0_01]; norm_num)
  · show (⟨f32 (jsLit 0.1), f32 (jsLit 0.5), f32 (jsLit 1.0)⟩ : Vector3) = _
    rw [fround_half, fround_one]
    rfl

theorem st_rackSpawn_ranges (random : ℕ → ℚ) (hr : UnitDraws random) (n : ℕ) :
    StoredRackRanges (rackSpawn random n) ∧ StoredLifetimeRanges (rackSpawn random n) := by
  have c0 := hr n
  have c1 := hr (n + 1)
  have c2 := hr (n + 2)
  have c3 := hr (n + 3)
  have c4 := hr (n + 4)
  have c5 := hr (n + 5)
  have hl := st_spawn_lifetime _ _ (hr (n + 6)) (hr (n + 7))
  have p05 : 0 ≤ jsLit 0.5 := jsLit_nonneg _ (by norm_num)
  have p25 : 0 ≤ jsLit 2.5 := jsLit_nonneg _ (by norm_num)
  have p0001 : 0 ≤ jsLit 0.001 := jsLit_nonneg _ (by norm_num)
  have pa : 0 ≤ accelerationFactor := jsLit_nonneg _ (by norm_num)
  have z1 : -fround 1.3 ≤ (rackSpawn random n).position.z :=
    st_rackZ_one.symm.le.trans
      (f32_mono _ _ (neg_le_neg (jsAdd_mono _ _ _ _ (jsSub_mono _ _ _ c2.2.le) le_rfl)))
  have z2 : (rackSpawn random n).position.z ≤ -fround 0.3 :=
    (f32_mono _ _
      (neg_le_neg (jsAdd_mono _ _ _ _ (jsSub_mono _ _ _ c2.1) le_rfl))).trans st_rackZ_zero.le
  have vx1 : -fround 0.00125 ≤ (rackSpawn random n).velocity.x :=
    st_rackVx_zero.symm.le.trans
      (f32_mono _ _ (jsMul_mono _ _ _ pa (jsMul_mono _ _ _ p0001 (jsSub_mono _ _ _ c3.1))))
  have vx2 : (rackSpawn random n).velocity.x ≤ fround 0.00125 :=
    (f32_mono _ _
      (jsMul_mono _ _ _ pa (jsMul_mono _ _ _ p0001 (jsSub_mono _ _ _ c3.2.le)))).trans
      st_rackVx_one.le
  have vy1 : fround 0.00125 ≤ (rackSpawn random n).velocity.y :=
    st_rackVy_zero.symm.le.trans
      (f32_mono _ _ (jsMul_mono _ _ _ pa
        (jsAdd_mono _ _ _ _ (jsMul_mono _ _ _ p0001 (jsSub_mono _ _ _ c4.1)) le_rfl)))
  have vy2 : (rackSpawn random n).velocity.y ≤ fround 0.00375 :=
    (f32_mono _ _ (jsMul_mono _ _ _ pa
      (jsAdd_mono _ _ _ _ (jsMul_mono _ _ _ p0001 (jsSub_mono _ _ _ c4.2.le)) le_rfl))).trans
      st_rackVy_one.le
  have vz1 : -fround 0.005 ≤ (rackSpawn random n).velocity.z :=
    st_rackVz_one.symm.le.trans
      (f32_mono _ _ (jsMul_mono _ _ _ pa
        (neg_le_neg (jsAdd_mono _ _ _ _ (jsMul_mono _ _ _ p0001 c5.2.le) le_rfl))))
  have vz2 : (rackSpawn random n).velocity.z ≤ -fround 0.0025 :=
    (f32_mono _ _ (jsMul_mono _ _ _ pa
      (neg_le_neg (jsAdd_mono _ _ _ _ (jsMul_mono _ _ _ p0001 c5.1) le_rfl)))).trans
      st_rackVz_zero.le
  refine ⟨⟨⟨?_, ?_⟩, ⟨?_, ?_⟩, ⟨?_, ?_⟩, ⟨?_, ?_⟩, ⟨vy1, ?_⟩, ⟨?_, vz2⟩, ?_, ?_, ?_⟩,
    hl.1.1, hl.1.2, hl.2.1, hl.2.2⟩
  · exact st_rackX_zero.symm.le.trans
      (f32_mono _ _ (jsMul_mono _ _ _ p05 (jsSub_mono _ _ _ c0.1)))
  · exact (f32_mono _ _ (jsMul_mono _ _ _ p05 (jsSub_mono _ _ _ c0.2.le))).trans
      st_rackX_one.le
  · exact st_rackY_zero.symm.le.trans
      (f32_mono _ _ (jsMul_mono _ _ _ p25 (jsSub_mono _ _ _ c1.1)))
  · exact (f32_mono _ _ (jsMul_mono _ _ _ p25 (jsSub_mono _ _ _ c1.2.le))).trans
      st_rackY_one.le
  · exact lt_of_lt_of_le (by rw [fround_1_3]; norm_num) z1
  · exact z2.trans (by rw [fround_0_3]; norm_num)
  · exact le_trans (by rw [fround_0_00125]; norm_num) vx1
  · exact lt_of_le_of_lt vx2 (by rw [fround_0_00125]; norm_num)
  · exact lt_of_le_of_lt vy2 (by rw [fround_0_00375]; norm_num)
  · exact lt_of_lt_of_le (by rw [fround_0_005]; norm_num) vz1
  · exact lt_of_lt_of_le (by rw [fround_0_00125]; norm_num) vy1
  · exact lt_of_le_of_lt vz2 (by rw [fround_0_0025]; norm_num)
  · show (⟨f32 (jsLit 1.0), f32 (jsLit 0.1), f32 (jsLit 0.1)⟩ : Vector3) = _
    rw [fround_one]
    rfl

theorem st_initCooler_ranges (random : ℕ → ℚ) (n index slots : ℕ) (b : Buffers)
    (hr : UnitDraws random) (hb : Sized slots b) (hi : index < slots) :
    StoredCoolerRanges (particleAt (initCoolerParticleProps random n index b) index) ∧
      StoredLifetimeRanges (particleAt (initCoolerParticleProps random n index b) index) := by
  rw [st_particleAt_initCooler random n index slots b hb hi]
  exact st_coolerSpawn_ranges random hr n

theorem st_initRack_ranges (random : ℕ → ℚ) (n index slots : ℕ) (b : Buffers)
    (hr : UnitDraws random) (hb : Sized slots b) (hi : index < slots) :
    StoredRackRanges (particleAt (initRackParticleProps random n index b) index) ∧
      StoredLifetimeRanges (particleAt (initRackParticleProps random n index b) index) := by
  rw [st_particleAt_initRack random n index slots b hb hi]
  exact st_rackSpawn_ranges random hr n

end Stored

/-! ## Stored lifetime ranges (C4) -/

/-- C4, amended. For every slot of correctly sized arrays and draws in `[0, 1)`, both
respawn policies, whose results are rounded into `Float32Array`s, leave an age in
`[0, 1000]` and a maximal age in `[1000, 1500]`, so that the age is at most the maximal
age right after a respawn. -/
theorem stored_lifetime_ranges (random : ℕ → ℚ) (n index slots : ℕ) (b : Buffers)
    (hr : UnitDraws random) (hb : Sized slots b) (hi : index < slots) :
    (StoredLifetimeRanges (particleAt (Stored.initCoolerParticleProps random n index b) index) ∧
      (particleAt (Stored.initCoolerParticleProps random n index b) index).age ≤
        (particleAt (Stored.initCoolerParticleProps random n index b) index).maxAge) ∧
    (StoredLifetimeRanges (particleAt (Stored.initRackParticleProps random n index b) index) ∧
      (particleAt (Stored.initRackParticleProps random n index b) index).age ≤
        (particleAt (Stored.initRackParticleProps random n index b) index).maxAge) := by
  have hc := (Stored.st_initCooler_ranges random n index slots b hr hb hi).2
  have hk := (Stored.st_initRack_ranges random n index slots b hr hb hi).2
  exact ⟨⟨hc, hc.2.1.trans hc.2.2.1⟩, ⟨hk, hk.2.1.trans hk.2.2.1⟩⟩

/-- Witness of C4: slot 0 of a freshly allocated one-slot system, every draw equal to 1/2. -/
theorem stored_lifetime_ranges_witness :
    UnitDraws halfDraws ∧ Sized 1 (allocate 1) ∧
      (particleAt (Stored.initCoolerParticleProps halfDraws 0 0 (allocate 1)) 0).age ≤
        (particleAt (Stored.initCoolerParticleProps halfDraws 0 0 (allocate 1)) 0).maxAge ∧
      (particleAt (Stored.initRackParticleProps halfDraws 0 0 (allocate 1)) 0).age ≤
        (particleAt (Stored.initRackParticleProps halfDraws 0 0 (allocate 1)) 0).maxAge :=
  ⟨unitDraws_half, sized_allocate 1,
    (stored_lifetime_ranges halfDraws 0 0 1 (allocate 1) unitDraws_half (sized_allocate 1)
      (by decide)).1.2,
    (stored_lifetime_ranges halfDraws 0 0 1 (allocate 1) unitDraws_half (sized_allocate 1)
      (by decide)).2.2⟩

/-- Counterexample to C4 as stated. With the draw `1 - 2 ^ (-52)` for the age and the
draw 0 for the maximal age, both policies store the age 1000 and the maximal age 1000:
the age is not below 1000 and not below the maximal age.  With the draw `1 - 2 ^ (-52)`
for the maximal age, the cooler policy stores the maximal age 1500. -/
theorem stored_age_reaches_maxAge :
    UnitDraws (edgeDraws 5) ∧ UnitDraws (edgeDraws 6) ∧ UnitDraws topDraws ∧
      f64 (topDraws 0) = topDraws 0 ∧ edgeDraws 5 5 = topDraws 0 ∧ edgeDraws 6 6 = topDraws 0 ∧
      (particleAt (Stored.initCoolerParticleProps (edgeDraws 5) 0 0 (allocate 1)) 0).age = 1000 ∧
      (particleAt (Stored.initCoolerParticleProps (edgeDraws 5) 0 0 (allocate 1)) 0).maxAge =
        1000 ∧
      (particleAt (Stored.initRackParticleProps (edgeDraws 6) 0 0 (allocate 1)) 0).age = 1000 ∧
      (particleAt (Stored.initRackParticleProps (edgeDraws 6) 0 0 (allocate 1)) 0).maxAge =
        1000 ∧
      (particleAt (Stored.initCoolerParticleProps topDraws 0 0 (allocate 1)) 0).maxAge =
        1500 := by
  refine ⟨unitDraws_edge 5, unitDraws_edge 6, unitDraws_top, topDraws_number 0,
    edgeDraws_self 5, edgeDraws_self 6, ?_, ?_, ?_, ?_, ?_⟩
  · rw [Stored.st_particleAt_initCooler _ 0 0 1 _ (sized_allocate 1) (by decide)]
    show f32 (jsMul (edgeDraws 5 5) 1000) = 1000
    rw [edgeDraws_self]
    exact Stored.st_spawnAge_top
  · rw [Stored.st_particleAt_initCooler _ 0 0 1 _ (sized_allocate 1) (by decide)]
    show f32 (jsAdd 1000 (jsMul (edgeDraws 5 6) 500)) = 1000
    rw [edgeDraws_other 5 6 (by decide)]
    exact Stored.st_spawnMaxAge_zero
  · rw [Stored.st_particleAt_initRack _ 0 0 1 _ (sized_allocate 1) (by decide)]
    show f32 (jsMul (edgeDraws 6 6) 1000) = 1000
    rw [edgeDraws_self]
    exact Stored.st_spawnAge_top
  · rw [Stored.st_particleAt_initRack _ 0 0 1 _ (sized_allocate 1) (by decide)]
    show f32 (jsAdd 1000 (jsMul (edgeDraws 6 7) 500)) = 1000
    rw [edgeDraws_other 6 7 (by decide)]
    exact Stored.st_spawnMaxAge_zero
  · rw [Stored.st_particleAt_initCooler _ 0 0 1 _ (sized_allocate 1) (by decide)]
    exact Stored.st_spawnMaxAge_top

/-! ## Stored spawn ranges of the cooler policy (C5) -/

/-- C5, amended. For every slot of correctly sized arrays and draws in `[0, 1)`,
`initCoolerParticleProps` leaves the slot with position x = 0, y from the `Float32` value
of 19.9 to that of 20.1, both included, z in `[-20, 20]`, velocity x in `[0, 2]`, y from
minus the `Float32` value of 0.2, included, to -0.1, z in `[-0.01, 0.01)`, and the colour
(`Float32` value of 0.1, 0.5, 1.0). -/
theorem stored_cooler_spawn_ranges (random : ℕ → ℚ) (n index slots : ℕ) (b : Buffers)
    (hr : UnitDraws random) (hb : Sized slots b) (hi : index < slots) :
    StoredCoolerRanges (particleAt (Stored.initCoolerParticleProps random n index b) index) :=
  (Stored.st_initCooler_ranges random n index slots b hr hb hi).1

/-- Witness of C5: slot 0 of a freshly allocated one-slot system, every draw equal to 1/2. -/
theorem stored_cooler_spawn_ranges_witness :
    UnitDraws halfDraws ∧ Sized 1 (allocate 1) ∧
      StoredCoolerRanges
        (particleAt (Stored.initCoolerParticleProps halfDraws 0 0 (allocate 1)) 0) :=
  ⟨unitDraws_half, sized_allocate 1,
    stored_cooler_spawn_ranges halfDraws 0 0 1 (allocate 1) unitDraws_half (sized_allocate 1)
      (by decide)⟩

/-- Counterexample to C5 as stated. With every draw 0 the stored position y is
10433331 / 524288 = 19.899999618..., below 19.9, and the stored red component is
13421773 / 134217728 = 0.100000001..., not 0.1; with every draw `1 - 2 ^ (-52)` the
stored position y is 10538189 / 524288 = 20.100000381..., not below 20.1, the stored
position z is 20, the stored velocity x is 2 and the stored velocity y is
-13421773 / 67108864 = -0.200000002..., not above -0.2. -/
theorem stored_cooler_spawn_edges :
    UnitDraws zeroDraws ∧ UnitDraws topDraws ∧ f64 (topDraws 0) = topDraws 0 ∧
      (particleAt (Stored.initCoolerParticleProps zeroDraws 0 0 (allocate 1)) 0).position.y =
        10433331 / 524288 ∧
      (particleAt (Stored.initCoolerParticleProps zeroDraws 0 0 (allocate 1)) 0).color.x =
        13421773 / 134217728 ∧
      (particleAt (Stored.initCoolerParticleProps topDraws 0 0 (allocate 1)) 0).position.y =
        10538189 / 524288 ∧
      (particleAt (Stored.initCoolerParticleProps topDraws 0 0 (allocate 1)) 0).position.z =
        20 ∧
      (particleAt (Stored.initCoolerParticleProps topDraws 0 0 (allocate 1)) 0).velocity.x =
        2 ∧
      (particleAt (Stored.initCoolerParticleProps topDraws 0 0 (allocate 1)) 0).velocity.y =
        -(13421773 / 67108864) ∧
      ¬ CoolerSpawnRanges
        (particleAt (Stored.initCoolerParticleProps zeroDraws 0 0 (allocate 1)) 0) ∧
      ¬ CoolerSpawnRanges
        (particleAt (Stored.initCoolerParticleProps topDraws 0 0 (allocate 1)) 0) := by
  have hy : (particleAt (Stored.initCoolerParticleProps zeroDraws 0 0 (allocate 1))
      0).position.y = 10433331 / 524288 := by
    rw [Stored.st_particleAt_initCooler _ 0 0 1 _ (sized_allocate 1) (by decide)]
    exact Stored.st_coolerY_zero.trans fround_19_9
  have hc : (particleAt (Stored.initCoolerParticleProps zeroDraws 0 0 (allocate 1))
      0).color.x = 13421773 / 134217728 := by
    rw [Stored.st_particleAt_initCooler _ 0 0 1 _ (sized_allocate 1) (by decide)]
    exact fround_0_1
  have hy2 : (particleAt (Stored.initCoolerParticleProps topDraws 0 0 (allocate 1))
      0).position.y = 10538189 / 524288 := by
    rw [Stored.st_particleAt_initCooler _ 0 0 1 _ (sized_allocate 1) (by decide)]
    exact Stored.st_coolerY_top
  have hz : (particleAt (Stored.initCoolerParticleProps topDraws 0 0 (allocate 1))
      0).position.z = 20 := by
    rw [Stored.st_particleAt_initCooler _ 0 0 1 _ (sized_allocate 1) (by decide)]
    exact Stored.st_coolerZ_top
  have hv : (particleAt (Stored.initCoolerParticleProps topDraws 0 0 (allocate 1))
      0).velocity.x = 2 := by
    rw [Stored.st_particleAt_initCooler _ 0 0 1 _ (sized_allocate 1) (by decide)]
    exact Stored.st_coolerVx_top
  have hw : (particleAt (Stored.initCoolerParticleProps topDraws 0 0 (allocate 1))
      0).velocity.y = -(13421773 / 67108864) := by
    rw [Stored.st_particleAt_initCooler _ 0 0 1 _ (sized_allocate 1) (by decide)]
    exact Stored.st_coolerVy_top
  refine ⟨unitDraws_zero, unitDraws_top, topDraws_number 0, hy, hc, hy2, hz, hv, hw, ?_, ?_⟩
  · intro h
    have h1 := h.2.1.1
    rw [hy] at h1
    norm_num at h1
  · intro h
    have h1 := h.2.2.2.1.2
    rw [hv] at h1
    norm_num at h1

/-! ## Stored spawn ranges of the rack policy (C6) -/

/-- C6, amended. For every slot of correctly sized arrays and draws in `[0, 1)`,
`initRackParticleProps` leaves the slot with position x in `[-0.25, 0.25]`,
y in `[-1.25, 1.25]`, z in `(-1.3, -0.3]`, velocity x in `[-0.00125, 0.00125)`, y from the
`Float32` value of 0.00125, included, to 0.00375, z from -0.005 to minus the `Float32`
value of 0.0025, included, which are the ranges of 2.5 times `(u, v + 0.001, -(w + 0.001))`
with two ends rounded, hence velocity y positive and velocity z negative, and the colour
(1.0, `Float32` value of 0.1, `Float32` value of 0.1). -/
theorem stored_rack_spawn_ranges (random : ℕ → ℚ) (n index slots : ℕ) (b : Buffers)
    (hr : UnitDraws random) (hb : Sized slots b) (hi : index < slots) :
    StoredRackRanges (particleAt (Stored.initRackParticleProps random n index b) index) :=
  (Stored.st_initRack_ranges random n index slots b hr hb hi).1

/-- Witness of C6: slot 0 of a freshly allocated one-slot system, every draw equal to 1/2. -/
theorem stored_rack_spawn_ranges_witness :
    UnitDraws halfDraws ∧ Sized 1 (allocate 1) ∧
      StoredRackRanges (particleAt (Stored.initRackParticleProps halfDraws 0 0 (allocate 1)) 0) :=
  ⟨unitDraws_half, sized_allocate 1,
    stored_rack_spawn_ranges halfDraws 0 0 1 (allocate 1) unitDraws_half (sized_allocate 1)
      (by decide)⟩

/-- Counterexample to C6 as stated. With every draw `1 - 2 ^ (-52)` the stored position is
x = 0.25 and y = 1.25; with every draw 0 the stored velocity y is
5368709 / 4294967296 = 0.00124999997..., below 2.5 * (-0.0005 + 0.001), the stored
velocity z is -5368709 / 2147483648 = -0.00249999994..., above 2.5 * -(0 + 0.001), and the
stored green component is 13421773 / 134217728, not 0.1. -/
theorem stored_rack_spawn_edges :
    UnitDraws zeroDraws ∧ UnitDraws topDraws ∧ f64 (topDraws 0) = topDraws 0 ∧
      (particleAt (Stored.initRackParticleProps topDraws 0 0 (allocate 1)) 0).position.x =
        0.25 ∧
      (particleAt (Stored.initRackParticleProps topDraws 0 0 (allocate 1)) 0).position.y =
        1.25 ∧
      (particleAt (Stored.initRackParticleProps zeroDraws 0 0 (allocate 1)) 0).velocity.y =
        5368709 / 4294967296 ∧
      (particleAt (Stored.initRackParticleProps zeroDraws 0 0 (allocate 1)) 0).velocity.z =
        -(5368709 / 2147483648) ∧
      (particleAt (Stored.initRackParticleProps zeroDraws 0 0 (allocate 1)) 0).color.y =
        13421773 / 134217728 ∧
      ¬ RackSpawnRanges
        (particleAt (Stored.initRackParticleProps topDraws 0 0 (allocate 1)) 0) ∧
      ¬ RackSpawnRanges
        (particleAt (Stored.initRackParticleProps zeroDraws 0 0 (allocate 1)) 0) := by
  have hx : (particleAt (Stored.initRackParticleProps topDraws 0 0 (allocate 1))
      0).position.x = 0.25 := by
    rw [Stored.st_particleAt_initRack _ 0 0 1 _ (sized_allocate 1) (by decide)]
    exact Stored.st_rackX_top.trans (by norm_num)
  have hy : (particleAt (Stored.initRackParticleProps topDraws 0 0 (allocate 1))
      0).position.y = 1.25 := by
    rw [Stored.st_particleAt_initRack _ 0 0 1 _ (sized_allocate 1) (by decide)]
    exact Stored.st_rackY_top.trans (by norm_num)
  have hv : (particleAt (Stored.initRackParticleProps zeroDraws 0 0 (allocate 1))
      0).velocity.y = 5368709 / 4294967296 := by
    rw [Stored.st_particleAt_initRack _ 0 0 1 _ (sized_allocate 1) (by decide)]
    exact Stored.st_rackVy_zero.trans fround_0_00125
  have hw : (particleAt (Stored.initRackParticleProps zeroDraws 0 0 (allocate 1))
      0).velocity.z = -(5368709 / 2147483648) := by
    rw [Stored.st_particleAt_initRack _ 0 0 1 _ (sized_allocate 1) (by decide)]
    exact Stored.st_rackVz_zero.trans (congrArg Neg.neg fround_0_0025)
  have hc : (particleAt (Stored.initRackParticleProps zeroDraws 0 0 (allocate 1))
      0).color.y = 13421773 / 134217728 := by
    rw [Stored.st_particleAt_initRack _ 0 0 1 _ (sized_allocate 1) (by decide)]
    exact fround_0_1
  refine ⟨unitDraws_zero, unitDraws_top, topDraws_number 0, hx, hy, hv, hw, hc, ?_, ?_⟩
  · intro h
    have h1 := h.1.2
    rw [hx] at h1
    norm_num at h1
  · intro h
    have h1 := congrArg Vector3.y h.2.2.2.2.2.2
    rw [hc] at h1
    norm_num at h1

/-! ## Creation with stored values -/

namespace Stored

theorem st_initCoolerLoop_succ (random : ℕ → ℚ) (k : ℕ) (s : Sim) :
    initCoolerLoop random (k + 1) s =
      { geometry := initCoolerParticleProps random (initCoolerLoop random k s).fx.drawn k
          (initCoolerLoop random k s).geometry
        fx := { (initCoolerLoop random k s).fx with
          drawn := (initCoolerLoop random k s).fx.drawn + 7 } } := by
  simp only [initCoolerLoop, List.range_succ, List.foldl_append, List.foldl_cons,
    List.foldl_nil]

theorem st_initRackLoop_succ (random : ℕ → ℚ) (k : ℕ) (s : Sim) :
    initRackLoop random (k + 1) s =
      { geometry := initRackParticleProps random (initRackLoop random k s).fx.drawn k
          (initRackLoop random k s).geometry
        fx := { (initRackLoop random k s).fx with
          drawn := (initRackLoop random k s).fx.drawn + 8 } } := by
  simp only [initRackLoop, List.range_succ, List.foldl_append, List.foldl_cons,
    List.foldl_nil]

/-- The initialisation loop of `createCoolerParticles` gives slot `p` the draws number
`7 * p` to `7 * p + 6` after those already consumed. -/
theorem st_initCoolerLoop_slots (random : ℕ → ℚ) (n k : ℕ) (s : Sim)
    (hs : Sized n s.geometry) (hk : k ≤ n) :
    Sized n (initCoolerLoop random k s).geometry ∧
      (initCoolerLoop random k s).fx.drawn = s.fx.drawn + 7 * k ∧
      ∀ p, p < k →
        particleAt (initCoolerLoop random k s).geometry p =
          coolerSpawn random (s.fx.drawn + 7 * p) := by
  induction k with
  | zero => exact ⟨hs, rfl, fun p hp => absurd hp (Nat.not_lt_zero p)⟩
  | succ k ih =>
    obtain ⟨h1, h2, h3⟩ := ih (by omega)
    rw [st_initCoolerLoop_succ]
    refine ⟨st_sized_initCooler _ _ _ _ _ h1, ?_, fun p hp => ?_⟩
    · dsimp only
      rw [h2]
      ring
    · dsimp only
      by_cases hpk : p = k
      · subst hpk
        rw [st_particleAt_initCooler random _ p n _ h1 (by omega), h2]
      · rw [st_particleAt_initCooler_ne _ _ _ _ _ hpk]
        exact h3 p (by omega)

/-- The initialisation loop of `createRackParticles` gives slot `p` the draws number
`8 * p` to `8 * p + 7` after those already consumed. -/
theorem st_initRackLoop_slots (random : ℕ → ℚ) (n k : ℕ) (s : Sim)
    (hs : Sized n s.geometry) (hk : k ≤ n) :
    Sized n (initRackLoop random k s).geometry ∧
      (initRackLoop random k s).fx.drawn = s.fx.drawn + 8 * k ∧
      ∀ p, p < k →
        particleAt (initRackLoop random k s).geometry p =
          rackSpawn random (s.fx.drawn + 8 * p) := by
  induction k with
  | zero => exact ⟨hs, rfl, fun p hp => absurd hp (Nat.not_lt_zero p)⟩
  | succ k ih =>
    obtain ⟨h1, h2, h3⟩ := ih (by omega)
    rw [st_initRackLoop_succ]
    refine ⟨st_sized_initRack _ _ _ _ _ h1, ?_, fun p hp => ?_⟩
    · dsimp only
      rw [h2]
      ring
    · dsimp only
      by_cases hpk : p = k
      · subst hpk
        rw [st_particleAt_initRack random _ p n _ h1 (by omega), h2]
      · rw [st_particleAt_initRack_ne _ _ _ _ _ hpk]
        exact h3 p (by omega)

theorem st_createCooler_systems (random : ℕ → ℚ) (emitter : ℕ) (st : Store) :
    (createCoolerParticles random emitter st).particleSystems =
      st.particleSystems ++
        [{ geometry :=
            (initCoolerLoop random 500 { geometry := allocate 500, fx := st.fx }).geometry
           emitter := emitter }] := rfl

theorem st_createRack_systems (random : ℕ → ℚ) (emitter : ℕ) (st : Store) :
    (createRackParticles random emitter st).particleSystems =
      st.particleSystems ++
        [{ geometry :=
            (initRackLoop random 100 { geometry := allocate 100, fx := st.fx }).geometry
           emitter := emitter }] := rfl

theorem st_lengths_coolerParticle (sc : Scene) (random : ℕ → ℚ) (cooler p : ℕ) (s : Sim) :
    lengths (coolerParticle sc random cooler s p).geometry = lengths s.geometry := by
  rw [st_coolerParticle_geometry]
  unfold coolerMove coolerLifetime
  dsimp only
  split <;> split <;>
    simp [lengths, collisionResponse, addTurbulence, coolerUpdatePosition,
      initCoolerParticleProps, incrementLifetime]

theorem st_lengths_rackParticle (sc : Scene) (random : ℕ → ℚ) (rack system p : ℕ) (s : Sim) :
    lengths (rackParticle sc random rack system s p).geometry = lengths s.geometry := by
  rw [st_rackParticle_geometry]
  unfold rackMove rackLifetime
  dsimp only
  split <;> split <;>
    simp [lengths, collisionResponse, rackUpdatePosition, initRackParticleProps,
      incrementLifetime]

theorem st_lengths_coolerSystem (sc : Scene) (random : ℕ → ℚ) (cooler : ℕ) (s : Sim) :
    lengths (coolerSystem sc random cooler s).geometry = lengths s.geometry :=
  foldl_invariant (fun t => lengths t.geometry = lengths s.geometry) _ _
    (fun t q _ ht => by
      beta_reduce at ht ⊢
      rw [st_lengths_coolerParticle, ht]) s rfl

theorem st_lengths_rackSystem (sc : Scene) (random : ℕ → ℚ) (rack system : ℕ) (s : Sim) :
    lengths (rackSystem sc random rack system s).geometry = lengths s.geometry :=
  foldl_invariant (fun t => lengths t.geometry = lengths s.geometry) _ _
    (fun t q _ ht => by
      beta_reduce at ht ⊢
      rw [st_lengths_rackParticle, ht]) s rfl

theorem st_lengths_forEachCooler (sc : Scene) (random : ℕ → ℚ) (l : List ParticleData)
    (fx : Effects) :
    (forEachCooler sc random l fx).1.map (fun d => lengths d.geometry) =
      l.map (fun d => lengths d.geometry) := by
  induction l generalizing fx with
  | nil => rfl
  | cons d rest ih =>
    simp only [forEachCooler, List.map_cons, ih, st_lengths_coolerSystem]

theorem st_lengths_forEachRack (sc : Scene) (random : ℕ → ℚ) (l : List ParticleData)
    (system : ℕ) (fx : Effects) :
    (forEachRack sc random system l fx).1.map (fun d => lengths d.geometry) =
      l.map (fun d => lengths d.geometry) := by
  induction l generalizing fx system with
  | nil => rfl
  | cons d rest ih =>
    simp only [forEachRack, List.map_cons, ih, st_lengths_rackSystem]

end Stored

/-! ## Creation with stored values (C10) -/

/-- C10, amended. `createCoolerParticles` appends a system of exactly 500 slots (position,
velocity and colour arrays of length 1500, lifetime arrays of length 500) and
`createRackParticles` one of exactly 100 slots (lengths 300 and 100); with draws in
`[0, 1)` every slot of the new system satisfies the stored ranges of its class's respawn
policy, in which the ends that rounding moves are the `Float32` values of the stated ends
and are included; and an update tick changes no array length of any system in the
store. -/
theorem stored_create_initialises_all_slots (random : ℕ → ℚ) (hr : UnitDraws random)
    (emitter : ℕ) (st : Store) (sc : Scene) :
    (∃ d, (Stored.createCoolerParticles random emitter st).particleSystems =
        st.particleSystems ++ [d] ∧
      lengths d.geometry = (1500, 1500, 1500, 500, 500) ∧
      ∀ p, p < 500 → StoredCoolerRanges (particleAt d.geometry p) ∧
        StoredLifetimeRanges (particleAt d.geometry p)) ∧
    (∃ d, (Stored.createRackParticles random emitter st).particleSystems =
        st.particleSystems ++ [d] ∧
      lengths d.geometry = (300, 300, 300, 100, 100) ∧
      ∀ p, p < 100 → StoredRackRanges (particleAt d.geometry p) ∧
        StoredLifetimeRanges (particleAt d.geometry p)) ∧
    (Stored.updateCoolerParticles sc random st).particleSystems.map
        (fun d => lengths d.geometry) =
      st.particleSystems.map (fun d => lengths d.geometry) ∧
    (Stored.updateRackParticles sc random st).particleSystems.map
        (fun d => lengths d.geometry) =
      st.particleSystems.map (fun d => lengths d.geometry) := by
  have hc := Stored.st_initCoolerLoop_slots random 500 500
    { geometry := allocate 500, fx := st.fx } (sized_allocate 500) le_rfl
  have hk := Stored.st_initRackLoop_slots random 100 100
    { geometry := allocate 100, fx := st.fx } (sized_allocate 100) le_rfl
  refine ⟨⟨_, Stored.st_createCooler_systems random emitter st, ?_, ?_⟩,
    ⟨_, Stored.st_createRack_systems random emitter st, ?_, ?_⟩, ?_, ?_⟩
  · dsimp only
    rw [lengths_of_sized 500 _ hc.1]
  · intro p hp
    dsimp only
    rw [hc.2.2 p hp]
    exact Stored.st_coolerSpawn_ranges random hr _
  · dsimp only
    rw [lengths_of_sized 100 _ hk.1]
  · intro p hp
    dsimp only
    rw [hk.2.2 p hp]
    exact Stored.st_rackSpawn_ranges random hr _
  · exact Stored.st_lengths_forEachCooler sc random _ _
  · exact Stored.st_lengths_forEachRack sc random _ _ _

/-- Witness of C10: a cooler system created in the empty store with every draw equal
to 1/2, and an update of the empty store. -/
theorem stored_create_initialises_all_slots_witness :
    UnitDraws halfDraws ∧
      ∃ d, (Stored.createCoolerParticles halfDraws 7 emptyStore).particleSystems =
          emptyStore.particleSystems ++ [d] ∧
        lengths d.geometry = (1500, 1500, 1500, 500, 500) ∧
        ∀ p, p < 500 → StoredCoolerRanges (particleAt d.geometry p) ∧
          StoredLifetimeRanges (particleAt d.geometry p) :=
  ⟨unitDraws_half,
    (stored_create_initialises_all_slots halfDraws unitDraws_half 7 emptyStore quietScene).1⟩

/-- Counterexample to C10 as stated. A cooler system created in the empty store with every
draw equal to `1 - 2 ^ (-52)` holds in slot 0 the age 1000, the maximal age 1500, the
velocity x = 2 and the position z = 20, none of which lies in the half-open range of the
respawn policy. -/
theorem stored_create_edge_slot :
    UnitDraws topDraws ∧ f64 (topDraws 0) = topDraws 0 ∧
      ∃ d, (Stored.createCoolerParticles topDraws 7 emptyStore).particleSystems = [d] ∧
        (particleAt d.geometry 0).age = 1000 ∧ (particleAt d.geometry 0).maxAge = 1500 ∧
        (particleAt d.geometry 0).velocity.x = 2 ∧ (particleAt d.geometry 0).position.z = 20 ∧
        ¬ LifetimeRanges (particleAt d.geometry 0) ∧
        ¬ CoolerSpawnRanges (particleAt d.geometry 0) := by
  have hc := (Stored.st_initCoolerLoop_slots topDraws 500 500
    { geometry := allocate 500, fx := emptyStore.fx } (sized_allocate 500) le_rfl).2.2 0
    (by decide)
  have ha : (Stored.coolerSpawn topDraws (emptyStore.fx.drawn + 7 * 0)).age = 1000 :=
    Stored.st_spawnAge_top
  have hm : (Stored.coolerSpawn topDraws (emptyStore.fx.drawn + 7 * 0)).maxAge = 1500 :=
    Stored.st_spawnMaxAge_top
  have hv : (Stored.coolerSpawn topDraws (emptyStore.fx.drawn + 7 * 0)).velocity.x = 2 :=
    Stored.st_coolerVx_top
  have hz : (Stored.coolerSpawn topDraws (emptyStore.fx.drawn + 7 * 0)).position.z = 20 :=
    Stored.st_coolerZ_top
  refine ⟨unitDraws_top, topDraws_number 0, _,
    Stored.st_createCooler_systems topDraws 7 emptyStore, ?_, ?_, ?_, ?_, ?_, ?_⟩
  · dsimp only
    rw [hc]
    exact ha
  · dsimp only
    rw [hc]
    exact hm
  · dsimp only
    rw [hc]
    exact hv
  · dsimp only
    rw [hc]
    exact hz
  · dsimp only
    rw [hc]
    intro h
    have h1 := h.2.1
    rw [ha] at h1
    norm_num at h1
  · dsimp only
    rw [hc]
    intro h
    have h1 := h.2.2.2.1.2
    rw [hv] at h1
    norm_num at h1

/-! ## Rounding errors of the stores of a tick -/

/-- The stored increment of a non-negative age differs from the age plus 1 by at most
`2 ^ (-23)` times that sum. -/
theorem store_increment_err (a : ℚ) (h : 0 ≤ a) :
    |f32 (jsAdd a 1) - (a + 1)| ≤ (a + 1) / 2 ^ 23 := by
  have h1 := f64_err (a + 1)
  have h2 := f32_err (f64 (a + 1))
  have h3 : |f64 (a + 1)| ≤ |a + 1| + |f64 (a + 1) - (a + 1)| := by
    have := abs_add (a + 1) (f64 (a + 1) - (a + 1))
    rwa [add_sub_cancel] at this
  have h4 : |f32 (f64 (a + 1)) - (a + 1)| ≤
      |f32 (f64 (a + 1)) - f64 (a + 1)| + |f64 (a + 1) - (a + 1)| :=
    abs_sub_le _ _ _
  have h5 : |a + 1| = a + 1 := abs_of_nonneg (by linarith)
  rw [h5] at h1 h3
  unfold jsAdd
  norm_num at h1 h2 ⊢
  linarith

/-- The stored sum of a velocity `v` and a term `t` of size at most `B * (1 + 2 ^ (-52))`
differs from `v` by at most `B` plus the rounding error of the sum. -/
theorem store_sum_err (v t B : ℚ) (ht : |t| ≤ B * (1 + 1 / 2 ^ 52)) :
    |f32 (jsAdd v t) - v| ≤ B + (|v| + B) / 2 ^ 23 + 1 / 2 ^ 149 := by
  have hB : 0 ≤ B := by
    have := (abs_nonneg t).trans ht
    by_contra hn
    have hn2 : B < 0 := not_le.mp hn
    nlinarith
  have h1 := f64_err (v + t)
  have h2 := f32_err (f64 (v + t))
  have h3 : |f64 (v + t)| ≤ |v + t| + |f64 (v + t) - (v + t)| := by
    have := abs_add (v + t) (f64 (v + t) - (v + t))
    rwa [add_sub_cancel] at this
  have h4 : |v + t| ≤ |v| + |t| := abs_add v t
  have h5 : |f32 (f64 (v + t)) - v| ≤
      |f32 (f64 (v + t)) - f64 (v + t)| + |f64 (v + t) - (v + t)| + |t| := by
    have e : f32 (f64 (v + t)) - v =
        (f32 (f64 (v + t)) - f64 (v + t)) + (f64 (v + t) - (v + t)) + t := by ring
    rw [e]
    exact abs_add_three _ _ _
  have h6 := abs_nonneg v
  unfold jsAdd
  norm_num at h1 h2 ht ⊢
  linarith

namespace Stored

theorem st_turbulence_bounds (r : ℚ) (h : 0 ≤ r ∧ r < 1) :
    |jsMul (jsSub r (jsLit 0.5)) (jsLit 0.001)| ≤ 0.0005 * (1 + 1 / 2 ^ 52) ∧
      |jsMul (jsSub r (jsLit 0.5)) (jsLit 0.01)| ≤ 0.005 * (1 + 1 / 2 ^ 52) ∧
      |jsMul (jsSub r (jsLit 0.5)) (jsLit 0.02)| ≤ 0.01 * (1 + 1 / 2 ^ 52) := by
  have px : 0 ≤ jsLit 0.001 := jsLit_nonneg _ (by norm_num)
  have py : 0 ≤ jsLit 0.01 := jsLit_nonneg _ (by norm_num)
  have pz : 0 ≤ jsLit 0.02 := jsLit_nonneg _ (by norm_num)
  have x0 := st_turbulenceX_zero.symm.le.trans (jsMul_mono _ _ _ px (jsSub_mono _ _ _ h.1))
  have x1 := (jsMul_mono _ _ _ px (jsSub_mono _ _ (jsLit 0.5) h.2.le)).trans
    st_turbulenceX_one.le
  have y0 := st_turbulenceY_zero.symm.le.trans (jsMul_mono _ _ _ py (jsSub_mono _ _ _ h.1))
  have y1 := (jsMul_mono _ _ _ py (jsSub_mono _ _ (jsLit 0.5) h.2.le)).trans
    st_turbulenceY_one.le
  have z0 := st_turbulenceZ_zero.symm.le.trans (jsMul_mono _ _ _ pz (jsSub_mono _ _ _ h.1))
  have z1 := (jsMul_mono _ _ _ pz (jsSub_mono _ _ (jsLit 0.5) h.2.le)).trans
    st_turbulenceZ_one.le
  refine ⟨abs_le.mpr ⟨?_, ?_⟩, abs_le.mpr ⟨?_, ?_⟩, abs_le.mpr ⟨?_, ?_⟩⟩
  · norm_num at x0 ⊢
    linarith
  · norm_num at x1 ⊢
    linarith
  · norm_num at y0 ⊢
    linarith
  · norm_num at y1 ⊢
    linarith
  · norm_num at z0 ⊢
    linarith
  · norm_num at z1 ⊢
    linarith

/-- A nearest hit at distance 0.1 or more, the distance being a JavaScript number, does
not pass the test `distance < 0.1`. -/
theorem st_collides_eq_false (hits : List Intersection)
    (h : hits = [] ∨ ∃ first rest, hits = first :: rest ∧ 0.1 ≤ first.distance ∧
      f64 first.distance = first.distance) :
    collides hits = false := by
  rcases h with h | ⟨first, rest, h, hd, hf⟩
  · rw [h]
    rfl
  · rw [h]
    have h1 : jsLit 0.1 ≤ first.distance := by
      rw [← hf]
      exact f64_mono _ _ hd
    simp [collides, not_lt.mpr h1]

/-- The slot of a cooler system after a tick in which it is neither respawned nor hit. -/
theorem st_quiet_cooler (sc : Scene) (random : ℕ → ℚ) (emitter n p : ℕ) (s : Sim)
    (hs : Sized n s.geometry) (hp : p < n)
    (hage : f32 (jsAdd (particleAt s.geometry p).age 1) < (particleAt s.geometry p).maxAge)
    (hc : collides (coolerIntersects sc random emitter (coolerReach sc random emitter s p) p) =
      false) :
    (particleAt (coolerSystem sc random emitter s).geometry p).color =
        (particleAt s.geometry p).color ∧
      (particleAt (coolerSystem sc random emitter s).geometry p).maxAge =
        (particleAt s.geometry p).maxAge ∧
      (particleAt (coolerSystem sc random emitter s).geometry p).age =
        f32 (jsAdd (particleAt s.geometry p).age 1) ∧
      (particleAt (coolerSystem sc random emitter s).geometry p).velocity =
        ⟨f32 (jsAdd (particleAt s.geometry p).velocity.x
            (jsMul (jsSub (random (coolerReach sc random emitter s p).fx.drawn) (jsLit 0.5))
              (jsLit 0.001))),
          f32 (jsAdd (particleAt s.geometry p).velocity.y
            (jsMul (jsSub (random ((coolerReach sc random emitter s p).fx.drawn + 1))
              (jsLit 0.5)) (jsLit 0.01))),
          f32 (jsAdd (particleAt s.geometry p).velocity.z
            (jsMul (jsSub (random ((coolerReach sc random emitter s p).fx.drawn + 2))
              (jsLit 0.5)) (jsLit 0.02)))⟩ := by
  have ht : Sized n (coolerReach sc random emitter s p).geometry :=
    st_sized_coolerReach sc random emitter n p s hs
  have hres : resets (coolerReach sc random emitter s p) p = false := by
    rw [st_resets_eq n p _ ht hp, st_particleAt_coolerReach sc random emitter p p s le_rfl]
    exact decide_eq_false (not_le.mpr hage)
  have hd : coolerDrawn (coolerReach sc random emitter s p) p =
      (coolerReach sc random emitter s p).fx.drawn := by
    simp [coolerDrawn, hres]
  have ha := st_particleAt_coolerSystem sc random emitter n p s hs hp
  rw [st_particleAt_coolerParticle sc random emitter n p _ ht hp,
    st_particleAt_coolerMove random n p _ ht hp, st_particleAt_coolerLifetime random n p _ ht hp,
    st_particleAt_coolerReach sc random emitter p p s le_rfl, hd, hc, hres] at ha
  simp only [Bool.false_eq_true, if_false] at ha
  rw [ha]
  exact ⟨rfl, rfl, rfl, rfl⟩

/-- The slot of a rack system after a tick in which it is neither respawned nor hit. -/
theorem st_quiet_rack (sc : Scene) (random : ℕ → ℚ) (emitter system n p : ℕ) (s : Sim)
    (hs : Sized n s.geometry) (hp : p < n)
    (hage : f32 (jsAdd (particleAt s.geometry p).age 1) < (particleAt s.geometry p).maxAge)
    (hc : collides
      (rackIntersects sc random emitter (rackReach sc random emitter system s p) p) = false) :
    (particleAt (rackSystem sc random emitter system s).geometry p).color =
        (particleAt s.geometry p).color ∧
      (particleAt (rackSystem sc random emitter system s).geometry p).maxAge =
        (particleAt s.geometry p).maxAge ∧
      (particleAt (rackSystem sc random emitter system s).geometry p).age =
        f32 (jsAdd (particleAt s.geometry p).age 1) ∧
      (particleAt (rackSystem sc random emitter system s).geometry p).velocity =
        (particleAt s.geometry p).velocity := by
  have ht : Sized n (rackReach sc random emitter system s p).geometry :=
    st_sized_rackReach sc random emitter system n p s hs
  have hres : resets (rackReach sc random emitter system s p) p = false := by
    rw [st_resets_eq n p _ ht hp, st_particleAt_rackReach sc random emitter system p p s le_rfl]
    exact decide_eq_false (not_le.mpr hage)
  have ha := st_particleAt_rackSystem sc random emitter system n p s hs hp
  rw [st_particleAt_rackParticle sc random emitter system n p _ ht hp,
    st_particleAt_rackMove random n p _ ht hp, st_particleAt_rackLifetime random n p _ ht hp,
    st_particleAt_rackReach sc random emitter system p p s le_rfl, hc, hres] at ha
  simp only [Bool.false_eq_true, if_false] at ha
  rw [ha]
  exact ⟨rfl, rfl, rfl, rfl⟩

end Stored

theorem sized_roundingCooler : Sized 1 roundingCooler.geometry := by
  simp [Sized, roundingCooler]

/-! ## A tick without respawn and without hit, with stored values (C18) -/

/-- C18, amended. In a tick in which a slot is not respawned and its collision check finds
no hit or a nearest hit at distance 0.1 or more, the slot keeps its colour and maximal age
and its age becomes the `Float32` value of the age plus 1, which for a non-negative age is
within `2 ^ (-23)` times that sum of it; a rack slot keeps its velocity, and each component
of a cooler slot's velocity becomes the `Float32` value of the component plus its turbulence
term `(r - 0.5) * 0.001`, `(r - 0.5) * 0.01` or `(r - 0.5) * 0.02` computed in JavaScript
numbers from a draw in `[0, 1)`, so that it moves by at most 0.0005, 0.005 and 0.01 plus
the rounding error of the sum, which is at most `2 ^ (-23)` times the size of the component
plus the bound, plus `2 ^ (-149)`. -/
theorem stored_quiet_tick_frame (sc : Scene) (random : ℕ → ℚ) (emitter system n p : ℕ)
    (s : Sim) (hr : UnitDraws random) (hs : Sized n s.geometry) (hp : p < n)
    (hage : f32 (jsAdd (particleAt s.geometry p).age 1) < (particleAt s.geometry p).maxAge) :
    ((Stored.coolerIntersects sc random emitter (Stored.coolerReach sc random emitter s p) p =
          [] ∨
        ∃ first rest,
          Stored.coolerIntersects sc random emitter (Stored.coolerReach sc random emitter s p)
            p = first :: rest ∧ 0.1 ≤ first.distance ∧ f64 first.distance = first.distance) →
      (particleAt (Stored.coolerSystem sc random emitter s).geometry p).color =
          (particleAt s.geometry p).color ∧
        (particleAt (Stored.coolerSystem sc random emitter s).geometry p).maxAge =
          (particleAt s.geometry p).maxAge ∧
        (particleAt (Stored.coolerSystem sc random emitter s).geometry p).age =
          f32 (jsAdd (particleAt s.geometry p).age 1) ∧
        (0 ≤ (particleAt s.geometry p).age →
          |(particleAt (Stored.coolerSystem sc random emitter s).geometry p).age -
              ((particleAt s.geometry p).age + 1)| ≤
            ((particleAt s.geometry p).age + 1) / 2 ^ 23) ∧
        (∃ r1 r2 r3, (0 ≤ r1 ∧ r1 < 1) ∧ (0 ≤ r2 ∧ r2 < 1) ∧ (0 ≤ r3 ∧ r3 < 1) ∧
          (particleAt (Stored.coolerSystem sc random emitter s).geometry p).velocity =
            ⟨f32 (jsAdd (particleAt s.geometry p).velocity.x
                (jsMul (jsSub r1 (jsLit 0.5)) (jsLit 0.001))),
              f32 (jsAdd (particleAt s.geometry p).velocity.y
                (jsMul (jsSub r2 (jsLit 0.5)) (jsLit 0.01))),
              f32 (jsAdd (particleAt s.geometry p).velocity.z
                (jsMul (jsSub r3 (jsLit 0.5)) (jsLit 0.02)))⟩) ∧
        |(particleAt (Stored.coolerSystem sc random emitter s).geometry p).velocity.x -
            (particleAt s.geometry p).velocity.x| ≤
          0.0005 + (|(particleAt s.geometry p).velocity.x| + 0.0005) / 2 ^ 23 + 1 / 2 ^ 149 ∧
        |(particleAt (Stored.coolerSystem sc random emitter s).geometry p).velocity.y -
            (particleAt s.geometry p).velocity.y| ≤
          0.005 + (|(particleAt s.geometry p).velocity.y| + 0.005) / 2 ^ 23 + 1 / 2 ^ 149 ∧
        |(particleAt (Stored.coolerSystem sc random emitter s).geometry p).velocity.z -
            (particleAt s.geometry p).velocity.z| ≤
          0.01 + (|(particleAt s.geometry p).velocity.z| + 0.01) / 2 ^ 23 + 1 / 2 ^ 149) ∧
    ((Stored.rackIntersects sc random emitter (Stored.rackReach sc random emitter system s p)
          p = [] ∨
        ∃ first rest,
          Stored.rackIntersects sc random emitter
            (Stored.rackReach sc random emitter system s p) p = first :: rest ∧
            0.1 ≤ first.distance ∧ f64 first.distance = first.distance) →
      (particleAt (Stored.rackSystem sc random emitter system s).geometry p).color =
          (particleAt s.geometry p).color ∧
        (particleAt (Stored.rackSystem sc random emitter system s).geometry p).maxAge =
          (particleAt s.geometry p).maxAge ∧
        (particleAt (Stored.rackSystem sc random emitter system s).geometry p).age =
          f32 (jsAdd (particleAt s.geometry p).age 1) ∧
        (0 ≤ (particleAt s.geometry p).age →
          |(particleAt (Stored.rackSystem sc random emitter system s).geometry p).age -
              ((particleAt s.geometry p).age + 1)| ≤
            ((particleAt s.geometry p).age + 1) / 2 ^ 23) ∧
        (particleAt (Stored.rackSystem sc random emitter system s).geometry p).velocity =
          (particleAt s.geometry p).velocity) := by
  constructor
  · intro hh
    obtain ⟨h1, h2, h3, h4⟩ := Stored.st_quiet_cooler sc random emitter n p s hs hp hage
      (Stored.st_collides_eq_false _ hh)
    have c1 := hr (Stored.coolerReach sc random emitter s p).fx.drawn
    have c2 := hr ((Stored.coolerReach sc random emitter s p).fx.drawn + 1)
    have c3 := hr ((Stored.coolerReach sc random emitter s p).fx.drawn + 2)
    refine ⟨h1, h2, h3, fun h0 => ?_, ⟨_, _, _, c1, c2, c3, h4⟩, ?_, ?_, ?_⟩
    · rw [h3]
      exact store_increment_err _ h0
    · rw [h4]
      exact store_sum_err _ _ _ (Stored.st_turbulence_bounds _ c1).1
    · rw [h4]
      exact store_sum_err _ _ _ (Stored.st_turbulence_bounds _ c2).2.1
    · rw [h4]
      exact store_sum_err _ _ _ (Stored.st_turbulence_bounds _ c3).2.2
  · intro hh
    obtain ⟨h1, h2, h3, h4⟩ := Stored.st_quiet_rack sc random emitter system n p s hs hp hage
      (Stored.st_collides_eq_false _ hh)
    refine ⟨h1, h2, h3, fun h0 => ?_, h4⟩
    rw [h3]
    exact store_increment_err _ h0

/-- Witness of C18: the cooler `roundingCooler` in the quiet scene with every draw equal
to 0. -/
theorem stored_quiet_tick_frame_witness :
    UnitDraws zeroDraws ∧ Sized 1 roundingCooler.geometry ∧
      f32 (jsAdd (particleAt roundingCooler.geometry 0).age 1) <
        (particleAt roundingCooler.geometry 0).maxAge ∧
      Stored.coolerIntersects quietScene zeroDraws 0
        (Stored.coolerReach quietScene zeroDraws 0 roundingCooler 0) 0 = [] ∧
      (particleAt (Stored.coolerSystem quietScene zeroDraws 0 roundingCooler).geometry 0).color =
        (particleAt roundingCooler.geometry 0).color :=
  ⟨unitDraws_zero, sized_roundingCooler,
    lt_of_eq_of_lt Stored.st_increment_tie (by norm_num [particleAt, roundingCooler, rd]), rfl,
    ((stored_quiet_tick_frame quietScene zeroDraws 0 0 1 0 roundingCooler unitDraws_zero
      sized_roundingCooler (by decide)
      (lt_of_eq_of_lt Stored.st_increment_tie
        (by norm_num [particleAt, roundingCooler, rd]))).1 (Or.inl rfl)).1⟩

/-- Counterexample to C18 as stated. The cooler `roundingCooler`, whose slot holds the
`Float32` value 5033165 / 16777216 of 0.3 as its age and the velocity x = 1, is neither
respawned nor hit in a tick of the quiet scene with every draw 0; its age becomes
5452595 / 4194304, which is 1 - 2 ^ (-24) more and not 1 more, and its velocity x becomes
16768827 / 16777216, which is 8389 / 16777216 = 0.00050002... less, more than 0.0005. -/
theorem stored_tick_rounds :
    UnitDraws zeroDraws ∧
      Stored.resets roundingCooler 0 = false ∧
      Stored.coolerIntersects quietScene zeroDraws 0
        (Stored.coolerReach quietScene zeroDraws 0 roundingCooler 0) 0 = [] ∧
      (particleAt roundingCooler.geometry 0).age = 5033165 / 16777216 ∧
      (particleAt (Stored.coolerSystem quietScene zeroDraws 0 roundingCooler).geometry 0).age =
        5452595 / 4194304 ∧
      (particleAt (Stored.coolerSystem quietScene zeroDraws 0 roundingCooler).geometry 0).age ≠
        (particleAt roundingCooler.geometry 0).age + 1 ∧
      (particleAt roundingCooler.geometry 0).velocity.x = 1 ∧
      (particleAt (Stored.coolerSystem quietScene zeroDraws 0
        roundingCooler).geometry 0).velocity.x = 16768827 / 16777216 ∧
      ¬ |(particleAt (Stored.coolerSystem quietScene zeroDraws 0
            roundingCooler).geometry 0).velocity.x -
          (particleAt roundingCooler.geometry 0).velocity.x| ≤ 0.0005 := by
  have a0 : (particleAt roundingCooler.geometry 0).age = 5033165 / 16777216 := rfl
  have m0 : (particleAt roundingCooler.geometry 0).maxAge = 1000 := rfl
  have v0 : (particleAt roundingCooler.geometry 0).velocity.x = 1 := rfl
  have hage : f32 (jsAdd (particleAt roundingCooler.geometry 0).age 1) <
      (particleAt roundingCooler.geometry 0).maxAge := by
    rw [a0, m0, Stored.st_increment_tie]
    norm_num
  obtain ⟨-, -, h3, h4⟩ := Stored.st_quiet_cooler quietScene zeroDraws 0 1 0 roundingCooler
    sized_roundingCooler (by decide) hage rfl
  have ha : (particleAt (Stored.coolerSystem quietScene zeroDraws 0
      roundingCooler).geometry 0).age = 5452595 / 4194304 := by
    rw [h3, a0]
    exact Stored.st_increment_tie
  have hv : (particleAt (Stored.coolerSystem quietScene zeroDraws 0
      roundingCooler).geometry 0).velocity.x = 16768827 / 16777216 := by
    rw [h4]
    exact Stored.st_turbulence_one
  refine ⟨unitDraws_zero, ?_, rfl, a0, ha, ?_, v0, hv, ?_⟩
  · rw [Stored.st_resets_eq 1 0 _ sized_roundingCooler (by decide)]
    exact decide_eq_false (not_le.mpr hage)
  · rw [ha, a0]
    norm_num
  · rw [hv, v0, abs_le]
    norm_num

end DatacenterPlanner
